import Mathlib

/-!
# Wishlist API (`sss`): embedding of the route handlers

The repository is an Express application over Sequelize models
(`src/models/index.js`, `src/routes/*.routes.js`).  Every handler is embedded
as a total function

    handler : Faults → Store → (path parameters) → (request body) → Response × Store

* `Store` holds one table per model of `src/models/index.js`; a table is the
  list of its rows in insertion order together with the next value of the
  auto-increment primary key.
* Requests are taken at their documented (OpenAPI) types: path ids are
  integers, a body field is `undefined` (absent), `null`, or a value of the
  type of its column.
* A persistence call either throws or returns.  `Faults` says, for the k-th
  persistence call of a request, whether it throws for a reason outside the
  application (`noFaults`: none does).  Every handler wraps its body in
  `try/catch` and answers `500` when a call throws.
* A call also throws for what `src/models/index.js` declares:
  - `allowNull: false` is validated before a statement is sent;
  - the ids and the foreign keys are `INTEGER` columns: a value outside the
    range of that type makes the statement throw;
  - `unique: true` and the foreign keys that the associations
    (`hasOne`, `hasMany`, `belongsTo` with `foreignKey`) create are checked by
    the database when the row is written; an insert refused there has already
    drawn its id from the sequence;
  - deleting a row sets the foreign keys that refer to it to `null`
    (`ON DELETE SET NULL`, the default of the associations).
* The `createdAt`/`updatedAt` columns are left out.
-/

namespace Sss

/-! ## JSON values and responses -/

/-- JSON value sent with `res.json`. -/
inductive Json where
  | null : Json
  | bool (b : Bool) : Json
  | num (n : Int) : Json
  | str (s : String) : Json
  | arr (items : List Json) : Json
  | obj (fields : List (String × Json)) : Json

namespace Json

/-- Keys of a JSON object (no key for any other value). -/
def keys : Json → List String
  | obj fields => fields.map Prod.fst
  | _ => []

/-- Value of a key of a JSON object. -/
def get? : Json → String → Option Json
  | obj fields, k => (fields.find? (fun kv => kv.1 == k)).map Prod.snd
  | _, _ => none

/-- Object without the listed attributes (`attributes: { exclude: [...] }`). -/
def exclude (j : Json) (names : List String) : Json :=
  match j with
  | obj fields => obj (fields.filter (fun kv => !(names.contains kv.1)))
  | j => j

/-- Object restricted to the listed attributes (`attributes: [...]`). -/
def only (j : Json) (names : List String) : Json :=
  match j with
  | obj fields => obj (fields.filter (fun kv => names.contains kv.1))
  | j => j

/-- Object with one more key appended (an eagerly loaded association). -/
def withField (j : Json) (k : String) (v : Json) : Json :=
  match j with
  | obj fields => obj (fields ++ [(k, v)])
  | j => j

def ofInt? : Option Int → Json
  | some n => num n
  | none => null

def ofString? : Option String → Json
  | some s => str s
  | none => null

def ofOption : Option Json → Json
  | some j => j
  | none => null

end Json

/-- HTTP response: status code and JSON body. -/
structure Response where
  status : Nat
  body : Json

/-- The body `{ message: msg }`. -/
def message (msg : String) : Json := Json.obj [("message", Json.str msg)]

/-- Result of `res.json(body)`: status 200. -/
def Response.json (body : Json) : Response := ⟨200, body⟩

/-- Result of `res.status(code).json(body)`. -/
def Response.statusJson (code : Nat) (body : Json) : Response := ⟨code, body⟩

/-- The response of every `catch` block. -/
def internalServerError : Response := Response.statusJson 500 (message "Internal server error")

/-! ## Request values -/

/-- A property read off `req.body`: absent, `null`, or a value. -/
inductive Field (α : Type) where
  | undefined : Field α
  | null : Field α
  | val (a : α) : Field α
  deriving DecidableEq, Repr

namespace Field

/-- Value that reaches the column when the property is passed to `Model.create`. -/
def toColumn {α : Type} : Field α → Option α
  | undefined => none
  | null => none
  | val a => some a

/-- The assignment `if (x !== undefined) row.x = x`. -/
def assign {α : Type} (f : Field α) (old : Option α) : Option α :=
  match f with
  | undefined => old
  | null => none
  | val a => some a

/-- JSON value of a property that is present in the body (`none`: absent). -/
def present? {α : Type} : Field α → Option (Option α)
  | undefined => none
  | null => some none
  | val a => some (some a)

end Field

/-- The JavaScript `Number(x)` on an id-typed value; `none` is `NaN`. -/
def Number : Field Int → Option Int
  | Field.undefined => none
  | Field.null => some 0
  | Field.val n => some n

/-- The comparison `a === b` of two JavaScript numbers (`NaN` equals nothing). -/
def strictEqNumber : Option Int → Option Int → Bool
  | some a, some b => a == b
  | _, _ => false

/-! ## Persistence layer -/

/-- Why a persistence call threw. -/
inductive DbError where
  /-- A reason outside the application. -/
  | failure : DbError
  /-- The validation of `allowNull: false`, before a statement is sent. -/
  | validation : DbError
  /-- A value outside the range of an `INTEGER` column, or no id left in the sequence. -/
  | range : DbError
  /-- A `unique` or foreign key constraint refused the row. -/
  | constraint : DbError
  deriving DecidableEq, Repr

/-- The values of the column type `INTEGER`. -/
def inInt4 (n : Int) : Bool := decide (-2147483648 ≤ n) && decide (n ≤ 2147483647)

/-- A value for a nullable `INTEGER` column: `null`, or a value of the type. -/
def inInt4? : Option Int → Bool
  | none => true
  | some n => inInt4 n

/-- Outcome of an awaited persistence call. -/
abbrev Db (α : Type) := Except DbError α

/-- For the k-th persistence call of a request: does it throw? -/
abbrev Faults := Nat → Bool

/-- No persistence call throws for an outside reason. -/
def noFaults : Faults := fun _ => false

/-- A table: rows in insertion order and the next auto-increment id. -/
structure Table (α : Type) where
  rows : List α
  nextId : Int

namespace Table

variable {α : Type}

def empty : Table α := ⟨[], 1⟩

/-- The call `Model.findAll({ where })`, the matching rows.  `inRange`: the
values that `where` compares with `INTEGER` columns are values of that type.  A
value outside the type is no stored value, so it matches no row; the statement
then throws.  (A table that holds no value outside the type, as every table the
API reaches, has no matching row for such a value: there the call throws
whenever `inRange` is false.) -/
def findAll (fail inRange : Bool) (t : Table α) (p : α → Bool) : Db (List α) :=
  if fail then Except.error DbError.failure
  else match t.rows.filter p with
    | [] => if inRange then Except.ok [] else Except.error DbError.range
    | r :: rows => Except.ok (r :: rows)

/-- The call `Model.findOne({ where })`, the first matching row; `inRange` as
for `findAll`. -/
def findOne (fail inRange : Bool) (t : Table α) (p : α → Bool) : Db (Option α) :=
  if fail then Except.error DbError.failure
  else match t.rows.find? p with
    | some r => Except.ok (some r)
    | none => if inRange then Except.ok none else Except.error DbError.range

/-- The call `Model.findByPk(pk)`: the row whose `INTEGER` id is `pk`. -/
def findByPk (key : α → Int) (fail : Bool) (t : Table α) (pk : Int) : Db (Option α) :=
  t.findOne fail (inInt4 pk) (fun r => key r == pk)

/-- A foreign key value refers to the table: it is `null` or the id of a row. -/
def refers (key : α → Int) (t : Table α) : Option Int → Bool
  | none => true
  | some k => t.rows.any (fun r => key r == k)

/-- The call `Model.create(values)`; `mk` builds the row from its fresh id.
`valid`: what is checked before the statement runs (`allowNull: false`, the
range of the `INTEGER` values).  `accepted`: what the database checks on the
inserted row (`unique`, foreign keys); a row refused there has drawn its id, so
the sequence has moved on.  The sequence of an `INTEGER` id gives no value
beyond the range of the type.  The result is the outcome of the call and the
table after it. -/
def create (fail : Bool) (t : Table α) (valid accepted : Bool) (mk : Int → α) :
    Db α × Table α :=
  if fail then (Except.error DbError.failure, t)
  else if !valid then (Except.error DbError.validation, t)
  else if !inInt4 t.nextId then (Except.error DbError.range, t)
  else if !accepted then (Except.error DbError.constraint, ⟨t.rows, t.nextId + 1⟩)
  else (Except.ok (mk t.nextId), ⟨t.rows ++ [mk t.nextId], t.nextId + 1⟩)

/-- The call `instance.save()`: writes the instance over the row of its primary
key; `valid`: the declared constraints hold for the written row. -/
def save (key : α → Int) (fail : Bool) (t : Table α) (valid : Bool) (r : α) : Db (Table α) :=
  if fail then Except.error DbError.failure
  else if !valid then Except.error DbError.constraint
  else Except.ok ⟨t.rows.map (fun x => if key x == key r then r else x), t.nextId⟩

/-- The call `instance.destroy()`: deletes the row of its primary key. -/
def destroy (key : α → Int) (fail : Bool) (t : Table α) (r : α) : Db (Table α) :=
  if fail then Except.error DbError.failure
  else Except.ok ⟨t.rows.filter (fun x => key x != key r), t.nextId⟩

/-- The referential action of a deletion on a referencing table: `setNull`
clears, in each row, the foreign key that referred to the deleted row. -/
def onDelete (t : Table α) (setNull : α → α) : Table α := ⟨t.rows.map setNull, t.nextId⟩

end Table

/-! ## Models (`src/models/index.js`) -/

structure User where
  id : Int
  name : Option String
  email : Option String
  date_of_birth : Option String
  img : Option String
  password : Option String
  deriving DecidableEq, Repr

structure WishList where
  id : Int
  userId : Option Int
  deriving DecidableEq, Repr

structure WishListItem where
  id : Int
  wishListId : Option Int
  productId : Option Int
  deriving DecidableEq, Repr

structure Merchant where
  id : Int
  name : Option String
  login : Option String
  password : Option String
  img : Option String
  description : Option String
  address : Option String
  address_link : Option String
  deriving DecidableEq, Repr

structure Product where
  id : Int
  name : Option String
  description : Option String
  img : Option String
  price : Option Int
  merchantId : Option Int
  deriving DecidableEq, Repr

structure Subscription where
  id : Int
  userId : Option Int
  subscribedToUserId : Option Int
  deriving DecidableEq, Repr

/-- The database: one table per model. -/
structure Store where
  users : Table User
  wishLists : Table WishList
  wishListItems : Table WishListItem
  merchants : Table Merchant
  products : Table Product
  subscriptions : Table Subscription

/-- The database after `sync` on a fresh schema. -/
def Store.empty : Store :=
  ⟨Table.empty, Table.empty, Table.empty, Table.empty, Table.empty, Table.empty⟩

namespace User

/-- The declared `allowNull: false` columns are set. -/
def notNull (u : User) : Bool := u.name.isSome && u.email.isSome && u.password.isSome

/-- The declared `unique: true` on `email`: no other row carries it. -/
def emailUnique (rows : List User) (u : User) : Bool :=
  rows.all (fun x => x.id == u.id || x.email != u.email)

/-- The declared constraints hold for writing `u` into `rows`. -/
def valid (rows : List User) (u : User) : Bool := u.notNull && emailUnique rows u

def toJSON (u : User) : Json :=
  Json.obj [("id", Json.num u.id), ("name", Json.ofString? u.name),
    ("email", Json.ofString? u.email), ("date_of_birth", Json.ofString? u.date_of_birth),
    ("img", Json.ofString? u.img), ("password", Json.ofString? u.password)]

end User

namespace WishList

def toJSON (w : WishList) : Json :=
  Json.obj [("id", Json.num w.id), ("userId", Json.ofInt? w.userId)]

/-- `ON DELETE SET NULL` of `userId` (`User.hasOne(WishList)`) at the deletion of user `id`. -/
def onDeleteUser (id : Int) (w : WishList) : WishList :=
  if w.userId == some id then { w with userId := none } else w

end WishList

namespace WishListItem

def toJSON (i : WishListItem) : Json :=
  Json.obj [("id", Json.num i.id), ("wishListId", Json.ofInt? i.wishListId),
    ("productId", Json.ofInt? i.productId)]

/-- `ON DELETE SET NULL` of `wishListId` (`WishList.hasMany(WishListItem)`) at the
deletion of wishlist `id`. -/
def onDeleteWishList (id : Int) (i : WishListItem) : WishListItem :=
  if i.wishListId == some id then { i with wishListId := none } else i

/-- `ON DELETE SET NULL` of `productId` (`Product.hasMany(WishListItem)`) at the
deletion of product `id`. -/
def onDeleteProduct (id : Int) (i : WishListItem) : WishListItem :=
  if i.productId == some id then { i with productId := none } else i

end WishListItem

namespace Merchant

/-- The declared `allowNull: false` columns are set. -/
def notNull (m : Merchant) : Bool :=
  m.name.isSome && m.login.isSome && m.password.isSome && m.description.isSome

/-- The declared `unique: true` on `login`: no other row carries it. -/
def loginUnique (rows : List Merchant) (m : Merchant) : Bool :=
  rows.all (fun x => x.id == m.id || x.login != m.login)

/-- The declared constraints hold for writing `m` into `rows`. -/
def valid (rows : List Merchant) (m : Merchant) : Bool := m.notNull && loginUnique rows m

def toJSON (m : Merchant) : Json :=
  Json.obj [("id", Json.num m.id), ("name", Json.ofString? m.name),
    ("login", Json.ofString? m.login), ("password", Json.ofString? m.password),
    ("img", Json.ofString? m.img), ("description", Json.ofString? m.description),
    ("address", Json.ofString? m.address), ("address_link", Json.ofString? m.address_link)]

end Merchant

namespace Product

/-- The declared `allowNull: false` columns are set. -/
def notNull (p : Product) : Bool :=
  p.name.isSome && p.description.isSome && p.img.isSome && p.price.isSome

/-- The values of `price` and `merchantId` are values of their `INTEGER` columns. -/
def inRange (p : Product) : Bool := inInt4? p.price && inInt4? p.merchantId

/-- `ON DELETE SET NULL` of `merchantId` (`Merchant.hasMany(Product)`) at the
deletion of merchant `id`. -/
def onDeleteMerchant (id : Int) (p : Product) : Product :=
  if p.merchantId == some id then { p with merchantId := none } else p

def toJSON (p : Product) : Json :=
  Json.obj [("id", Json.num p.id), ("name", Json.ofString? p.name),
    ("description", Json.ofString? p.description), ("img", Json.ofString? p.img),
    ("price", Json.ofInt? p.price), ("merchantId", Json.ofInt? p.merchantId)]

end Product

namespace Subscription

def toJSON (x : Subscription) : Json :=
  Json.obj [("id", Json.num x.id), ("userId", Json.ofInt? x.userId),
    ("subscribedToUserId", Json.ofInt? x.subscribedToUserId)]

/-- `ON DELETE SET NULL` of `userId` and of `subscribedToUserId` (the two
`User.hasMany(Subscription)`) at the deletion of user `id`. -/
def onDeleteUser (id : Int) (x : Subscription) : Subscription :=
  { x with
    userId := if x.userId == some id then none else x.userId
    subscribedToUserId := if x.subscribedToUserId == some id then none else x.subscribedToUserId }

end Subscription

/-! ## Request bodies -/

/-- Body of `POST /users` and `PATCH /users/{userId}`. -/
structure UserBody where
  name : Field String := Field.undefined
  email : Field String := Field.undefined
  password : Field String := Field.undefined
  date_of_birth : Field String := Field.undefined
  img : Field String := Field.undefined

/-- Body of `PATCH /users/{userId}/wishlist`. -/
structure WishListBody where
  title : Field String := Field.undefined
  isPublic : Field Bool := Field.undefined

/-- Body of `POST /users/{userId}/wishlist/items` and of `PATCH` on one item. -/
structure WishListItemBody where
  productId : Field Int := Field.undefined
  status : Field String := Field.undefined

/-- Body of `POST /merchants` and `PATCH /merchants/{merchantId}`. -/
structure MerchantBody where
  name : Field String := Field.undefined
  login : Field String := Field.undefined
  password : Field String := Field.undefined
  img : Field String := Field.undefined
  description : Field String := Field.undefined
  address : Field String := Field.undefined
  address_link : Field String := Field.undefined

/-- Body of `POST /products` and `PATCH /products/{productId}`. -/
structure ProductBody where
  name : Field String := Field.undefined
  description : Field String := Field.undefined
  img : Field String := Field.undefined
  price : Field Int := Field.undefined
  merchantId : Field Int := Field.undefined

/-- Body of `POST /users/{userId}/subscriptions`. -/
structure SubscriptionBody where
  subscribedToUserId : Field Int := Field.undefined

/-- The values `{ name, email, password, date_of_birth, img }` passed to `User.create`. -/
def UserBody.toRow (body : UserBody) (id : Int) : User :=
  ⟨id, body.name.toColumn, body.email.toColumn, body.date_of_birth.toColumn,
    body.img.toColumn, body.password.toColumn⟩

/-- The assignments of `PATCH /users/{userId}`:
`if (name !== undefined) user.name = name`, likewise `email`, `date_of_birth`, `img`. -/
def UserBody.assignTo (body : UserBody) (user : User) : User :=
  let user : User := { user with name := body.name.assign user.name }
  let user : User := { user with email := body.email.assign user.email }
  let user : User := { user with date_of_birth := body.date_of_birth.assign user.date_of_birth }
  let user : User := { user with img := body.img.assign user.img }
  user

/-- The values passed to `Merchant.create`. -/
def MerchantBody.toRow (body : MerchantBody) (id : Int) : Merchant :=
  ⟨id, body.name.toColumn, body.login.toColumn, body.password.toColumn, body.img.toColumn,
    body.description.toColumn, body.address.toColumn, body.address_link.toColumn⟩

/-- The assignments of `PATCH /merchants/{merchantId}`:
`name`, `img`, `description`, `address`, `address_link`, each when not `undefined`. -/
def MerchantBody.assignTo (body : MerchantBody) (merchant : Merchant) : Merchant :=
  let merchant : Merchant := { merchant with name := body.name.assign merchant.name }
  let merchant : Merchant := { merchant with img := body.img.assign merchant.img }
  let merchant : Merchant :=
    { merchant with description := body.description.assign merchant.description }
  let merchant : Merchant := { merchant with address := body.address.assign merchant.address }
  let merchant : Merchant :=
    { merchant with address_link := body.address_link.assign merchant.address_link }
  merchant

/-- The values `{ name, description, img, price, merchantId }` passed to `Product.create`. -/
def ProductBody.toRow (body : ProductBody) (id : Int) : Product :=
  ⟨id, body.name.toColumn, body.description.toColumn, body.img.toColumn, body.price.toColumn,
    body.merchantId.toColumn⟩

/-- The assignments of `PATCH /products/{productId}`:
`name`, `description`, `img`, `price`, each when not `undefined`. -/
def ProductBody.assignTo (body : ProductBody) (product : Product) : Product :=
  let product : Product := { product with name := body.name.assign product.name }
  let product : Product :=
    { product with description := body.description.assign product.description }
  let product : Product := { product with img := body.img.assign product.img }
  let product : Product := { product with price := body.price.assign product.price }
  product

/-! ## `src/routes/user.routes.js` -/

/-- The handler `router.get('/')`. -/
def GET_users (faults : Faults) (s : Store) : Response × Store :=
  match s.users.findAll (faults 0) true (fun _ => true) with
  | Except.error _ => (internalServerError, s)
  | Except.ok users =>
    (Response.json (Json.arr (users.map (fun u => (User.toJSON u).exclude ["password"]))), s)

/-- The handler `router.post('/')`. -/
def POST_users (faults : Faults) (s : Store) (body : UserBody) : Response × Store :=
  match s.users.create (faults 0) (body.toRow s.users.nextId).notNull
      (User.emailUnique s.users.rows (body.toRow s.users.nextId)) body.toRow with
  | (Except.error _, users) => (internalServerError, { s with users := users })
  | (Except.ok newUser, users) =>
    let s1 : Store := { s with users := users }
    match s1.wishLists.create (faults 1) true (s1.users.refers User.id (some newUser.id))
        (fun id => ⟨id, some newUser.id⟩) with
    | (Except.error _, wishLists) => (internalServerError, { s1 with wishLists := wishLists })
    | (Except.ok _, wishLists) =>
      (Response.statusJson 201 (User.toJSON newUser), { s1 with wishLists := wishLists })

/-- The handler `router.get('/:userId')`. -/
def GET_users_userId (faults : Faults) (s : Store) (userId : Int) : Response × Store :=
  match s.users.findByPk User.id (faults 0) userId with
  | Except.error _ => (internalServerError, s)
  | Except.ok none => (Response.statusJson 404 (message "User not found"), s)
  | Except.ok (some user) => (Response.json ((User.toJSON user).exclude ["password"]), s)

/-- The handler `router.patch('/:userId')`. -/
def PATCH_users_userId (faults : Faults) (s : Store) (userId : Int) (body : UserBody) :
    Response × Store :=
  match s.users.findByPk User.id (faults 0) userId with
  | Except.error _ => (internalServerError, s)
  | Except.ok none => (Response.statusJson 404 (message "User not found"), s)
  | Except.ok (some user) =>
    let user : User := body.assignTo user
    match s.users.save User.id (faults 1) (User.valid s.users.rows user) user with
    | Except.error _ => (internalServerError, s)
    | Except.ok users => (Response.json (User.toJSON user), { s with users := users })

/-- The handler `router.delete('/:userId')`. -/
def DELETE_users_userId (faults : Faults) (s : Store) (userId : Int) : Response × Store :=
  match s.users.findByPk User.id (faults 0) userId with
  | Except.error _ => (internalServerError, s)
  | Except.ok none => (Response.statusJson 404 (message "User not found"), s)
  | Except.ok (some user) =>
    match s.users.destroy User.id (faults 1) user with
    | Except.error _ => (internalServerError, s)
    | Except.ok users =>
      (Response.json (message "User deleted"),
        { s with
          users := users
          wishLists := s.wishLists.onDelete (WishList.onDeleteUser user.id)
          subscriptions := s.subscriptions.onDelete (Subscription.onDeleteUser user.id) })

/-! ## `src/routes/wishlist.routes.js` -/

/-- A model instance in memory: its `dataValues` (the columns of the model) and
the properties assigned to it that are no attribute of the model.  Only
`dataValues` is written by `save()` and serialised by `res.json`. -/
structure Instance (α : Type) where
  dataValues : α
  own : List (String × Json)

/-- Assignment `instance.key = value` for a `key` that is no attribute of the model. -/
def Instance.setOwn {α : Type} (i : Instance α) (key : String) (value : Json) : Instance α :=
  { i with own := (key, value) :: i.own.filter (fun kv => kv.1 != key) }

/-- JSON of an item loaded with `include: [Product]`. -/
def WishListItem.toJSONWithProduct (s : Store) (i : WishListItem) : Json :=
  (WishListItem.toJSON i).withField "product"
    (Json.ofOption ((s.products.rows.find? (fun p => some p.id == i.productId)).map Product.toJSON))

/-- JSON of a wishlist loaded with its items and, in each item, its product. -/
def WishList.toJSONWithItems (s : Store) (w : WishList) : Json :=
  (WishList.toJSON w).withField "wishListItems"
    (Json.arr ((s.wishListItems.rows.filter (fun i => i.wishListId == some w.id)).map
      (WishListItem.toJSONWithProduct s)))

/-- The handler `router.get('/:userId/wishlist')`. -/
def GET_users_userId_wishlist (faults : Faults) (s : Store) (userId : Int) : Response × Store :=
  match s.wishLists.findOne (faults 0) (inInt4 userId) (fun w => w.userId == some userId) with
  | Except.error _ => (internalServerError, s)
  | Except.ok none => (Response.statusJson 404 (message "WishList not found"), s)
  | Except.ok (some wishList) => (Response.json (WishList.toJSONWithItems s wishList), s)

/-- The handler `router.post('/:userId/wishlist')`. -/
def POST_users_userId_wishlist (faults : Faults) (s : Store) (userId : Int) : Response × Store :=
  match s.wishLists.findOne (faults 0) (inInt4 userId) (fun w => w.userId == some userId) with
  | Except.error _ => (internalServerError, s)
  | Except.ok (some _) => (Response.statusJson 409 (message "WishList already exists"), s)
  | Except.ok none =>
    match s.wishLists.create (faults 1) (inInt4 userId) (s.users.refers User.id (some userId))
        (fun id => ⟨id, some userId⟩) with
    | (Except.error _, wishLists) => (internalServerError, { s with wishLists := wishLists })
    | (Except.ok newWishList, wishLists) =>
      (Response.statusJson 201 (WishList.toJSON newWishList), { s with wishLists := wishLists })

/-- The handler `router.patch('/:userId/wishlist')`. -/
def PATCH_users_userId_wishlist (faults : Faults) (s : Store) (userId : Int)
    (body : WishListBody) : Response × Store :=
  match s.wishLists.findOne (faults 0) (inInt4 userId) (fun w => w.userId == some userId) with
  | Except.error _ => (internalServerError, s)
  | Except.ok none => (Response.statusJson 404 (message "WishList not found"), s)
  | Except.ok (some found) =>
    let wishList : Instance WishList := ⟨found, []⟩
    let wishList := match body.title.present? with
      | none => wishList
      | some title => wishList.setOwn "title" (Json.ofString? title)
    let wishList := match body.isPublic.present? with
      | none => wishList
      | some isPublic => wishList.setOwn "isPublic" (Json.ofOption (isPublic.map Json.bool))
    match s.wishLists.save WishList.id (faults 1) true wishList.dataValues with
    | Except.error _ => (internalServerError, s)
    | Except.ok wishLists =>
      (Response.json (WishList.toJSON wishList.dataValues), { s with wishLists := wishLists })

/-- The handler `router.delete('/:userId/wishlist')`. -/
def DELETE_users_userId_wishlist (faults : Faults) (s : Store) (userId : Int) :
    Response × Store :=
  match s.wishLists.findOne (faults 0) (inInt4 userId) (fun w => w.userId == some userId) with
  | Except.error _ => (internalServerError, s)
  | Except.ok none => (Response.statusJson 404 (message "WishList not found"), s)
  | Except.ok (some wishList) =>
    match s.wishLists.destroy WishList.id (faults 1) wishList with
    | Except.error _ => (internalServerError, s)
    | Except.ok wishLists =>
      (Response.json (message "WishList deleted"),
        { s with
          wishLists := wishLists
          wishListItems := s.wishListItems.onDelete (WishListItem.onDeleteWishList wishList.id) })

/-! ## `src/routes/wishlistItem.routes.js` -/

/-- The handler `router.get('/:userId/wishlist/items')`. -/
def GET_users_userId_wishlist_items (faults : Faults) (s : Store) (userId : Int) :
    Response × Store :=
  match s.wishLists.findOne (faults 0) (inInt4 userId) (fun w => w.userId == some userId) with
  | Except.error _ => (internalServerError, s)
  | Except.ok none => (Response.statusJson 404 (message "WishList not found"), s)
  | Except.ok (some wishList) =>
    match s.wishListItems.findAll (faults 1) true (fun i => i.wishListId == some wishList.id) with
    | Except.error _ => (internalServerError, s)
    | Except.ok items =>
      (Response.json (Json.arr (items.map (WishListItem.toJSONWithProduct s))), s)

/-- The handler `router.post('/:userId/wishlist/items')`. -/
def POST_users_userId_wishlist_items (faults : Faults) (s : Store) (userId : Int)
    (body : WishListItemBody) : Response × Store :=
  match s.wishLists.findOne (faults 0) (inInt4 userId) (fun w => w.userId == some userId) with
  | Except.error _ => (internalServerError, s)
  | Except.ok none => (Response.statusJson 404 (message "WishList not found"), s)
  | Except.ok (some wishList) =>
    match s.wishListItems.create (faults 1) (inInt4? body.productId.toColumn)
        (s.wishLists.refers WishList.id (some wishList.id)
          && s.products.refers Product.id body.productId.toColumn)
        (fun id => ⟨id, some wishList.id, body.productId.toColumn⟩) with
    | (Except.error _, items) => (internalServerError, { s with wishListItems := items })
    | (Except.ok newItem, items) =>
      (Response.statusJson 201 (WishListItem.toJSON newItem), { s with wishListItems := items })

/-- The handler `router.get('/:userId/wishlist/items/:itemId')`. -/
def GET_users_userId_wishlist_items_itemId (faults : Faults) (s : Store) (userId itemId : Int) :
    Response × Store :=
  match s.wishLists.findOne (faults 0) (inInt4 userId) (fun w => w.userId == some userId) with
  | Except.error _ => (internalServerError, s)
  | Except.ok none => (Response.statusJson 404 (message "WishList not found"), s)
  | Except.ok (some wishList) =>
    match s.wishListItems.findByPk WishListItem.id (faults 1) itemId with
    | Except.error _ => (internalServerError, s)
    | Except.ok none => (Response.statusJson 404 (message "Item not found"), s)
    | Except.ok (some item) =>
      if item.wishListId != some wishList.id then
        (Response.statusJson 404 (message "Item not found"), s)
      else (Response.json (WishListItem.toJSONWithProduct s item), s)

/-- The handler `router.patch('/:userId/wishlist/items/:itemId')`. -/
def PATCH_users_userId_wishlist_items_itemId (faults : Faults) (s : Store)
    (userId itemId : Int) (body : WishListItemBody) : Response × Store :=
  match s.wishLists.findOne (faults 0) (inInt4 userId) (fun w => w.userId == some userId) with
  | Except.error _ => (internalServerError, s)
  | Except.ok none => (Response.statusJson 404 (message "WishList not found"), s)
  | Except.ok (some wishList) =>
    match s.wishListItems.findByPk WishListItem.id (faults 1) itemId with
    | Except.error _ => (internalServerError, s)
    | Except.ok none => (Response.statusJson 404 (message "Item not found"), s)
    | Except.ok (some found) =>
      if found.wishListId != some wishList.id then
        (Response.statusJson 404 (message "Item not found"), s)
      else
        let item : Instance WishListItem := ⟨found, []⟩
        let item := match body.status.present? with
          | none => item
          | some status => item.setOwn "status" (Json.ofString? status)
        match s.wishListItems.save WishListItem.id (faults 2) true item.dataValues with
        | Except.error _ => (internalServerError, s)
        | Except.ok items =>
          (Response.json (WishListItem.toJSON item.dataValues), { s with wishListItems := items })

/-- The handler `router.delete('/:userId/wishlist/items/:itemId')`. -/
def DELETE_users_userId_wishlist_items_itemId (faults : Faults) (s : Store)
    (userId itemId : Int) : Response × Store :=
  match s.wishLists.findOne (faults 0) (inInt4 userId) (fun w => w.userId == some userId) with
  | Except.error _ => (internalServerError, s)
  | Except.ok none => (Response.statusJson 404 (message "WishList not found"), s)
  | Except.ok (some wishList) =>
    match s.wishListItems.findByPk WishListItem.id (faults 1) itemId with
    | Except.error _ => (internalServerError, s)
    | Except.ok none => (Response.statusJson 404 (message "Item not found"), s)
    | Except.ok (some item) =>
      if item.wishListId != some wishList.id then
        (Response.statusJson 404 (message "Item not found"), s)
      else
        match s.wishListItems.destroy WishListItem.id (faults 2) item with
        | Except.error _ => (internalServerError, s)
        | Except.ok items =>
          (Response.json (message "Item removed from wishlist"), { s with wishListItems := items })

/-! ## `src/routes/merchant.routes.js` -/

/-- SQL `LIKE` on characters, read from left to right: `%` matches any run of
characters, `_` any one character, a backslash takes the next character
literally (`escaped`: the character before was such a backslash). -/
def likeFrom : Bool → List Char → List Char → Bool
  | escaped, [], text => !escaped && text.isEmpty
  | true, c :: pattern, text =>
    match text with
    | [] => false
    | x :: rest => x == c && likeFrom false pattern rest
  | false, c :: pattern, text =>
    if c = '%' then text.tails.any (fun rest => likeFrom false pattern rest)
    else if c = '_' then
      match text with
      | [] => false
      | _ :: rest => likeFrom false pattern rest
    else if c = Char.ofNat 92 then likeFrom true pattern text
    else
      match text with
      | [] => false
      | x :: rest => x == c && likeFrom false pattern rest

/-- SQL `text LIKE pattern`. -/
def like (pattern text : List Char) : Bool := likeFrom false pattern text

/-- The `where` clause built from `req.query.search`: every row when `search`
is absent or empty, otherwise the rows whose name is `LIKE '%search%'`. -/
def searchWhere (search : Option String) (name : Option String) : Bool :=
  match search with
  | none => true
  | some q =>
    if q = "" then true
    else match name with
      | none => false
      | some n => like (['%'] ++ q.toList ++ ['%']) n.toList

/-- The handler `router.get('/')` of the merchants. -/
def GET_merchants (faults : Faults) (s : Store) (search : Option String) : Response × Store :=
  match s.merchants.findAll (faults 0) true (fun m => searchWhere search m.name) with
  | Except.error _ => (internalServerError, s)
  | Except.ok merchants => (Response.json (Json.arr (merchants.map Merchant.toJSON)), s)

/-- The handler `router.post('/')` of the merchants. -/
def POST_merchants (faults : Faults) (s : Store) (body : MerchantBody) : Response × Store :=
  match s.merchants.create (faults 0) (body.toRow s.merchants.nextId).notNull
      (Merchant.loginUnique s.merchants.rows (body.toRow s.merchants.nextId)) body.toRow with
  | (Except.error _, merchants) => (internalServerError, { s with merchants := merchants })
  | (Except.ok newMerchant, merchants) =>
    (Response.statusJson 201 (Merchant.toJSON newMerchant), { s with merchants := merchants })

/-- The handler `.get` of `router.route('/:merchantId')`. -/
def GET_merchants_merchantId (faults : Faults) (s : Store) (merchantId : Int) :
    Response × Store :=
  match s.merchants.findByPk Merchant.id (faults 0) merchantId with
  | Except.error _ => (internalServerError, s)
  | Except.ok none => (Response.statusJson 404 (message "Merchant not found"), s)
  | Except.ok (some merchant) => (Response.json (Merchant.toJSON merchant), s)

/-- The handler `.patch` of `router.route('/:merchantId')`. -/
def PATCH_merchants_merchantId (faults : Faults) (s : Store) (merchantId : Int)
    (body : MerchantBody) : Response × Store :=
  match s.merchants.findByPk Merchant.id (faults 0) merchantId with
  | Except.error _ => (internalServerError, s)
  | Except.ok none => (Response.statusJson 404 (message "Merchant not found"), s)
  | Except.ok (some merchant) =>
    let merchant : Merchant := body.assignTo merchant
    match s.merchants.save Merchant.id (faults 1)
        (Merchant.valid s.merchants.rows merchant) merchant with
    | Except.error _ => (internalServerError, s)
    | Except.ok merchants =>
      (Response.json (Merchant.toJSON merchant), { s with merchants := merchants })

/-- The handler `.delete` of `router.route('/:merchantId')`. -/
def DELETE_merchants_merchantId (faults : Faults) (s : Store) (merchantId : Int) :
    Response × Store :=
  match s.merchants.findByPk Merchant.id (faults 0) merchantId with
  | Except.error _ => (internalServerError, s)
  | Except.ok none => (Response.statusJson 404 (message "Merchant not found"), s)
  | Except.ok (some merchant) =>
    match s.merchants.destroy Merchant.id (faults 1) merchant with
    | Except.error _ => (internalServerError, s)
    | Except.ok merchants =>
      (Response.json (message "Merchant deleted"),
        { s with
          merchants := merchants
          products := s.products.onDelete (Product.onDeleteMerchant merchant.id) })

/-- The handler `router.get('/:merchantId/products')`: `merchant.products` is
loaded with the merchant by `include: [Product]`. -/
def GET_merchants_merchantId_products (faults : Faults) (s : Store) (merchantId : Int) :
    Response × Store :=
  match s.merchants.findByPk Merchant.id (faults 0) merchantId with
  | Except.error _ => (internalServerError, s)
  | Except.ok none => (Response.statusJson 404 (message "Merchant not found"), s)
  | Except.ok (some merchant) =>
    (Response.json (Json.arr
      ((s.products.rows.filter (fun p => p.merchantId == some merchant.id)).map Product.toJSON)), s)

/-! ## `src/routes/product.routes.js` -/

/-- The handler `router.get('/')` of the products. -/
def GET_products (faults : Faults) (s : Store) (search : Option String) : Response × Store :=
  match s.products.findAll (faults 0) true (fun p => searchWhere search p.name) with
  | Except.error _ => (internalServerError, s)
  | Except.ok products => (Response.json (Json.arr (products.map Product.toJSON)), s)

/-- The handler `router.post('/')` of the products. -/
def POST_products (faults : Faults) (s : Store) (body : ProductBody) : Response × Store :=
  match s.products.create (faults 0)
      ((body.toRow s.products.nextId).notNull && (body.toRow s.products.nextId).inRange)
      (s.merchants.refers Merchant.id body.merchantId.toColumn) body.toRow with
  | (Except.error _, products) => (internalServerError, { s with products := products })
  | (Except.ok newProduct, products) =>
    (Response.statusJson 201 (Product.toJSON newProduct), { s with products := products })

/-- The handler `.get` of `router.route('/:productId')`. -/
def GET_products_productId (faults : Faults) (s : Store) (productId : Int) : Response × Store :=
  match s.products.findByPk Product.id (faults 0) productId with
  | Except.error _ => (internalServerError, s)
  | Except.ok none => (Response.statusJson 404 (message "Product not found"), s)
  | Except.ok (some product) => (Response.json (Product.toJSON product), s)

/-- The handler `.patch` of `router.route('/:productId')`. -/
def PATCH_products_productId (faults : Faults) (s : Store) (productId : Int)
    (body : ProductBody) : Response × Store :=
  match s.products.findByPk Product.id (faults 0) productId with
  | Except.error _ => (internalServerError, s)
  | Except.ok none => (Response.statusJson 404 (message "Product not found"), s)
  | Except.ok (some product) =>
    let product : Product := body.assignTo product
    match s.products.save Product.id (faults 1) (product.notNull && product.inRange) product with
    | Except.error _ => (internalServerError, s)
    | Except.ok products =>
      (Response.json (Product.toJSON product), { s with products := products })

/-- The handler `.delete` of `router.route('/:productId')`. -/
def DELETE_products_productId (faults : Faults) (s : Store) (productId : Int) :
    Response × Store :=
  match s.products.findByPk Product.id (faults 0) productId with
  | Except.error _ => (internalServerError, s)
  | Except.ok none => (Response.statusJson 404 (message "Product not found"), s)
  | Except.ok (some product) =>
    match s.products.destroy Product.id (faults 1) product with
    | Except.error _ => (internalServerError, s)
    | Except.ok products =>
      (Response.json (message "Product deleted"),
        { s with
          products := products
          wishListItems := s.wishListItems.onDelete (WishListItem.onDeleteProduct product.id) })

/-! ## `src/routes/subscription.routes.js` -/

/-- JSON of a subscription loaded with one of its users under the alias `as`,
restricted to `attributes: ['id', 'name', 'email']`. -/
def Subscription.toJSONWithUser (s : Store) (as : String) (userId : Option Int)
    (x : Subscription) : Json :=
  (Subscription.toJSON x).withField as
    (Json.ofOption ((s.users.rows.find? (fun u => some u.id == userId)).map
      (fun u => (User.toJSON u).only ["id", "name", "email"])))

/-- The handler `router.get('/:userId/subscriptions')`. -/
def GET_users_userId_subscriptions (faults : Faults) (s : Store) (userId : Int) :
    Response × Store :=
  match s.subscriptions.findAll (faults 0) (inInt4 userId) (fun x => x.userId == some userId) with
  | Except.error _ => (internalServerError, s)
  | Except.ok subs =>
    (Response.json (Json.arr (subs.map
      (fun x => Subscription.toJSONWithUser s "subscribedTo" x.subscribedToUserId x))), s)

/-- The handler `router.post('/:userId/subscriptions')`. -/
def POST_users_userId_subscriptions (faults : Faults) (s : Store) (userId : Int)
    (body : SubscriptionBody) : Response × Store :=
  if strictEqNumber (Number (Field.val userId)) (Number body.subscribedToUserId) then
    (Response.statusJson 400 (message "Cannot subscribe to oneself"), s)
  else
    match s.subscriptions.create (faults 0)
        (inInt4 userId && inInt4? body.subscribedToUserId.toColumn)
        (s.users.refers User.id (some userId)
          && s.users.refers User.id body.subscribedToUserId.toColumn)
        (fun id => ⟨id, some userId, body.subscribedToUserId.toColumn⟩) with
    | (Except.error _, subs) => (internalServerError, { s with subscriptions := subs })
    | (Except.ok newSub, subs) =>
      (Response.statusJson 201 (Subscription.toJSON newSub), { s with subscriptions := subs })

/-- The handler `router.get('/:userId/subscribers')`. -/
def GET_users_userId_subscribers (faults : Faults) (s : Store) (userId : Int) :
    Response × Store :=
  match s.subscriptions.findAll (faults 0) (inInt4 userId)
      (fun x => x.subscribedToUserId == some userId) with
  | Except.error _ => (internalServerError, s)
  | Except.ok subs =>
    (Response.json (Json.arr (subs.map
      (fun x => Subscription.toJSONWithUser s "subscriber" x.userId x))), s)

/-- The handler `router.delete('/:userId/subscriptions/:subscriptionId')`. -/
def DELETE_users_userId_subscriptions_subscriptionId (faults : Faults) (s : Store)
    (userId subscriptionId : Int) : Response × Store :=
  match s.subscriptions.findByPk Subscription.id (faults 0) subscriptionId with
  | Except.error _ => (internalServerError, s)
  | Except.ok none =>
    (Response.statusJson 404 (message "Subscription not found or not belongs to this user"), s)
  | Except.ok (some sub) =>
    if sub.userId != some userId then
      (Response.statusJson 404 (message "Subscription not found or not belongs to this user"), s)
    else
      match s.subscriptions.destroy Subscription.id (faults 1) sub with
      | Except.error _ => (internalServerError, s)
      | Except.ok subs => (Response.json (message "Unsubscribed"), { s with subscriptions := subs })

/-! ## `src/app.js`: the router -/

/-- A request to the API: method, route, path parameters and body. -/
inductive Request where
  | getUsers : Request
  | postUsers (body : UserBody) : Request
  | getUser (userId : Int) : Request
  | patchUser (userId : Int) (body : UserBody) : Request
  | deleteUser (userId : Int) : Request
  | getWishList (userId : Int) : Request
  | postWishList (userId : Int) : Request
  | patchWishList (userId : Int) (body : WishListBody) : Request
  | deleteWishList (userId : Int) : Request
  | getItems (userId : Int) : Request
  | postItems (userId : Int) (body : WishListItemBody) : Request
  | getItem (userId itemId : Int) : Request
  | patchItem (userId itemId : Int) (body : WishListItemBody) : Request
  | deleteItem (userId itemId : Int) : Request
  | getMerchants (search : Option String) : Request
  | postMerchants (body : MerchantBody) : Request
  | getMerchant (merchantId : Int) : Request
  | patchMerchant (merchantId : Int) (body : MerchantBody) : Request
  | deleteMerchant (merchantId : Int) : Request
  | getMerchantProducts (merchantId : Int) : Request
  | getProducts (search : Option String) : Request
  | postProducts (body : ProductBody) : Request
  | getProduct (productId : Int) : Request
  | patchProduct (productId : Int) (body : ProductBody) : Request
  | deleteProduct (productId : Int) : Request
  | getSubscriptions (userId : Int) : Request
  | postSubscriptions (userId : Int) (body : SubscriptionBody) : Request
  | getSubscribers (userId : Int) : Request
  | deleteSubscription (userId subscriptionId : Int) : Request

/-- Dispatch of a request to its handler. -/
def handle (faults : Faults) (s : Store) : Request → Response × Store
  | Request.getUsers => GET_users faults s
  | Request.postUsers body => POST_users faults s body
  | Request.getUser userId => GET_users_userId faults s userId
  | Request.patchUser userId body => PATCH_users_userId faults s userId body
  | Request.deleteUser userId => DELETE_users_userId faults s userId
  | Request.getWishList userId => GET_users_userId_wishlist faults s userId
  | Request.postWishList userId => POST_users_userId_wishlist faults s userId
  | Request.patchWishList userId body => PATCH_users_userId_wishlist faults s userId body
  | Request.deleteWishList userId => DELETE_users_userId_wishlist faults s userId
  | Request.getItems userId => GET_users_userId_wishlist_items faults s userId
  | Request.postItems userId body => POST_users_userId_wishlist_items faults s userId body
  | Request.getItem userId itemId => GET_users_userId_wishlist_items_itemId faults s userId itemId
  | Request.patchItem userId itemId body =>
    PATCH_users_userId_wishlist_items_itemId faults s userId itemId body
  | Request.deleteItem userId itemId =>
    DELETE_users_userId_wishlist_items_itemId faults s userId itemId
  | Request.getMerchants search => GET_merchants faults s search
  | Request.postMerchants body => POST_merchants faults s body
  | Request.getMerchant merchantId => GET_merchants_merchantId faults s merchantId
  | Request.patchMerchant merchantId body => PATCH_merchants_merchantId faults s merchantId body
  | Request.deleteMerchant merchantId => DELETE_merchants_merchantId faults s merchantId
  | Request.getMerchantProducts merchantId => GET_merchants_merchantId_products faults s merchantId
  | Request.getProducts search => GET_products faults s search
  | Request.postProducts body => POST_products faults s body
  | Request.getProduct productId => GET_products_productId faults s productId
  | Request.patchProduct productId body => PATCH_products_productId faults s productId body
  | Request.deleteProduct productId => DELETE_products_productId faults s productId
  | Request.getSubscriptions userId => GET_users_userId_subscriptions faults s userId
  | Request.postSubscriptions userId body => POST_users_userId_subscriptions faults s userId body
  | Request.getSubscribers userId => GET_users_userId_subscribers faults s userId
  | Request.deleteSubscription userId subscriptionId =>
    DELETE_users_userId_subscriptions_subscriptionId faults s userId subscriptionId

/-- The store after a sequence of requests, each with its own faults. -/
def run (s : Store) : List (Faults × Request) → Store
  | [] => s
  | (faults, r) :: rest => run (handle faults s r).2 rest

/-- Store states reachable from the empty store by a sequence of API requests. -/
inductive Reachable : Store → Prop where
  | empty : Reachable Store.empty
  | step {s : Store} (faults : Faults) (r : Request) :
      Reachable s → Reachable (handle faults s r).2

/-! ## Well-formed stores -/

/-- Primary key of a table: the ids are pairwise distinct and were all drawn
from the auto-increment sequence. -/
def Table.WF {α : Type} (key : α → Int) (t : Table α) : Prop :=
  (t.rows.map key).Nodup ∧ ∀ r ∈ t.rows, key r < t.nextId

/-- Every table has a primary key (`primaryKey: true, autoIncrement: true`). -/
structure Store.WF (s : Store) : Prop where
  users : s.users.WF User.id
  wishLists : s.wishLists.WF WishList.id
  wishListItems : s.wishListItems.WF WishListItem.id
  merchants : s.merchants.WF Merchant.id
  products : s.products.WF Product.id
  subscriptions : s.subscriptions.WF Subscription.id

/-- The requests with method `GET`. -/
def Request.isGet : Request → Bool
  | Request.getUsers => true
  | Request.getUser _ => true
  | Request.getWishList _ => true
  | Request.getItems _ => true
  | Request.getItem _ _ => true
  | Request.getMerchants _ => true
  | Request.getMerchant _ => true
  | Request.getMerchantProducts _ => true
  | Request.getProducts _ => true
  | Request.getProduct _ => true
  | Request.getSubscriptions _ => true
  | Request.getSubscribers _ => true
  | _ => false

/-- The WishList rows owned by user `u`. -/
def Store.wishListsOf (s : Store) (u : Int) : List WishList :=
  s.wishLists.rows.filter (fun w => w.userId == some u)

/-- What a partial update has to do with one listed field: take the value of
the body when the field is present in the body, keep the prior value when it
is absent. -/
def Patched {α : Type} (field : Field α) (old new : Option α) : Prop :=
  match field.present? with
  | some v => new = v
  | none => new = old

/-- Referential integrity: every foreign key is `null` or the id of a row of
the table it refers to. -/
structure Store.Referential (s : Store) : Prop where
  wishLists_userId : ∀ w ∈ s.wishLists.rows, s.users.refers User.id w.userId = true
  wishListItems_wishListId :
    ∀ i ∈ s.wishListItems.rows, s.wishLists.refers WishList.id i.wishListId = true
  wishListItems_productId :
    ∀ i ∈ s.wishListItems.rows, s.products.refers Product.id i.productId = true
  products_merchantId : ∀ p ∈ s.products.rows, s.merchants.refers Merchant.id p.merchantId = true
  subscriptions_userId : ∀ x ∈ s.subscriptions.rows, s.users.refers User.id x.userId = true
  subscriptions_subscribedToUserId :
    ∀ x ∈ s.subscriptions.rows, s.users.refers User.id x.subscribedToUserId = true

/-- Every id and every `INTEGER` column of the store holds `null` or a value of
the type. -/
structure Store.InRange (s : Store) : Prop where
  users : ∀ u ∈ s.users.rows, inInt4 u.id = true
  wishLists : ∀ w ∈ s.wishLists.rows, inInt4 w.id = true ∧ inInt4? w.userId = true
  wishListItems : ∀ i ∈ s.wishListItems.rows,
    inInt4 i.id = true ∧ inInt4? i.wishListId = true ∧ inInt4? i.productId = true
  merchants : ∀ m ∈ s.merchants.rows, inInt4 m.id = true
  products : ∀ p ∈ s.products.rows, inInt4 p.id = true ∧ p.inRange = true
  subscriptions : ∀ x ∈ s.subscriptions.rows,
    inInt4 x.id = true ∧ inInt4? x.userId = true ∧ inInt4? x.subscribedToUserId = true

/-- No user id owns two wishlists. -/
def Store.OneWishListPerUser (s : Store) : Prop :=
  ∀ u, (s.wishListsOf u).length ≤ 1

/-! ## Example requests and stores -/

/-- The body `{ name: "A", email: "a@x.com", password: "p" }`. -/
def bodyA : UserBody :=
  { name := Field.val "A", email := Field.val "a@x.com", password := Field.val "p" }

/-- The body `{ name: "B", email: "b@x.com", password: "q" }`. -/
def bodyB : UserBody :=
  { name := Field.val "B", email := Field.val "b@x.com", password := Field.val "q" }

/-- The body `{ name: "M", login: "m", password: "x", description: "shop" }`. -/
def bodyM : MerchantBody :=
  { name := Field.val "M", login := Field.val "m", password := Field.val "x",
    description := Field.val "shop" }

/-- The body of a product "Lamp" of merchant 1. -/
def bodyLamp : ProductBody :=
  { name := Field.val "Lamp", description := Field.val "Desk lamp", img := Field.val "lamp.png",
    price := Field.val 500, merchantId := Field.val 1 }

/-- Users 1 and 2 with their wishlists 1 and 2, merchant 1 with its product 1;
item 1 (product 1) is in wishlist 1. -/
def twoUsers : Store :=
  run Store.empty
    [(noFaults, Request.postUsers bodyA), (noFaults, Request.postUsers bodyB),
      (noFaults, Request.postMerchants bodyM), (noFaults, Request.postProducts bodyLamp),
      (noFaults, Request.postItems 1 { productId := Field.val 1 })]

/-- The body of a product of merchant 9. -/
def bodyOfMerchant9 : ProductBody :=
  { name := Field.val "Lamp", description := Field.val "Desk lamp", img := Field.val "lamp.png",
    price := Field.val 500, merchantId := Field.val 9 }

/-- Merchant 1 and its product 7: six products were refused before (merchant 9
does not exist), each of them drew an id. -/
def product7 : Store :=
  run Store.empty
    [(noFaults, Request.postMerchants bodyM), (noFaults, Request.postProducts bodyOfMerchant9),
      (noFaults, Request.postProducts bodyOfMerchant9),
      (noFaults, Request.postProducts bodyOfMerchant9),
      (noFaults, Request.postProducts bodyOfMerchant9),
      (noFaults, Request.postProducts bodyOfMerchant9),
      (noFaults, Request.postProducts bodyOfMerchant9),
      (noFaults, Request.postProducts bodyLamp)]

/-- `POST /users/1/wishlist` is sent before any user exists, then user 1 is created. -/
def wishListThenUser : Store :=
  run Store.empty [(noFaults, Request.postWishList 1), (noFaults, Request.postUsers bodyA)]

/-- User 1 subscribes with a body without `subscribedToUserId` and is then deleted. -/
def subscriberDeleted : Store :=
  run Store.empty
    [(noFaults, Request.postUsers bodyA), (noFaults, Request.postSubscriptions 1 {}),
      (noFaults, Request.deleteUser 1)]

/-- User 1 deletes its wishlist and creates it again. -/
def wishListRecreated : Store :=
  run Store.empty
    [(noFaults, Request.postUsers bodyA), (noFaults, Request.deleteWishList 1),
      (noFaults, Request.postWishList 1)]

/-! ## Definitions for the claims on lists, searches and failures -/

/-- The characters that SQL `LIKE` does not take literally. -/
def likeSpecial (c : Char) : Bool := c == '%' || c == '_' || c == Char.ofNat 92

/-- The name contains the search string as a substring. -/
def containsSubstring (name search : String) : Prop := search.toList <:+: name.toList

/-- The status of a success response: 201 for the `POST` routes, 200 for the others. -/
def Request.successStatus : Request → Nat
  | Request.postUsers _ => 201
  | Request.postWishList _ => 201
  | Request.postItems _ _ => 201
  | Request.postMerchants _ => 201
  | Request.postProducts _ => 201
  | Request.postSubscriptions _ _ => 201
  | _ => 200

/-- The body a success response has to carry, from the store `s` before and
the store `s'` after the request: the created row for a `POST`, the row (or
the list of rows) for a `GET`, the row as stored for a `PATCH`, and a
`{ message }` for a `DELETE`. -/
def successBody (s s' : Store) : Request → Json → Prop
  | Request.getUsers, b =>
    b = Json.arr (s.users.rows.map (fun u => (User.toJSON u).exclude ["password"]))
  | Request.postUsers _, b =>
    ∃ u ∈ s'.users.rows, u.id = s.users.nextId ∧ b = User.toJSON u
  | Request.getUser userId, b =>
    ∃ u ∈ s.users.rows, u.id = userId ∧ b = (User.toJSON u).exclude ["password"]
  | Request.patchUser userId _, b =>
    ∃ u ∈ s'.users.rows, u.id = userId ∧ b = User.toJSON u
  | Request.deleteUser _, b => b = message "User deleted"
  | Request.getWishList userId, b =>
    ∃ w ∈ s.wishLists.rows, w.userId = some userId ∧ b = WishList.toJSONWithItems s w
  | Request.postWishList _, b =>
    ∃ w ∈ s'.wishLists.rows, w.id = s.wishLists.nextId ∧ b = WishList.toJSON w
  | Request.patchWishList userId _, b =>
    ∃ w ∈ s'.wishLists.rows, w.userId = some userId ∧ b = WishList.toJSON w
  | Request.deleteWishList _, b => b = message "WishList deleted"
  | Request.getItems userId, b =>
    ∃ w ∈ s.wishLists.rows, w.userId = some userId
      ∧ b = Json.arr ((s.wishListItems.rows.filter (fun i => i.wishListId == some w.id)).map
          (WishListItem.toJSONWithProduct s))
  | Request.postItems _ _, b =>
    ∃ i ∈ s'.wishListItems.rows, i.id = s.wishListItems.nextId ∧ b = WishListItem.toJSON i
  | Request.getItem _ itemId, b =>
    ∃ i ∈ s.wishListItems.rows, i.id = itemId ∧ b = WishListItem.toJSONWithProduct s i
  | Request.patchItem _ itemId _, b =>
    ∃ i ∈ s'.wishListItems.rows, i.id = itemId ∧ b = WishListItem.toJSON i
  | Request.deleteItem _ _, b => b = message "Item removed from wishlist"
  | Request.getMerchants search, b =>
    b = Json.arr ((s.merchants.rows.filter (fun m => searchWhere search m.name)).map
      Merchant.toJSON)
  | Request.postMerchants _, b =>
    ∃ m ∈ s'.merchants.rows, m.id = s.merchants.nextId ∧ b = Merchant.toJSON m
  | Request.getMerchant merchantId, b =>
    ∃ m ∈ s.merchants.rows, m.id = merchantId ∧ b = Merchant.toJSON m
  | Request.patchMerchant merchantId _, b =>
    ∃ m ∈ s'.merchants.rows, m.id = merchantId ∧ b = Merchant.toJSON m
  | Request.deleteMerchant _, b => b = message "Merchant deleted"
  | Request.getMerchantProducts merchantId, b =>
    b = Json.arr ((s.products.rows.filter (fun p => p.merchantId == some merchantId)).map
      Product.toJSON)
  | Request.getProducts search, b =>
    b = Json.arr ((s.products.rows.filter (fun p => searchWhere search p.name)).map
      Product.toJSON)
  | Request.postProducts _, b =>
    ∃ p ∈ s'.products.rows, p.id = s.products.nextId ∧ b = Product.toJSON p
  | Request.getProduct productId, b =>
    ∃ p ∈ s.products.rows, p.id = productId ∧ b = Product.toJSON p
  | Request.patchProduct productId _, b =>
    ∃ p ∈ s'.products.rows, p.id = productId ∧ b = Product.toJSON p
  | Request.deleteProduct _, b => b = message "Product deleted"
  | Request.getSubscriptions userId, b =>
    b = Json.arr ((s.subscriptions.rows.filter (fun x => x.userId == some userId)).map
      (fun x => Subscription.toJSONWithUser s "subscribedTo" x.subscribedToUserId x))
  | Request.postSubscriptions _ _, b =>
    ∃ x ∈ s'.subscriptions.rows, x.id = s.subscriptions.nextId ∧ b = Subscription.toJSON x
  | Request.getSubscribers userId, b =>
    b = Json.arr ((s.subscriptions.rows.filter (fun x => x.subscribedToUserId == some userId)).map
      (fun x => Subscription.toJSONWithUser s "subscriber" x.userId x))
  | Request.deleteSubscription _ _, b => b = message "Unsubscribed"

/-- Number of persistence calls (`await Model.…`) that the handler of a request
makes on the store `s` when none of them throws for an outside reason: a call
that throws for what the models declare is the last one. -/
def persistenceCalls (s : Store) : Request → Nat
  | Request.getUsers => 1
  | Request.postUsers body =>
    if (body.toRow s.users.nextId).notNull && inInt4 s.users.nextId
        && User.emailUnique s.users.rows (body.toRow s.users.nextId) then 2 else 1
  | Request.getUser _ => 1
  | Request.patchUser userId _ =>
    match s.users.rows.find? (fun r => r.id == userId) with
    | none => 1
    | some _ => 2
  | Request.deleteUser userId =>
    match s.users.rows.find? (fun r => r.id == userId) with
    | none => 1
    | some _ => 2
  | Request.getWishList _ => 1
  | Request.postWishList userId =>
    match s.wishLists.rows.find? (fun w => w.userId == some userId) with
    | none => if inInt4 userId then 2 else 1
    | some _ => 1
  | Request.patchWishList userId _ =>
    match s.wishLists.rows.find? (fun w => w.userId == some userId) with
    | none => 1
    | some _ => 2
  | Request.deleteWishList userId =>
    match s.wishLists.rows.find? (fun w => w.userId == some userId) with
    | none => 1
    | some _ => 2
  | Request.getItems userId =>
    match s.wishLists.rows.find? (fun w => w.userId == some userId) with
    | none => 1
    | some _ => 2
  | Request.postItems userId _ =>
    match s.wishLists.rows.find? (fun w => w.userId == some userId) with
    | none => 1
    | some _ => 2
  | Request.getItem userId _ =>
    match s.wishLists.rows.find? (fun w => w.userId == some userId) with
    | none => 1
    | some _ => 2
  | Request.patchItem userId itemId _ =>
    match s.wishLists.rows.find? (fun w => w.userId == some userId) with
    | none => 1
    | some wishList =>
      match s.wishListItems.rows.find? (fun i => i.id == itemId) with
      | none => 2
      | some item => if item.wishListId = some wishList.id then 3 else 2
  | Request.deleteItem userId itemId =>
    match s.wishLists.rows.find? (fun w => w.userId == some userId) with
    | none => 1
    | some wishList =>
      match s.wishListItems.rows.find? (fun i => i.id == itemId) with
      | none => 2
      | some item => if item.wishListId = some wishList.id then 3 else 2
  | Request.getMerchants _ => 1
  | Request.postMerchants _ => 1
  | Request.getMerchant _ => 1
  | Request.patchMerchant merchantId _ =>
    match s.merchants.rows.find? (fun r => r.id == merchantId) with
    | none => 1
    | some _ => 2
  | Request.deleteMerchant merchantId =>
    match s.merchants.rows.find? (fun r => r.id == merchantId) with
    | none => 1
    | some _ => 2
  | Request.getMerchantProducts _ => 1
  | Request.getProducts _ => 1
  | Request.postProducts _ => 1
  | Request.getProduct _ => 1
  | Request.patchProduct productId _ =>
    match s.products.rows.find? (fun r => r.id == productId) with
    | none => 1
    | some _ => 2
  | Request.deleteProduct productId =>
    match s.products.rows.find? (fun r => r.id == productId) with
    | none => 1
    | some _ => 2
  | Request.getSubscriptions _ => 1
  | Request.postSubscriptions userId body =>
    if strictEqNumber (Number (Field.val userId)) (Number body.subscribedToUserId) then 0 else 1
  | Request.getSubscribers _ => 1
  | Request.deleteSubscription userId subscriptionId =>
    match s.subscriptions.rows.find? (fun r => r.id == subscriptionId) with
    | none => 1
    | some sub => if sub.userId = some userId then 2 else 1

/-- The persistence call number 1 of a request (the second one) throws. -/
def secondCallFails : Faults := fun k => k == 1

/-- Merchant 1 with its one product 1, after `POST /merchants` and `POST /products`. -/
def merchantWithLamp : Store :=
  run Store.empty
    [(noFaults, Request.postMerchants bodyM), (noFaults, Request.postProducts bodyLamp)]

/-- The store `twoUsers` after user 1 subscribed to user 2. -/
def oneSubscription : Store :=
  run twoUsers [(noFaults, Request.postSubscriptions 1 ⟨Field.val 2⟩)]

/-! # Lemmas -/

/-! ## Normal forms of the persistence calls -/

@[simp] theorem noFaults_apply (k : Nat) : noFaults k = false := rfl

theorem Table.findAll_eq {α : Type} (fail inRange : Bool) (t : Table α) (p : α → Bool) :
    t.findAll fail inRange p =
      if fail = true then Except.error DbError.failure
      else if (t.rows.filter p).isEmpty = true ∧ inRange = false then Except.error DbError.range
      else Except.ok (t.rows.filter p) := by
  unfold Table.findAll
  cases fail <;> cases inRange <;> cases t.rows.filter p <;> simp

theorem Table.findAll_inRange {α : Type} (fail : Bool) (t : Table α) (p : α → Bool) :
    t.findAll fail true p =
      if fail = true then Except.error DbError.failure else Except.ok (t.rows.filter p) := by
  rw [Table.findAll_eq]
  simp

theorem Table.refers_of_find? {α : Type} (key : α → Int) (t : Table α) {p : α → Bool} {r : α}
    (h : t.rows.find? p = some r) : t.refers key (some (key r)) = true := by
  simp only [Table.refers, List.any_eq_true, beq_iff_eq]
  exact ⟨r, List.mem_of_find?_eq_some h, rfl⟩

theorem Table.refers_some {α : Type} (key : α → Int) (t : Table α) (k : Int) :
    t.refers key (some k) = true ↔ ∃ r ∈ t.rows, key r = k := by
  simp [Table.refers]

/-! ## Normal forms of the handlers -/

theorem GET_users_eq (faults : Faults) (s : Store) :
    GET_users faults s =
      if faults 0 = true then (internalServerError, s)
      else
        (Response.json (Json.arr (s.users.rows.map (fun u => (User.toJSON u).exclude ["password"]))),
          s) := by
  unfold GET_users
  rw [Table.findAll_inRange]
  cases faults 0 <;> simp

theorem POST_users_eq (faults : Faults) (s : Store) (body : UserBody) :
    POST_users faults s body =
      if faults 0 = true ∨ (body.toRow s.users.nextId).notNull = false
          ∨ inInt4 s.users.nextId = false then
        (internalServerError, s)
      else if User.emailUnique s.users.rows (body.toRow s.users.nextId) = false then
        (internalServerError, { s with users := ⟨s.users.rows, s.users.nextId + 1⟩ })
      else if faults 1 = true ∨ inInt4 s.wishLists.nextId = false then
        (internalServerError,
          { s with users := ⟨s.users.rows ++ [body.toRow s.users.nextId], s.users.nextId + 1⟩ })
      else
        (Response.statusJson 201 (User.toJSON (body.toRow s.users.nextId)),
          { s with
            users := ⟨s.users.rows ++ [body.toRow s.users.nextId], s.users.nextId + 1⟩
            wishLists := ⟨s.wishLists.rows ++ [⟨s.wishLists.nextId, some s.users.nextId⟩],
              s.wishLists.nextId + 1⟩ }) := by
  unfold POST_users Table.create
  dsimp only
  cases faults 0 <;> cases faults 1 <;> cases (body.toRow s.users.nextId).notNull <;>
    cases inInt4 s.users.nextId <;> cases inInt4 s.wishLists.nextId <;>
    cases User.emailUnique s.users.rows (body.toRow s.users.nextId) <;>
    simp [UserBody.toRow, Table.refers]

theorem GET_users_userId_eq (faults : Faults) (s : Store) (userId : Int) :
    GET_users_userId faults s userId =
      if faults 0 = true then (internalServerError, s)
      else match s.users.rows.find? (fun r => r.id == userId) with
        | none =>
          if inInt4 userId = true then (Response.statusJson 404 (message "User not found"), s)
          else (internalServerError, s)
        | some user => (Response.json ((User.toJSON user).exclude ["password"]), s) := by
  unfold GET_users_userId Table.findByPk Table.findOne
  generalize List.find? _ s.users.rows = found
  rcases found with _ | user <;> cases faults 0 <;> cases inInt4 userId <;> simp

theorem PATCH_users_userId_eq (faults : Faults) (s : Store) (userId : Int) (body : UserBody) :
    PATCH_users_userId faults s userId body =
      if faults 0 = true then (internalServerError, s)
      else match s.users.rows.find? (fun r => r.id == userId) with
        | none =>
          if inInt4 userId = true then (Response.statusJson 404 (message "User not found"), s)
          else (internalServerError, s)
        | some user =>
          if faults 1 = true ∨ User.valid s.users.rows (body.assignTo user) = false then
            (internalServerError, s)
          else
            (Response.json (User.toJSON (body.assignTo user)),
              { s with users :=
                  ⟨s.users.rows.map
                      (fun x => if x.id == (body.assignTo user).id then body.assignTo user else x),
                    s.users.nextId⟩ }) := by
  unfold PATCH_users_userId Table.findByPk Table.findOne Table.save
  generalize List.find? _ s.users.rows = found
  rcases found with _ | user
  · cases faults 0 <;> cases inInt4 userId <;> simp
  · cases faults 0
    · simp only [Bool.false_eq_true, if_false]
      cases faults 1 <;> cases User.valid s.users.rows (body.assignTo user) <;> simp
    · simp

theorem DELETE_users_userId_eq (faults : Faults) (s : Store) (userId : Int) :
    DELETE_users_userId faults s userId =
      if faults 0 = true then (internalServerError, s)
      else match s.users.rows.find? (fun r => r.id == userId) with
        | none =>
          if inInt4 userId = true then (Response.statusJson 404 (message "User not found"), s)
          else (internalServerError, s)
        | some user =>
          if faults 1 = true then (internalServerError, s)
          else
            (Response.json (message "User deleted"),
              { s with
                users := ⟨s.users.rows.filter (fun x => x.id != user.id), s.users.nextId⟩
                wishLists := s.wishLists.onDelete (WishList.onDeleteUser user.id)
                subscriptions := s.subscriptions.onDelete (Subscription.onDeleteUser user.id) }) := by
  unfold DELETE_users_userId Table.findByPk Table.findOne Table.destroy
  generalize List.find? _ s.users.rows = found
  rcases found with _ | user
  · cases faults 0 <;> cases inInt4 userId <;> simp
  · cases faults 0 <;> cases faults 1 <;> simp

theorem GET_users_userId_wishlist_eq (faults : Faults) (s : Store) (userId : Int) :
    GET_users_userId_wishlist faults s userId =
      if faults 0 = true then (internalServerError, s)
      else match s.wishLists.rows.find? (fun w => w.userId == some userId) with
        | none =>
          if inInt4 userId = true then (Response.statusJson 404 (message "WishList not found"), s)
          else (internalServerError, s)
        | some wishList => (Response.json (WishList.toJSONWithItems s wishList), s) := by
  unfold GET_users_userId_wishlist Table.findOne
  generalize List.find? _ s.wishLists.rows = found
  rcases found with _ | w <;> cases faults 0 <;> cases inInt4 userId <;> simp

theorem POST_users_userId_wishlist_eq (faults : Faults) (s : Store) (userId : Int) :
    POST_users_userId_wishlist faults s userId =
      if faults 0 = true then (internalServerError, s)
      else match s.wishLists.rows.find? (fun w => w.userId == some userId) with
        | some _ => (Response.statusJson 409 (message "WishList already exists"), s)
        | none =>
          if inInt4 userId = false ∨ faults 1 = true ∨ inInt4 s.wishLists.nextId = false then
            (internalServerError, s)
          else if s.users.refers User.id (some userId) = false then
            (internalServerError,
              { s with wishLists := ⟨s.wishLists.rows, s.wishLists.nextId + 1⟩ })
          else
            (Response.statusJson 201 (WishList.toJSON ⟨s.wishLists.nextId, some userId⟩),
              { s with wishLists :=
                  ⟨s.wishLists.rows ++ [⟨s.wishLists.nextId, some userId⟩],
                    s.wishLists.nextId + 1⟩ }) := by
  unfold POST_users_userId_wishlist Table.findOne Table.create
  generalize List.find? _ s.wishLists.rows = found
  rcases found with _ | w
  · cases faults 0 <;> cases faults 1 <;> cases inInt4 userId <;>
      cases inInt4 s.wishLists.nextId <;> cases s.users.refers User.id (some userId) <;> simp
  · cases faults 0 <;> simp

theorem PATCH_users_userId_wishlist_eq (faults : Faults) (s : Store) (userId : Int)
    (body : WishListBody) :
    PATCH_users_userId_wishlist faults s userId body =
      if faults 0 = true then (internalServerError, s)
      else match s.wishLists.rows.find? (fun w => w.userId == some userId) with
        | none =>
          if inInt4 userId = true then (Response.statusJson 404 (message "WishList not found"), s)
          else (internalServerError, s)
        | some found =>
          if faults 1 = true then (internalServerError, s)
          else
            (Response.json (WishList.toJSON found),
              { s with wishLists :=
                  ⟨s.wishLists.rows.map (fun x => if x.id == found.id then found else x),
                    s.wishLists.nextId⟩ }) := by
  unfold PATCH_users_userId_wishlist Table.findOne Table.save
  generalize List.find? _ s.wishLists.rows = found
  rcases found with _ | w
  · cases faults 0 <;> cases inInt4 userId <;> simp
  · cases faults 0 <;> cases faults 1 <;> cases body.title <;> cases body.isPublic <;>
      simp [Field.present?, Instance.setOwn]

theorem DELETE_users_userId_wishlist_eq (faults : Faults) (s : Store) (userId : Int) :
    DELETE_users_userId_wishlist faults s userId =
      if faults 0 = true then (internalServerError, s)
      else match s.wishLists.rows.find? (fun w => w.userId == some userId) with
        | none =>
          if inInt4 userId = true then (Response.statusJson 404 (message "WishList not found"), s)
          else (internalServerError, s)
        | some wishList =>
          if faults 1 = true then (internalServerError, s)
          else
            (Response.json (message "WishList deleted"),
              { s with
                wishLists :=
                  ⟨s.wishLists.rows.filter (fun x => x.id != wishList.id), s.wishLists.nextId⟩
                wishListItems :=
                  s.wishListItems.onDelete (WishListItem.onDeleteWishList wishList.id) }) := by
  unfold DELETE_users_userId_wishlist Table.findOne Table.destroy
  generalize List.find? _ s.wishLists.rows = found
  rcases found with _ | w
  · cases faults 0 <;> cases inInt4 userId <;> simp
  · cases faults 0 <;> cases faults 1 <;> simp

theorem GET_users_userId_wishlist_items_eq (faults : Faults) (s : Store) (userId : Int) :
    GET_users_userId_wishlist_items faults s userId =
      if faults 0 = true then (internalServerError, s)
      else match s.wishLists.rows.find? (fun w => w.userId == some userId) with
        | none =>
          if inInt4 userId = true then (Response.statusJson 404 (message "WishList not found"), s)
          else (internalServerError, s)
        | some wishList =>
          if faults 1 = true then (internalServerError, s)
          else
            (Response.json (Json.arr
              ((s.wishListItems.rows.filter (fun i => i.wishListId == some wishList.id)).map
                (WishListItem.toJSONWithProduct s))), s) := by
  unfold GET_users_userId_wishlist_items Table.findOne
  simp only [Table.findAll_inRange]
  generalize List.find? _ s.wishLists.rows = found
  rcases found with _ | w
  · cases faults 0 <;> cases inInt4 userId <;> simp
  · cases faults 0 <;> cases faults 1 <;> simp

theorem POST_users_userId_wishlist_items_eq (faults : Faults) (s : Store) (userId : Int)
    (body : WishListItemBody) :
    POST_users_userId_wishlist_items faults s userId body =
      if faults 0 = true then (internalServerError, s)
      else match s.wishLists.rows.find? (fun w => w.userId == some userId) with
        | none =>
          if inInt4 userId = true then (Response.statusJson 404 (message "WishList not found"), s)
          else (internalServerError, s)
        | some wishList =>
          if faults 1 = true ∨ inInt4? body.productId.toColumn = false
              ∨ inInt4 s.wishListItems.nextId = false then
            (internalServerError, s)
          else if s.products.refers Product.id body.productId.toColumn = false then
            (internalServerError,
              { s with wishListItems := ⟨s.wishListItems.rows, s.wishListItems.nextId + 1⟩ })
          else
            (Response.statusJson 201 (WishListItem.toJSON
                ⟨s.wishListItems.nextId, some wishList.id, body.productId.toColumn⟩),
              { s with wishListItems :=
                  ⟨s.wishListItems.rows
                      ++ [⟨s.wishListItems.nextId, some wishList.id, body.productId.toColumn⟩],
                    s.wishListItems.nextId + 1⟩ }) := by
  unfold POST_users_userId_wishlist_items Table.findOne Table.create
  cases hf : s.wishLists.rows.find? (fun w => w.userId == some userId) with
  | none => cases faults 0 <;> cases inInt4 userId <;> simp
  | some w =>
    have hw := Table.refers_of_find? WishList.id s.wishLists hf
    cases faults 0 <;> cases faults 1 <;> cases inInt4? body.productId.toColumn <;>
      cases inInt4 s.wishListItems.nextId <;>
      cases s.products.refers Product.id body.productId.toColumn <;> simp [hw]

theorem GET_users_userId_wishlist_items_itemId_eq (faults : Faults) (s : Store)
    (userId itemId : Int) :
    GET_users_userId_wishlist_items_itemId faults s userId itemId =
      if faults 0 = true then (internalServerError, s)
      else match s.wishLists.rows.find? (fun w => w.userId == some userId) with
        | none =>
          if inInt4 userId = true then (Response.statusJson 404 (message "WishList not found"), s)
          else (internalServerError, s)
        | some wishList =>
          if faults 1 = true then (internalServerError, s)
          else match s.wishListItems.rows.find? (fun i => i.id == itemId) with
            | none =>
              if inInt4 itemId = true then (Response.statusJson 404 (message "Item not found"), s)
              else (internalServerError, s)
            | some item =>
              if item.wishListId ≠ some wishList.id then
                (Response.statusJson 404 (message "Item not found"), s)
              else (Response.json (WishListItem.toJSONWithProduct s item), s) := by
  unfold GET_users_userId_wishlist_items_itemId Table.findByPk Table.findOne
  generalize List.find? _ s.wishLists.rows = found
  generalize List.find? _ s.wishListItems.rows = item
  rcases found with _ | w
  · cases faults 0 <;> cases inInt4 userId <;> simp
  · rcases item with _ | i
    · cases faults 0 <;> cases faults 1 <;> cases inInt4 itemId <;> simp
    · cases faults 0 <;> cases faults 1 <;> simp

theorem PATCH_users_userId_wishlist_items_itemId_eq (faults : Faults) (s : Store)
    (userId itemId : Int) (body : WishListItemBody) :
    PATCH_users_userId_wishlist_items_itemId faults s userId itemId body =
      if faults 0 = true then (internalServerError, s)
      else match s.wishLists.rows.find? (fun w => w.userId == some userId) with
        | none =>
          if inInt4 userId = true then (Response.statusJson 404 (message "WishList not found"), s)
          else (internalServerError, s)
        | some wishList =>
          if faults 1 = true then (internalServerError, s)
          else match s.wishListItems.rows.find? (fun i => i.id == itemId) with
            | none =>
              if inInt4 itemId = true then (Response.statusJson 404 (message "Item not found"), s)
              else (internalServerError, s)
            | some item =>
              if item.wishListId ≠ some wishList.id then
                (Response.statusJson 404 (message "Item not found"), s)
              else if faults 2 = true then (internalServerError, s)
              else
                (Response.json (WishListItem.toJSON item),
                  { s with wishListItems :=
                      ⟨s.wishListItems.rows.map (fun x => if x.id == item.id then item else x),
                        s.wishListItems.nextId⟩ }) := by
  unfold PATCH_users_userId_wishlist_items_itemId Table.findByPk Table.findOne Table.save
  generalize List.find? _ s.wishLists.rows = found
  generalize List.find? _ s.wishListItems.rows = item
  rcases found with _ | w
  · cases faults 0 <;> cases inInt4 userId <;> simp
  · rcases item with _ | i
    · cases faults 0 <;> cases faults 1 <;> cases inInt4 itemId <;> simp
    · cases faults 0 <;> cases faults 1 <;> cases faults 2 <;> cases body.status <;>
        simp [Field.present?, Instance.setOwn]

theorem DELETE_users_userId_wishlist_items_itemId_eq (faults : Faults) (s : Store)
    (userId itemId : Int) :
    DELETE_users_userId_wishlist_items_itemId faults s userId itemId =
      if faults 0 = true then (internalServerError, s)
      else match s.wishLists.rows.find? (fun w => w.userId == some userId) with
        | none =>
          if inInt4 userId = true then (Response.statusJson 404 (message "WishList not found"), s)
          else (internalServerError, s)
        | some wishList =>
          if faults 1 = true then (internalServerError, s)
          else match s.wishListItems.rows.find? (fun i => i.id == itemId) with
            | none =>
              if inInt4 itemId = true then (Response.statusJson 404 (message "Item not found"), s)
              else (internalServerError, s)
            | some item =>
              if item.wishListId ≠ some wishList.id then
                (Response.statusJson 404 (message "Item not found"), s)
              else if faults 2 = true then (internalServerError, s)
              else
                (Response.json (message "Item removed from wishlist"),
                  { s with wishListItems :=
                      ⟨s.wishListItems.rows.filter (fun x => x.id != item.id),
                        s.wishListItems.nextId⟩ }) := by
  unfold DELETE_users_userId_wishlist_items_itemId Table.findByPk Table.findOne Table.destroy
  generalize List.find? _ s.wishLists.rows = found
  generalize List.find? _ s.wishListItems.rows = item
  rcases found with _ | w
  · cases faults 0 <;> cases inInt4 userId <;> simp
  · rcases item with _ | i
    · cases faults 0 <;> cases faults 1 <;> cases inInt4 itemId <;> simp
    · cases faults 0 <;> cases faults 1 <;> cases faults 2 <;> simp

theorem GET_merchants_eq (faults : Faults) (s : Store) (search : Option String) :
    GET_merchants faults s search =
      if faults 0 = true then (internalServerError, s)
      else
        (Response.json (Json.arr
          ((s.merchants.rows.filter (fun m => searchWhere search m.name)).map Merchant.toJSON)),
          s) := by
  unfold GET_merchants
  rw [Table.findAll_inRange]
  cases faults 0 <;> simp

theorem POST_merchants_eq (faults : Faults) (s : Store) (body : MerchantBody) :
    POST_merchants faults s body =
      if faults 0 = true ∨ (body.toRow s.merchants.nextId).notNull = false
          ∨ inInt4 s.merchants.nextId = false then
        (internalServerError, s)
      else if Merchant.loginUnique s.merchants.rows (body.toRow s.merchants.nextId) = false then
        (internalServerError, { s with merchants := ⟨s.merchants.rows, s.merchants.nextId + 1⟩ })
      else
        (Response.statusJson 201 (Merchant.toJSON (body.toRow s.merchants.nextId)),
          { s with merchants :=
              ⟨s.merchants.rows ++ [body.toRow s.merchants.nextId], s.merchants.nextId + 1⟩ }) := by
  unfold POST_merchants Table.create
  cases faults 0 <;> cases (body.toRow s.merchants.nextId).notNull <;>
    cases inInt4 s.merchants.nextId <;>
    cases Merchant.loginUnique s.merchants.rows (body.toRow s.merchants.nextId) <;> simp

theorem GET_merchants_merchantId_eq (faults : Faults) (s : Store) (merchantId : Int) :
    GET_merchants_merchantId faults s merchantId =
      if faults 0 = true then (internalServerError, s)
      else match s.merchants.rows.find? (fun r => r.id == merchantId) with
        | none =>
          if inInt4 merchantId = true then
            (Response.statusJson 404 (message "Merchant not found"), s)
          else (internalServerError, s)
        | some merchant => (Response.json (Merchant.toJSON merchant), s) := by
  unfold GET_merchants_merchantId Table.findByPk Table.findOne
  generalize List.find? _ s.merchants.rows = found
  rcases found with _ | m <;> cases faults 0 <;> cases inInt4 merchantId <;> simp

theorem PATCH_merchants_merchantId_eq (faults : Faults) (s : Store) (merchantId : Int)
    (body : MerchantBody) :
    PATCH_merchants_merchantId faults s merchantId body =
      if faults 0 = true then (internalServerError, s)
      else match s.merchants.rows.find? (fun r => r.id == merchantId) with
        | none =>
          if inInt4 merchantId = true then
            (Response.statusJson 404 (message "Merchant not found"), s)
          else (internalServerError, s)
        | some merchant =>
          if faults 1 = true ∨ Merchant.valid s.merchants.rows (body.assignTo merchant) = false
          then (internalServerError, s)
          else
            (Response.json (Merchant.toJSON (body.assignTo merchant)),
              { s with merchants :=
                  ⟨s.merchants.rows.map
                      (fun x => if x.id == (body.assignTo merchant).id then body.assignTo merchant
                        else x),
                    s.merchants.nextId⟩ }) := by
  unfold PATCH_merchants_merchantId Table.findByPk Table.findOne Table.save
  generalize List.find? _ s.merchants.rows = found
  rcases found with _ | m
  · cases faults 0 <;> cases inInt4 merchantId <;> simp
  · cases faults 0
    · simp only [Bool.false_eq_true, if_false]
      cases faults 1 <;> cases Merchant.valid s.merchants.rows (body.assignTo m) <;> simp
    · simp

theorem DELETE_merchants_merchantId_eq (faults : Faults) (s : Store) (merchantId : Int) :
    DELETE_merchants_merchantId faults s merchantId =
      if faults 0 = true then (internalServerError, s)
      else match s.merchants.rows.find? (fun r => r.id == merchantId) with
        | none =>
          if inInt4 merchantId = true then
            (Response.statusJson 404 (message "Merchant not found"), s)
          else (internalServerError, s)
        | some merchant =>
          if faults 1 = true then (internalServerError, s)
          else
            (Response.json (message "Merchant deleted"),
              { s with
                merchants :=
                  ⟨s.merchants.rows.filter (fun x => x.id != merchant.id), s.merchants.nextId⟩
                products := s.products.onDelete (Product.onDeleteMerchant merchant.id) }) := by
  unfold DELETE_merchants_merchantId Table.findByPk Table.findOne Table.destroy
  generalize List.find? _ s.merchants.rows = found
  rcases found with _ | m
  · cases faults 0 <;> cases inInt4 merchantId <;> simp
  · cases faults 0 <;> cases faults 1 <;> simp

theorem GET_merchants_merchantId_products_eq (faults : Faults) (s : Store) (merchantId : Int) :
    GET_merchants_merchantId_products faults s merchantId =
      if faults 0 = true then (internalServerError, s)
      else match s.merchants.rows.find? (fun r => r.id == merchantId) with
        | none =>
          if inInt4 merchantId = true then
            (Response.statusJson 404 (message "Merchant not found"), s)
          else (internalServerError, s)
        | some merchant =>
          (Response.json (Json.arr
            ((s.products.rows.filter (fun p => p.merchantId == some merchant.id)).map
              Product.toJSON)), s) := by
  unfold GET_merchants_merchantId_products Table.findByPk Table.findOne
  generalize List.find? _ s.merchants.rows = found
  rcases found with _ | m <;> cases faults 0 <;> cases inInt4 merchantId <;> simp

theorem GET_products_eq (faults : Faults) (s : Store) (search : Option String) :
    GET_products faults s search =
      if faults 0 = true then (internalServerError, s)
      else
        (Response.json (Json.arr
          ((s.products.rows.filter (fun p => searchWhere search p.name)).map Product.toJSON)),
          s) := by
  unfold GET_products
  rw [Table.findAll_inRange]
  cases faults 0 <;> simp

theorem POST_products_eq (faults : Faults) (s : Store) (body : ProductBody) :
    POST_products faults s body =
      if faults 0 = true ∨ (body.toRow s.products.nextId).notNull = false
          ∨ (body.toRow s.products.nextId).inRange = false
          ∨ inInt4 s.products.nextId = false then
        (internalServerError, s)
      else if s.merchants.refers Merchant.id body.merchantId.toColumn = false then
        (internalServerError, { s with products := ⟨s.products.rows, s.products.nextId + 1⟩ })
      else
        (Response.statusJson 201 (Product.toJSON (body.toRow s.products.nextId)),
          { s with products :=
              ⟨s.products.rows ++ [body.toRow s.products.nextId], s.products.nextId + 1⟩ }) := by
  unfold POST_products Table.create
  cases faults 0 <;> cases (body.toRow s.products.nextId).notNull <;>
    cases (body.toRow s.products.nextId).inRange <;> cases inInt4 s.products.nextId <;>
    cases s.merchants.refers Merchant.id body.merchantId.toColumn <;> simp

theorem GET_products_productId_eq (faults : Faults) (s : Store) (productId : Int) :
    GET_products_productId faults s productId =
      if faults 0 = true then (internalServerError, s)
      else match s.products.rows.find? (fun r => r.id == productId) with
        | none =>
          if inInt4 productId = true then
            (Response.statusJson 404 (message "Product not found"), s)
          else (internalServerError, s)
        | some product => (Response.json (Product.toJSON product), s) := by
  unfold GET_products_productId Table.findByPk Table.findOne
  generalize List.find? _ s.products.rows = found
  rcases found with _ | p <;> cases faults 0 <;> cases inInt4 productId <;> simp

theorem PATCH_products_productId_eq (faults : Faults) (s : Store) (productId : Int)
    (body : ProductBody) :
    PATCH_products_productId faults s productId body =
      if faults 0 = true then (internalServerError, s)
      else match s.products.rows.find? (fun r => r.id == productId) with
        | none =>
          if inInt4 productId = true then
            (Response.statusJson 404 (message "Product not found"), s)
          else (internalServerError, s)
        | some product =>
          if faults 1 = true ∨ (body.assignTo product).notNull = false
              ∨ (body.assignTo product).inRange = false then
            (internalServerError, s)
          else
            (Response.json (Product.toJSON (body.assignTo product)),
              { s with products :=
                  ⟨s.products.rows.map
                      (fun x => if x.id == (body.assignTo product).id then body.assignTo product
                        else x),
                    s.products.nextId⟩ }) := by
  unfold PATCH_products_productId Table.findByPk Table.findOne Table.save
  generalize List.find? _ s.products.rows = found
  rcases found with _ | p
  · cases faults 0 <;> cases inInt4 productId <;> simp
  · cases faults 0
    · simp only [Bool.false_eq_true, if_false]
      cases faults 1 <;> cases (body.assignTo p).notNull <;> cases (body.assignTo p).inRange <;>
        simp
    · simp

theorem DELETE_products_productId_eq (faults : Faults) (s : Store) (productId : Int) :
    DELETE_products_productId faults s productId =
      if faults 0 = true then (internalServerError, s)
      else match s.products.rows.find? (fun r => r.id == productId) with
        | none =>
          if inInt4 productId = true then
            (Response.statusJson 404 (message "Product not found"), s)
          else (internalServerError, s)
        | some product =>
          if faults 1 = true then (internalServerError, s)
          else
            (Response.json (message "Product deleted"),
              { s with
                products :=
                  ⟨s.products.rows.filter (fun x => x.id != product.id), s.products.nextId⟩
                wishListItems :=
                  s.wishListItems.onDelete (WishListItem.onDeleteProduct product.id) }) := by
  unfold DELETE_products_productId Table.findByPk Table.findOne Table.destroy
  generalize List.find? _ s.products.rows = found
  rcases found with _ | p
  · cases faults 0 <;> cases inInt4 productId <;> simp
  · cases faults 0 <;> cases faults 1 <;> simp

theorem GET_users_userId_subscriptions_eq (faults : Faults) (s : Store) (userId : Int) :
    GET_users_userId_subscriptions faults s userId =
      if faults 0 = true then (internalServerError, s)
      else if (s.subscriptions.rows.filter (fun x => x.userId == some userId)).isEmpty = true
          ∧ inInt4 userId = false then
        (internalServerError, s)
      else
        (Response.json (Json.arr
          ((s.subscriptions.rows.filter (fun x => x.userId == some userId)).map
            (fun x => Subscription.toJSONWithUser s "subscribedTo" x.subscribedToUserId x))), s) := by
  unfold GET_users_userId_subscriptions
  rw [Table.findAll_eq]
  split_ifs <;> rfl

theorem POST_users_userId_subscriptions_eq (faults : Faults) (s : Store) (userId : Int)
    (body : SubscriptionBody) :
    POST_users_userId_subscriptions faults s userId body =
      if strictEqNumber (Number (Field.val userId)) (Number body.subscribedToUserId) = true then
        (Response.statusJson 400 (message "Cannot subscribe to oneself"), s)
      else if faults 0 = true ∨ inInt4 userId = false
          ∨ inInt4? body.subscribedToUserId.toColumn = false
          ∨ inInt4 s.subscriptions.nextId = false then
        (internalServerError, s)
      else if s.users.refers User.id (some userId) = false
          ∨ s.users.refers User.id body.subscribedToUserId.toColumn = false then
        (internalServerError,
          { s with subscriptions := ⟨s.subscriptions.rows, s.subscriptions.nextId + 1⟩ })
      else
        (Response.statusJson 201
            (Subscription.toJSON
              ⟨s.subscriptions.nextId, some userId, body.subscribedToUserId.toColumn⟩),
          { s with subscriptions :=
              ⟨s.subscriptions.rows
                  ++ [⟨s.subscriptions.nextId, some userId, body.subscribedToUserId.toColumn⟩],
                s.subscriptions.nextId + 1⟩ }) := by
  unfold POST_users_userId_subscriptions Table.create
  cases faults 0 <;>
    cases strictEqNumber (Number (Field.val userId)) (Number body.subscribedToUserId) <;>
    cases inInt4 userId <;> cases inInt4? body.subscribedToUserId.toColumn <;>
    cases inInt4 s.subscriptions.nextId <;> cases s.users.refers User.id (some userId) <;>
    cases s.users.refers User.id body.subscribedToUserId.toColumn <;> simp

theorem GET_users_userId_subscribers_eq (faults : Faults) (s : Store) (userId : Int) :
    GET_users_userId_subscribers faults s userId =
      if faults 0 = true then (internalServerError, s)
      else if
          (s.subscriptions.rows.filter (fun x => x.subscribedToUserId == some userId)).isEmpty
            = true
          ∧ inInt4 userId = false then
        (internalServerError, s)
      else
        (Response.json (Json.arr
          ((s.subscriptions.rows.filter (fun x => x.subscribedToUserId == some userId)).map
            (fun x => Subscription.toJSONWithUser s "subscriber" x.userId x))), s) := by
  unfold GET_users_userId_subscribers
  rw [Table.findAll_eq]
  split_ifs <;> rfl

theorem DELETE_users_userId_subscriptions_subscriptionId_eq (faults : Faults) (s : Store)
    (userId subscriptionId : Int) :
    DELETE_users_userId_subscriptions_subscriptionId faults s userId subscriptionId =
      if faults 0 = true then (internalServerError, s)
      else match s.subscriptions.rows.find? (fun r => r.id == subscriptionId) with
        | none =>
          if inInt4 subscriptionId = true then
            (Response.statusJson 404
              (message "Subscription not found or not belongs to this user"), s)
          else (internalServerError, s)
        | some sub =>
          if sub.userId ≠ some userId then
            (Response.statusJson 404
              (message "Subscription not found or not belongs to this user"), s)
          else if faults 1 = true then (internalServerError, s)
          else
            (Response.json (message "Unsubscribed"),
              { s with subscriptions :=
                  ⟨s.subscriptions.rows.filter (fun x => x.id != sub.id),
                    s.subscriptions.nextId⟩ }) := by
  unfold DELETE_users_userId_subscriptions_subscriptionId Table.findByPk Table.findOne
    Table.destroy
  generalize List.find? _ s.subscriptions.rows = found
  rcases found with _ | x
  · cases faults 0 <;> cases inInt4 subscriptionId <;> simp
  · cases faults 0 <;> cases faults 1 <;> simp

/-! ## Generic facts about tables -/

theorem Table.wf_empty {α : Type} (key : α → Int) : (Table.empty : Table α).WF key := by
  simp [Table.WF, Table.empty]

theorem Table.wf_append {α : Type} {key : α → Int} {t : Table α} (h : t.WF key) (r : α)
    (hr : key r = t.nextId) : (⟨t.rows ++ [r], t.nextId + 1⟩ : Table α).WF key := by
  obtain ⟨hnd, hlt⟩ := h
  refine ⟨?_, ?_⟩
  · simp only [List.map_append, List.map_cons, List.map_nil]
    refine List.Nodup.append hnd (List.nodup_singleton _) ?_
    intro k hk hk'
    simp only [List.mem_singleton] at hk'
    obtain ⟨x, hx, rfl⟩ := List.mem_map.1 hk
    have := hlt x hx
    omega
  · intro x hx
    simp only [List.mem_append, List.mem_singleton] at hx
    rcases hx with hx | rfl
    · have := hlt x hx
      show key x < t.nextId + 1
      omega
    · show key x < t.nextId + 1
      omega

/-- A refused insert moves the sequence on and keeps the primary key. -/
theorem Table.wf_skip {α : Type} {key : α → Int} {t : Table α} (h : t.WF key) :
    (⟨t.rows, t.nextId + 1⟩ : Table α).WF key := by
  refine ⟨h.1, fun x hx => ?_⟩
  have := h.2 x hx
  show key x < t.nextId + 1
  omega

theorem Table.wf_filter {α : Type} {key : α → Int} {t : Table α} (h : t.WF key)
    (p : α → Bool) : (⟨t.rows.filter p, t.nextId⟩ : Table α).WF key := by
  obtain ⟨hnd, hlt⟩ := h
  refine ⟨?_, fun x hx => hlt x (List.mem_filter.1 hx).1⟩
  exact List.Nodup.sublist (List.Sublist.map key (List.filter_sublist _)) hnd

theorem Table.map_key_save {α : Type} (key : α → Int) (rows : List α) (r : α) :
    (rows.map (fun x => if key x == key r then r else x)).map key = rows.map key := by
  induction rows with
  | nil => rfl
  | cons x xs ih =>
    simp only [List.map_cons, ih]
    by_cases hx : key x = key r <;> simp [hx]

theorem Table.wf_save {α : Type} {key : α → Int} {t : Table α} (h : t.WF key) (r : α) :
    (⟨t.rows.map (fun x => if key x == key r then r else x), t.nextId⟩ : Table α).WF key := by
  obtain ⟨hnd, hlt⟩ := h
  refine ⟨by simpa only [Table.map_key_save] using hnd, ?_⟩
  intro x hx
  obtain ⟨y, hy, rfl⟩ := List.mem_map.1 hx
  by_cases hk : key y = key r
  · have := hlt y hy
    simp only [hk, beq_self_eq_true, if_true]
    omega
  · have : (key y == key r) = false := by simpa using hk
    simp only [this]
    exact hlt y hy

/-- A referential action changes no id, so it keeps the primary key. -/
theorem Table.wf_onDelete {α : Type} {key : α → Int} {t : Table α} (h : t.WF key)
    (setNull : α → α) (hkey : ∀ x, key (setNull x) = key x) : (t.onDelete setNull).WF key := by
  obtain ⟨hnd, hlt⟩ := h
  have hmap : (t.rows.map setNull).map key = t.rows.map key := by
    rw [List.map_map]
    exact List.map_congr_left (fun x _ => hkey x)
  refine ⟨by simpa only [Table.onDelete, hmap] using hnd, ?_⟩
  intro x hx
  obtain ⟨y, hy, rfl⟩ := List.mem_map.1 hx
  rw [hkey]
  exact hlt y hy

/-- With a primary key, saving a row that is in the table unchanged changes nothing. -/
theorem Table.save_self {α : Type} {key : α → Int} {rows : List α}
    (hnd : (rows.map key).Nodup) {r : α} (hr : r ∈ rows) :
    rows.map (fun x => if key x == key r then r else x) = rows := by
  induction rows with
  | nil => rfl
  | cons x xs ih =>
    simp only [List.map_cons, List.nodup_cons] at hnd
    simp only [List.map_cons]
    rcases List.mem_cons.1 hr with rfl | hr'
    · congr 1
      · simp
      · refine (List.map_congr_left ?_).trans (List.map_id _)
        intro y hy
        have : key y ≠ key r := fun e => hnd.1 (e ▸ List.mem_map_of_mem key hy)
        simp [this]
    · congr 1
      · have : key x ≠ key r := fun e => hnd.1 (e ▸ List.mem_map_of_mem key hr')
        simp [this]
      · exact ih hnd.2 hr'

/-- With a primary key, `destroy` removes exactly the row that `findByPk` returned. -/
theorem Table.destroy_eq_erase {α : Type} [DecidableEq α] {key : α → Int} {rows : List α}
    (hnd : (rows.map key).Nodup) {pk : Int} {r : α}
    (hr : rows.find? (fun x => key x == pk) = some r) :
    rows.filter (fun x => key x != key r) = rows.erase r := by
  induction rows with
  | nil => simp at hr
  | cons x xs ih =>
    simp only [List.map_cons, List.nodup_cons] at hnd
    by_cases hx : key x = pk
    · have hxr : x = r := by simpa [List.find?_cons, hx] using hr
      subst hxr
      have : ∀ y ∈ xs, (key y != key x) = true := by
        intro y hy
        have : key y ≠ key x := fun e => hnd.1 (e ▸ List.mem_map_of_mem key hy)
        simpa using this
      simp [List.filter_cons, List.filter_eq_self.2 this]
    · have hr' : xs.find? (fun x => key x == pk) = some r := by
        simpa [List.find?_cons, hx] using hr
      have hkr : key r = pk := by simpa using List.find?_some hr'
      have hne : x ≠ r := fun e => hx (e ▸ hkr)
      have hne' : key x ≠ key r := by rw [hkr]; exact hx
      simp [List.filter_cons, hne', List.erase_cons_tail, hne, ih hnd.2 hr']

/-- A `GET` request leaves the store as it is. -/
theorem handle_get (faults : Faults) (s : Store) (r : Request) (h : r.isGet = true) :
    (handle faults s r).2 = s := by
  cases r <;> first
    | (exfalso; simp [Request.isGet] at h; done)
    | (simp only [handle, GET_users, GET_users_userId, GET_users_userId_wishlist,
        GET_users_userId_wishlist_items, GET_users_userId_wishlist_items_itemId, GET_merchants,
        GET_merchants_merchantId, GET_merchants_merchantId_products, GET_products,
        GET_products_productId, GET_users_userId_subscriptions, GET_users_userId_subscribers]
       repeat' split
       all_goals rfl)

@[simp] theorem userBody_assignTo_id (body : UserBody) (u : User) : (body.assignTo u).id = u.id :=
  rfl

@[simp] theorem merchantBody_assignTo_id (body : MerchantBody) (m : Merchant) :
    (body.assignTo m).id = m.id := rfl

@[simp] theorem productBody_assignTo_id (body : ProductBody) (p : Product) :
    (body.assignTo p).id = p.id := rfl

@[simp] theorem WishList.onDeleteUser_id (id : Int) (w : WishList) :
    (WishList.onDeleteUser id w).id = w.id := by
  unfold WishList.onDeleteUser
  split <;> rfl

@[simp] theorem WishListItem.onDeleteWishList_id (id : Int) (i : WishListItem) :
    (WishListItem.onDeleteWishList id i).id = i.id := by
  unfold WishListItem.onDeleteWishList
  split <;> rfl

@[simp] theorem WishListItem.onDeleteProduct_id (id : Int) (i : WishListItem) :
    (WishListItem.onDeleteProduct id i).id = i.id := by
  unfold WishListItem.onDeleteProduct
  split <;> rfl

@[simp] theorem Product.onDeleteMerchant_id (id : Int) (p : Product) :
    (Product.onDeleteMerchant id p).id = p.id := by
  unfold Product.onDeleteMerchant
  split <;> rfl

@[simp] theorem Subscription.onDeleteUser_keeps_id (id : Int) (x : Subscription) :
    (Subscription.onDeleteUser id x).id = x.id := rfl

theorem Store.empty_store_wf : Store.empty.WF :=
  ⟨Table.wf_empty _, Table.wf_empty _, Table.wf_empty _, Table.wf_empty _, Table.wf_empty _,
    Table.wf_empty _⟩

/-- Every request keeps the primary keys. -/
theorem Store.wf_step {s : Store} (h : s.WF) (faults : Faults) (r : Request) :
    (handle faults s r).2.WF := by
  cases r <;> (try (rw [handle_get] <;> first | exact h | rfl)) <;> simp only [handle]
  case postUsers body =>
    rw [POST_users_eq]
    repeat' split
    all_goals first
      | exact h
      | exact { h with users := Table.wf_skip h.users }
      | exact { h with users := Table.wf_append h.users _ rfl }
      | exact { h with
          users := Table.wf_append h.users _ rfl
          wishLists := Table.wf_append h.wishLists _ rfl }
  case patchUser userId body =>
    rw [PATCH_users_userId_eq]
    repeat' split
    all_goals first
      | exact h
      | exact { h with users := Table.wf_save h.users _ }
  case deleteUser userId =>
    rw [DELETE_users_userId_eq]
    repeat' split
    all_goals first
      | exact h
      | exact { h with
          users := Table.wf_filter h.users _
          wishLists := Table.wf_onDelete h.wishLists _ (WishList.onDeleteUser_id _)
          subscriptions := Table.wf_onDelete h.subscriptions _ (Subscription.onDeleteUser_keeps_id _) }
  case postWishList userId =>
    rw [POST_users_userId_wishlist_eq]
    repeat' split
    all_goals first
      | exact h
      | exact { h with wishLists := Table.wf_skip h.wishLists }
      | exact { h with wishLists := Table.wf_append h.wishLists _ rfl }
  case patchWishList userId body =>
    rw [PATCH_users_userId_wishlist_eq]
    repeat' split
    all_goals first
      | exact h
      | exact { h with wishLists := Table.wf_save h.wishLists _ }
  case deleteWishList userId =>
    rw [DELETE_users_userId_wishlist_eq]
    repeat' split
    all_goals first
      | exact h
      | exact { h with
          wishLists := Table.wf_filter h.wishLists _
          wishListItems :=
            Table.wf_onDelete h.wishListItems _ (WishListItem.onDeleteWishList_id _) }
  case postItems userId body =>
    rw [POST_users_userId_wishlist_items_eq]
    repeat' split
    all_goals first
      | exact h
      | exact { h with wishListItems := Table.wf_skip h.wishListItems }
      | exact { h with wishListItems := Table.wf_append h.wishListItems _ rfl }
  case patchItem userId itemId body =>
    rw [PATCH_users_userId_wishlist_items_itemId_eq]
    repeat' split
    all_goals first
      | exact h
      | exact { h with wishListItems := Table.wf_save h.wishListItems _ }
  case deleteItem userId itemId =>
    rw [DELETE_users_userId_wishlist_items_itemId_eq]
    repeat' split
    all_goals first
      | exact h
      | exact { h with wishListItems := Table.wf_filter h.wishListItems _ }
  case postMerchants body =>
    rw [POST_merchants_eq]
    repeat' split
    all_goals first
      | exact h
      | exact { h with merchants := Table.wf_skip h.merchants }
      | exact { h with merchants := Table.wf_append h.merchants _ rfl }
  case patchMerchant merchantId body =>
    rw [PATCH_merchants_merchantId_eq]
    repeat' split
    all_goals first
      | exact h
      | exact { h with merchants := Table.wf_save h.merchants _ }
  case deleteMerchant merchantId =>
    rw [DELETE_merchants_merchantId_eq]
    repeat' split
    all_goals first
      | exact h
      | exact { h with
          merchants := Table.wf_filter h.merchants _
          products := Table.wf_onDelete h.products _ (Product.onDeleteMerchant_id _) }
  case postProducts body =>
    rw [POST_products_eq]
    repeat' split
    all_goals first
      | exact h
      | exact { h with products := Table.wf_skip h.products }
      | exact { h with products := Table.wf_append h.products _ rfl }
  case patchProduct productId body =>
    rw [PATCH_products_productId_eq]
    repeat' split
    all_goals first
      | exact h
      | exact { h with products := Table.wf_save h.products _ }
  case deleteProduct productId =>
    rw [DELETE_products_productId_eq]
    repeat' split
    all_goals first
      | exact h
      | exact { h with
          products := Table.wf_filter h.products _
          wishListItems :=
            Table.wf_onDelete h.wishListItems _ (WishListItem.onDeleteProduct_id _) }
  case postSubscriptions userId body =>
    rw [POST_users_userId_subscriptions_eq]
    repeat' split
    all_goals first
      | exact h
      | exact { h with subscriptions := Table.wf_skip h.subscriptions }
      | exact { h with subscriptions := Table.wf_append h.subscriptions _ rfl }
  case deleteSubscription userId subscriptionId =>
    rw [DELETE_users_userId_subscriptions_subscriptionId_eq]
    repeat' split
    all_goals first
      | exact h
      | exact { h with subscriptions := Table.wf_filter h.subscriptions _ }

theorem reachable_wf {s : Store} (h : Reachable s) : s.WF := by
  induction h with
  | empty => exact Store.empty_store_wf
  | step faults r _ ih => exact Store.wf_step ih faults r

/-- Every run of the API from a reachable store ends in a reachable store. -/
theorem reachable_run {s : Store} (h : Reachable s) (l : List (Faults × Request)) :
    Reachable (run s l) := by
  induction l generalizing s with
  | nil => exact h
  | cons x xs ih => exact ih (Reachable.step x.1 x.2 h)

/-! ## Referential integrity -/

/-- A key that refers to a table refers to every table that has the ids of the first. -/
theorem Table.refers_of_ids {α : Type} {key : α → Int} {t t' : Table α}
    (hids : ∀ r ∈ t.rows, ∃ r' ∈ t'.rows, key r' = key r) {fk : Option Int}
    (h : t.refers key fk = true) : t'.refers key fk = true := by
  cases fk with
  | none => rfl
  | some k =>
    obtain ⟨r, hr, hk⟩ := (Table.refers_some key t k).1 h
    obtain ⟨r', hr', hk'⟩ := hids r hr
    exact (Table.refers_some key t' k).2 ⟨r', hr', hk'.trans hk⟩

theorem Table.refers_append {α : Type} {key : α → Int} {t : Table α} (r : α) (n : Int)
    {fk : Option Int} (h : t.refers key fk = true) :
    (⟨t.rows ++ [r], n⟩ : Table α).refers key fk = true :=
  Table.refers_of_ids (fun x hx => ⟨x, List.mem_append_left _ hx, rfl⟩) h

theorem Table.refers_new {α : Type} (key : α → Int) (rows : List α) (r : α) (n : Int) :
    (⟨rows ++ [r], n⟩ : Table α).refers key (some (key r)) = true :=
  (Table.refers_some key _ _).2 ⟨r, List.mem_append_right _ (List.mem_singleton_self _), rfl⟩

theorem Table.refers_skip {α : Type} {key : α → Int} {t : Table α} (n : Int)
    {fk : Option Int} (h : t.refers key fk = true) :
    (⟨t.rows, n⟩ : Table α).refers key fk = true :=
  Table.refers_of_ids (fun x hx => ⟨x, hx, rfl⟩) h

theorem Table.refers_save {α : Type} {key : α → Int} {t : Table α} (r : α) (n : Int)
    {fk : Option Int} (h : t.refers key fk = true) :
    (⟨t.rows.map (fun x => if key x == key r then r else x), n⟩ : Table α).refers key fk
      = true := by
  refine Table.refers_of_ids (fun x hx => ?_) h
  refine ⟨_, List.mem_map_of_mem _ hx, ?_⟩
  by_cases hk : key x = key r
  · simp [hk]
  · simp [hk]

theorem Table.refers_onDelete {α : Type} {key : α → Int} {t : Table α} (setNull : α → α)
    (hkey : ∀ x, key (setNull x) = key x) {fk : Option Int} (h : t.refers key fk = true) :
    (t.onDelete setNull).refers key fk = true :=
  Table.refers_of_ids (fun x hx => ⟨_, List.mem_map_of_mem _ hx, hkey x⟩) h

/-- After the deletion of the rows of id `id`, a key that referred to the table
and is set to `null` when it was `id` still refers to it. -/
theorem Table.refers_destroy {α : Type} {key : α → Int} {t : Table α} (id n : Int)
    {fk : Option Int} (h : t.refers key fk = true) :
    (⟨t.rows.filter (fun x => key x != id), n⟩ : Table α).refers key
      (if fk == some id then none else fk) = true := by
  cases fk with
  | none => rfl
  | some k =>
    by_cases hk : k = id
    · simp [hk, Table.refers]
    · obtain ⟨r, hr, hkr⟩ := (Table.refers_some key t k).1 h
      have : ((some k : Option Int) == some id) = false := by simpa using hk
      rw [this]
      refine (Table.refers_some key _ k).2 ⟨r, List.mem_filter.2 ⟨hr, ?_⟩, hkr⟩
      simpa [hkr] using hk

theorem forall_mem_save {α : Type} {key : α → Int} {rows : List α} {r : α} {P : α → Prop}
    (h : ∀ x ∈ rows, P x) (hr : P r) :
    ∀ x ∈ rows.map (fun x => if key x == key r then r else x), P x := by
  intro x hx
  obtain ⟨y, hy, rfl⟩ := List.mem_map.1 hx
  split
  · exact hr
  · exact h y hy

theorem forall_mem_append_one {α : Type} {rows : List α} {r : α} {P : α → Prop}
    (h : ∀ x ∈ rows, P x) (hr : P r) : ∀ x ∈ rows ++ [r], P x := by
  intro x hx
  rcases List.mem_append.1 hx with hx | hx
  · exact h x hx
  · rw [List.mem_singleton.1 hx]
    exact hr

theorem forall_mem_filter {α : Type} {rows : List α} {P : α → Prop} (p : α → Bool)
    (h : ∀ x ∈ rows, P x) : ∀ x ∈ rows.filter p, P x :=
  fun x hx => h x (List.mem_filter.1 hx).1

theorem forall_mem_onDelete {α : Type} {t : Table α} {setNull : α → α} {P : α → Prop}
    (h : ∀ x ∈ t.rows, P (setNull x)) : ∀ x ∈ (t.onDelete setNull).rows, P x := by
  intro x hx
  obtain ⟨y, hy, rfl⟩ := List.mem_map.1 hx
  exact h y hy

theorem WishList.onDeleteUser_userId (id : Int) (w : WishList) :
    (WishList.onDeleteUser id w).userId = if w.userId == some id then none else w.userId := by
  unfold WishList.onDeleteUser
  split <;> rfl

theorem WishListItem.onDeleteWishList_wishListId (id : Int) (i : WishListItem) :
    (WishListItem.onDeleteWishList id i).wishListId
      = if i.wishListId == some id then none else i.wishListId := by
  unfold WishListItem.onDeleteWishList
  split <;> rfl

@[simp] theorem WishListItem.onDeleteWishList_productId (id : Int) (i : WishListItem) :
    (WishListItem.onDeleteWishList id i).productId = i.productId := by
  unfold WishListItem.onDeleteWishList
  split <;> rfl

theorem WishListItem.onDeleteProduct_productId (id : Int) (i : WishListItem) :
    (WishListItem.onDeleteProduct id i).productId
      = if i.productId == some id then none else i.productId := by
  unfold WishListItem.onDeleteProduct
  split <;> rfl

@[simp] theorem WishListItem.onDeleteProduct_wishListId (id : Int) (i : WishListItem) :
    (WishListItem.onDeleteProduct id i).wishListId = i.wishListId := by
  unfold WishListItem.onDeleteProduct
  split <;> rfl

theorem Product.onDeleteMerchant_merchantId (id : Int) (p : Product) :
    (Product.onDeleteMerchant id p).merchantId
      = if p.merchantId == some id then none else p.merchantId := by
  unfold Product.onDeleteMerchant
  split <;> rfl

@[simp] theorem productBody_assignTo_merchantId (body : ProductBody) (p : Product) :
    (body.assignTo p).merchantId = p.merchantId := rfl

theorem Store.empty_store_referential : Store.empty.Referential := by
  constructor <;> intro x hx <;> simp [Store.empty, Table.empty] at hx

/-- Every request keeps the foreign keys referring to rows. -/
theorem Store.referential_step {s : Store} (h : s.Referential) (faults : Faults) (r : Request) :
    (handle faults s r).2.Referential := by
  cases r <;> (try (rw [handle_get] <;> first | exact h | rfl)) <;> simp only [handle]
  case postUsers body =>
    rw [POST_users_eq]
    repeat' split
    · exact h
    · exact { h with
        wishLists_userId := fun w hw => Table.refers_skip _ (h.wishLists_userId w hw)
        subscriptions_userId := fun x hx => Table.refers_skip _ (h.subscriptions_userId x hx)
        subscriptions_subscribedToUserId :=
          fun x hx => Table.refers_skip _ (h.subscriptions_subscribedToUserId x hx) }
    · exact { h with
        wishLists_userId := fun w hw => Table.refers_append _ _ (h.wishLists_userId w hw)
        subscriptions_userId := fun x hx => Table.refers_append _ _ (h.subscriptions_userId x hx)
        subscriptions_subscribedToUserId :=
          fun x hx => Table.refers_append _ _ (h.subscriptions_subscribedToUserId x hx) }
    · exact { h with
        wishLists_userId :=
          forall_mem_append_one (fun w hw => Table.refers_append _ _ (h.wishLists_userId w hw))
            (Table.refers_new User.id _ (body.toRow s.users.nextId) _)
        wishListItems_wishListId :=
          fun i hi => Table.refers_append _ _ (h.wishListItems_wishListId i hi)
        subscriptions_userId := fun x hx => Table.refers_append _ _ (h.subscriptions_userId x hx)
        subscriptions_subscribedToUserId :=
          fun x hx => Table.refers_append _ _ (h.subscriptions_subscribedToUserId x hx) }
  case patchUser userId body =>
    rw [PATCH_users_userId_eq]
    repeat' split
    all_goals first
      | exact h
      | exact { h with
          wishLists_userId := fun w hw => Table.refers_save _ _ (h.wishLists_userId w hw)
          subscriptions_userId := fun x hx => Table.refers_save _ _ (h.subscriptions_userId x hx)
          subscriptions_subscribedToUserId :=
            fun x hx => Table.refers_save _ _ (h.subscriptions_subscribedToUserId x hx) }
  case deleteUser userId =>
    rw [DELETE_users_userId_eq]
    repeat' split
    all_goals first
      | exact h
      | exact { h with
          wishLists_userId := forall_mem_onDelete (fun w hw => by
            rw [WishList.onDeleteUser_userId]
            exact Table.refers_destroy _ _ (h.wishLists_userId w hw))
          wishListItems_wishListId := fun i hi =>
            Table.refers_onDelete _ (WishList.onDeleteUser_id _) (h.wishListItems_wishListId i hi)
          subscriptions_userId := forall_mem_onDelete (fun x hx =>
            Table.refers_destroy _ _ (h.subscriptions_userId x hx))
          subscriptions_subscribedToUserId := forall_mem_onDelete (fun x hx =>
            Table.refers_destroy _ _ (h.subscriptions_subscribedToUserId x hx)) }
  case postWishList userId =>
    rw [POST_users_userId_wishlist_eq]
    repeat' split
    · exact h
    · exact h
    · exact h
    · exact { h with
        wishListItems_wishListId :=
          fun i hi => Table.refers_skip _ (h.wishListItems_wishListId i hi) }
    · rename_i hacc
      exact { h with
        wishLists_userId := forall_mem_append_one h.wishLists_userId (by simpa using hacc)
        wishListItems_wishListId :=
          fun i hi => Table.refers_append _ _ (h.wishListItems_wishListId i hi) }
  case patchWishList userId body =>
    rw [PATCH_users_userId_wishlist_eq]
    repeat' split
    all_goals first
      | exact h
      | (have hfound := ‹List.find? _ s.wishLists.rows = some _›
         exact { h with
          wishLists_userId :=
            forall_mem_save h.wishLists_userId
              (h.wishLists_userId _ (List.mem_of_find?_eq_some hfound))
          wishListItems_wishListId :=
            fun i hi => Table.refers_save _ _ (h.wishListItems_wishListId i hi) })
  case deleteWishList userId =>
    rw [DELETE_users_userId_wishlist_eq]
    repeat' split
    all_goals first
      | exact h
      | exact { h with
          wishLists_userId := forall_mem_filter _ h.wishLists_userId
          wishListItems_wishListId := forall_mem_onDelete (fun i hi => by
            rw [WishListItem.onDeleteWishList_wishListId]
            exact Table.refers_destroy _ _ (h.wishListItems_wishListId i hi))
          wishListItems_productId := forall_mem_onDelete (fun i hi => by
            rw [WishListItem.onDeleteWishList_productId]
            exact h.wishListItems_productId i hi) }
  case postItems userId body =>
    rw [POST_users_userId_wishlist_items_eq]
    repeat' split
    · exact h
    · exact h
    · exact h
    · exact h
    · exact { h with wishListItems_wishListId := h.wishListItems_wishListId }
    · rename_i wishList hfound _ hacc
      exact { h with
        wishListItems_wishListId :=
          forall_mem_append_one h.wishListItems_wishListId
            (Table.refers_of_find? WishList.id s.wishLists hfound)
        wishListItems_productId :=
          forall_mem_append_one h.wishListItems_productId (by simpa using hacc) }
  case patchItem userId itemId body =>
    rw [PATCH_users_userId_wishlist_items_itemId_eq]
    repeat' split
    all_goals first
      | exact h
      | (have hitem := ‹List.find? _ s.wishListItems.rows = some _›
         exact { h with
          wishListItems_wishListId :=
            forall_mem_save h.wishListItems_wishListId
              (h.wishListItems_wishListId _ (List.mem_of_find?_eq_some hitem))
          wishListItems_productId :=
            forall_mem_save h.wishListItems_productId
              (h.wishListItems_productId _ (List.mem_of_find?_eq_some hitem)) })
  case deleteItem userId itemId =>
    rw [DELETE_users_userId_wishlist_items_itemId_eq]
    repeat' split
    all_goals first
      | exact h
      | exact { h with
          wishListItems_wishListId := forall_mem_filter _ h.wishListItems_wishListId
          wishListItems_productId := forall_mem_filter _ h.wishListItems_productId }
  case postMerchants body =>
    rw [POST_merchants_eq]
    repeat' split
    all_goals first
      | exact h
      | exact { h with
          products_merchantId := fun p hp => Table.refers_skip _ (h.products_merchantId p hp) }
      | exact { h with
          products_merchantId := fun p hp => Table.refers_append _ _ (h.products_merchantId p hp) }
  case patchMerchant merchantId body =>
    rw [PATCH_merchants_merchantId_eq]
    repeat' split
    all_goals first
      | exact h
      | exact { h with
          products_merchantId := fun p hp => Table.refers_save _ _ (h.products_merchantId p hp) }
  case deleteMerchant merchantId =>
    rw [DELETE_merchants_merchantId_eq]
    repeat' split
    all_goals first
      | exact h
      | exact { h with
          products_merchantId := forall_mem_onDelete (fun p hp => by
            rw [Product.onDeleteMerchant_merchantId]
            exact Table.refers_destroy _ _ (h.products_merchantId p hp))
          wishListItems_productId := fun i hi =>
            Table.refers_onDelete _ (Product.onDeleteMerchant_id _)
              (h.wishListItems_productId i hi) }
  case postProducts body =>
    rw [POST_products_eq]
    repeat' split
    · exact h
    · exact { h with
        wishListItems_productId :=
          fun i hi => Table.refers_skip _ (h.wishListItems_productId i hi) }
    · rename_i hacc
      exact { h with
        products_merchantId :=
          forall_mem_append_one h.products_merchantId (by simpa using hacc)
        wishListItems_productId :=
          fun i hi => Table.refers_append _ _ (h.wishListItems_productId i hi) }
  case patchProduct productId body =>
    rw [PATCH_products_productId_eq]
    repeat' split
    all_goals first
      | exact h
      | (have hfound := ‹List.find? _ s.products.rows = some _›
         have hp := h.products_merchantId _ (List.mem_of_find?_eq_some hfound)
         exact { h with
          products_merchantId := forall_mem_save h.products_merchantId hp
          wishListItems_productId :=
            fun i hi => Table.refers_save _ _ (h.wishListItems_productId i hi) })
  case deleteProduct productId =>
    rw [DELETE_products_productId_eq]
    repeat' split
    all_goals first
      | exact h
      | exact { h with
          products_merchantId := forall_mem_filter _ h.products_merchantId
          wishListItems_wishListId := forall_mem_onDelete (fun i hi => by
            rw [WishListItem.onDeleteProduct_wishListId]
            exact h.wishListItems_wishListId i hi)
          wishListItems_productId := forall_mem_onDelete (fun i hi => by
            rw [WishListItem.onDeleteProduct_productId]
            exact Table.refers_destroy _ _ (h.wishListItems_productId i hi)) }
  case postSubscriptions userId body =>
    rw [POST_users_userId_subscriptions_eq]
    repeat' split
    · exact h
    · exact h
    · exact { h with subscriptions_userId := h.subscriptions_userId }
    · rename_i hacc
      have hacc' : s.users.refers User.id (some userId) = true
          ∧ s.users.refers User.id body.subscribedToUserId.toColumn = true := by
        simpa using hacc
      exact { h with
        subscriptions_userId := forall_mem_append_one h.subscriptions_userId hacc'.1
        subscriptions_subscribedToUserId :=
          forall_mem_append_one h.subscriptions_subscribedToUserId hacc'.2 }
  case deleteSubscription userId subscriptionId =>
    rw [DELETE_users_userId_subscriptions_subscriptionId_eq]
    repeat' split
    all_goals first
      | exact h
      | exact { h with
          subscriptions_userId := forall_mem_filter _ h.subscriptions_userId
          subscriptions_subscribedToUserId :=
            forall_mem_filter _ h.subscriptions_subscribedToUserId }

theorem reachable_referential {s : Store} (h : Reachable s) : s.Referential := by
  induction h with
  | empty => exact Store.empty_store_referential
  | step faults r _ ih => exact Store.referential_step ih faults r

/-! ## The range of the `INTEGER` columns -/

/-- When no stored value is outside the type, a lookup throws for a value
outside the type before it looks at a row. -/
theorem Table.findOne_rangeFirst {α : Type} (fail inRange : Bool) (t : Table α) (p : α → Bool)
    (h : ∀ r ∈ t.rows, p r = true → inRange = true) :
    t.findOne fail inRange p =
      if fail = true then Except.error DbError.failure
      else if inRange = false then Except.error DbError.range
      else Except.ok (t.rows.find? p) := by
  unfold Table.findOne
  cases hf : t.rows.find? p with
  | none => cases fail <;> cases inRange <;> simp
  | some r =>
    have := h r (List.mem_of_find?_eq_some hf) (List.find?_some hf)
    cases fail <;> simp [this]

theorem Table.findAll_rangeFirst {α : Type} (fail inRange : Bool) (t : Table α) (p : α → Bool)
    (h : ∀ r ∈ t.rows, p r = true → inRange = true) :
    t.findAll fail inRange p =
      if fail = true then Except.error DbError.failure
      else if inRange = false then Except.error DbError.range
      else Except.ok (t.rows.filter p) := by
  unfold Table.findAll
  cases hf : t.rows.filter p with
  | nil => cases fail <;> cases inRange <;> simp
  | cons r rows =>
    have hr : r ∈ t.rows.filter p := by rw [hf]; exact List.mem_cons_self _ _
    have := h r (List.mem_filter.1 hr).1 (List.mem_filter.1 hr).2
    cases fail <;> simp [this]

theorem WishList.onDeleteUser_inRange (id : Int) (w : WishList)
    (h : inInt4 w.id = true ∧ inInt4? w.userId = true) :
    inInt4 (WishList.onDeleteUser id w).id = true
      ∧ inInt4? (WishList.onDeleteUser id w).userId = true := by
  unfold WishList.onDeleteUser
  split
  · exact ⟨h.1, rfl⟩
  · exact h

theorem WishListItem.onDeleteWishList_inRange (id : Int) (i : WishListItem)
    (h : inInt4 i.id = true ∧ inInt4? i.wishListId = true ∧ inInt4? i.productId = true) :
    inInt4 (WishListItem.onDeleteWishList id i).id = true
      ∧ inInt4? (WishListItem.onDeleteWishList id i).wishListId = true
      ∧ inInt4? (WishListItem.onDeleteWishList id i).productId = true := by
  unfold WishListItem.onDeleteWishList
  split
  · exact ⟨h.1, rfl, h.2.2⟩
  · exact h

theorem WishListItem.onDeleteProduct_inRange (id : Int) (i : WishListItem)
    (h : inInt4 i.id = true ∧ inInt4? i.wishListId = true ∧ inInt4? i.productId = true) :
    inInt4 (WishListItem.onDeleteProduct id i).id = true
      ∧ inInt4? (WishListItem.onDeleteProduct id i).wishListId = true
      ∧ inInt4? (WishListItem.onDeleteProduct id i).productId = true := by
  unfold WishListItem.onDeleteProduct
  split
  · exact ⟨h.1, h.2.1, rfl⟩
  · exact h

theorem Product.onDeleteMerchant_inRange (id : Int) (p : Product)
    (h : inInt4 p.id = true ∧ p.inRange = true) :
    inInt4 (Product.onDeleteMerchant id p).id = true
      ∧ (Product.onDeleteMerchant id p).inRange = true := by
  unfold Product.onDeleteMerchant
  split
  · refine ⟨h.1, ?_⟩
    have := h.2
    simp only [Product.inRange, Bool.and_eq_true] at this ⊢
    exact ⟨this.1, rfl⟩
  · exact h

theorem Subscription.onDeleteUser_stays_inRange (id : Int) (x : Subscription)
    (h : inInt4 x.id = true ∧ inInt4? x.userId = true ∧ inInt4? x.subscribedToUserId = true) :
    inInt4 (Subscription.onDeleteUser id x).id = true
      ∧ inInt4? (Subscription.onDeleteUser id x).userId = true
      ∧ inInt4? (Subscription.onDeleteUser id x).subscribedToUserId = true := by
  simp only [Subscription.onDeleteUser]
  refine ⟨h.1, ?_, ?_⟩
  · split
    · rfl
    · exact h.2.1
  · split
    · rfl
    · exact h.2.2

theorem Store.empty_store_inRange : Store.empty.InRange := by
  constructor <;> intro x hx <;> simp [Store.empty, Table.empty] at hx

/-- Every request keeps the ids and the foreign keys in the range of their type. -/
theorem Store.inRange_step {s : Store} (h : s.InRange) (faults : Faults) (r : Request) :
    (handle faults s r).2.InRange := by
  cases r <;> (try (rw [handle_get] <;> first | exact h | rfl)) <;> simp only [handle]
  case postUsers body =>
    rw [POST_users_eq]
    split
    · exact h
    · rename_i h0
      have hid : inInt4 s.users.nextId = true := by
        cases hi : inInt4 s.users.nextId
        · exact absurd (Or.inr (Or.inr hi)) h0
        · rfl
      split
      · exact { h with users := h.users }
      · split
        · exact { h with users := forall_mem_append_one h.users hid }
        · rename_i h1
          have hw : inInt4 s.wishLists.nextId = true := by
            cases hi : inInt4 s.wishLists.nextId
            · exact absurd (Or.inr hi) h1
            · rfl
          exact { h with
            users := forall_mem_append_one h.users hid
            wishLists := forall_mem_append_one h.wishLists ⟨hw, hid⟩ }
  case patchUser userId body =>
    rw [PATCH_users_userId_eq]
    repeat' split
    all_goals first
      | exact h
      | (have hfound := ‹List.find? _ s.users.rows = some _›
         have hu := h.users _ (List.mem_of_find?_eq_some hfound)
         exact { h with users := forall_mem_save h.users hu })
  case deleteUser userId =>
    rw [DELETE_users_userId_eq]
    repeat' split
    all_goals first
      | exact h
      | exact { h with
          users := forall_mem_filter _ h.users
          wishLists := forall_mem_onDelete (fun w hw =>
            WishList.onDeleteUser_inRange _ w (h.wishLists w hw))
          subscriptions := forall_mem_onDelete (fun x hx =>
            Subscription.onDeleteUser_stays_inRange _ x (h.subscriptions x hx)) }
  case postWishList userId =>
    rw [POST_users_userId_wishlist_eq]
    split
    · exact h
    · split
      · exact h
      · split
        · exact h
        · rename_i h1
          have hu : inInt4 userId = true := by
            cases hi : inInt4 userId
            · exact absurd (Or.inl hi) h1
            · rfl
          have hw : inInt4 s.wishLists.nextId = true := by
            cases hi : inInt4 s.wishLists.nextId
            · exact absurd (Or.inr (Or.inr hi)) h1
            · rfl
          split
          · exact { h with wishLists := h.wishLists }
          · exact { h with wishLists := forall_mem_append_one h.wishLists ⟨hw, hu⟩ }
  case patchWishList userId body =>
    rw [PATCH_users_userId_wishlist_eq]
    repeat' split
    all_goals first
      | exact h
      | (have hfound := ‹List.find? _ s.wishLists.rows = some _›
         exact { h with
          wishLists :=
            forall_mem_save h.wishLists (h.wishLists _ (List.mem_of_find?_eq_some hfound)) })
  case deleteWishList userId =>
    rw [DELETE_users_userId_wishlist_eq]
    repeat' split
    all_goals first
      | exact h
      | exact { h with
          wishLists := forall_mem_filter _ h.wishLists
          wishListItems := forall_mem_onDelete (fun i hi =>
            WishListItem.onDeleteWishList_inRange _ i (h.wishListItems i hi)) }
  case postItems userId body =>
    rw [POST_users_userId_wishlist_items_eq]
    split
    · exact h
    · split
      · split <;> exact h
      · rename_i W hW
        split
        · exact h
        · rename_i h1
          have hp : inInt4? body.productId.toColumn = true := by
            cases hi : inInt4? body.productId.toColumn
            · exact absurd (Or.inr (Or.inl hi)) h1
            · rfl
          have hn : inInt4 s.wishListItems.nextId = true := by
            cases hi : inInt4 s.wishListItems.nextId
            · exact absurd (Or.inr (Or.inr hi)) h1
            · rfl
          have hWid : inInt4 W.id = true := (h.wishLists W (List.mem_of_find?_eq_some hW)).1
          split
          · exact { h with wishListItems := h.wishListItems }
          · exact { h with
              wishListItems := forall_mem_append_one h.wishListItems ⟨hn, hWid, hp⟩ }
  case patchItem userId itemId body =>
    rw [PATCH_users_userId_wishlist_items_itemId_eq]
    repeat' split
    all_goals first
      | exact h
      | (have hitem := ‹List.find? _ s.wishListItems.rows = some _›
         exact { h with
          wishListItems :=
            forall_mem_save h.wishListItems
              (h.wishListItems _ (List.mem_of_find?_eq_some hitem)) })
  case deleteItem userId itemId =>
    rw [DELETE_users_userId_wishlist_items_itemId_eq]
    repeat' split
    all_goals first
      | exact h
      | exact { h with wishListItems := forall_mem_filter _ h.wishListItems }
  case postMerchants body =>
    rw [POST_merchants_eq]
    split
    · exact h
    · rename_i h0
      have hid : inInt4 s.merchants.nextId = true := by
        cases hi : inInt4 s.merchants.nextId
        · exact absurd (Or.inr (Or.inr hi)) h0
        · rfl
      split
      · exact { h with merchants := h.merchants }
      · exact { h with merchants := forall_mem_append_one h.merchants hid }
  case patchMerchant merchantId body =>
    rw [PATCH_merchants_merchantId_eq]
    repeat' split
    all_goals first
      | exact h
      | (have hfound := ‹List.find? _ s.merchants.rows = some _›
         have hm := h.merchants _ (List.mem_of_find?_eq_some hfound)
         exact { h with merchants := forall_mem_save h.merchants hm })
  case deleteMerchant merchantId =>
    rw [DELETE_merchants_merchantId_eq]
    repeat' split
    all_goals first
      | exact h
      | exact { h with
          merchants := forall_mem_filter _ h.merchants
          products := forall_mem_onDelete (fun p hp =>
            Product.onDeleteMerchant_inRange _ p (h.products p hp)) }
  case postProducts body =>
    rw [POST_products_eq]
    split
    · exact h
    · rename_i h0
      have hr : (body.toRow s.products.nextId).inRange = true := by
        cases hi : (body.toRow s.products.nextId).inRange
        · exact absurd (Or.inr (Or.inr (Or.inl hi))) h0
        · rfl
      have hid : inInt4 s.products.nextId = true := by
        cases hi : inInt4 s.products.nextId
        · exact absurd (Or.inr (Or.inr (Or.inr hi))) h0
        · rfl
      split
      · exact { h with products := h.products }
      · exact { h with products := forall_mem_append_one h.products ⟨hid, hr⟩ }
  case patchProduct productId body =>
    rw [PATCH_products_productId_eq]
    split
    · exact h
    · split
      · split <;> exact h
      · rename_i old hold
        split
        · exact h
        · rename_i h1
          have hr : (body.assignTo old).inRange = true := by
            cases hi : (body.assignTo old).inRange
            · exact absurd (Or.inr (Or.inr hi)) h1
            · rfl
          have hid := (h.products old (List.mem_of_find?_eq_some hold)).1
          exact { h with products := forall_mem_save h.products ⟨hid, hr⟩ }
  case deleteProduct productId =>
    rw [DELETE_products_productId_eq]
    repeat' split
    all_goals first
      | exact h
      | exact { h with
          products := forall_mem_filter _ h.products
          wishListItems := forall_mem_onDelete (fun i hi =>
            WishListItem.onDeleteProduct_inRange _ i (h.wishListItems i hi)) }
  case postSubscriptions userId body =>
    rw [POST_users_userId_subscriptions_eq]
    split
    · exact h
    · split
      · exact h
      · rename_i h1
        have hu : inInt4 userId = true := by
          cases hi : inInt4 userId
          · exact absurd (Or.inr (Or.inl hi)) h1
          · rfl
        have ht : inInt4? body.subscribedToUserId.toColumn = true := by
          cases hi : inInt4? body.subscribedToUserId.toColumn
          · exact absurd (Or.inr (Or.inr (Or.inl hi))) h1
          · rfl
        have hn : inInt4 s.subscriptions.nextId = true := by
          cases hi : inInt4 s.subscriptions.nextId
          · exact absurd (Or.inr (Or.inr (Or.inr hi))) h1
          · rfl
        split
        · exact { h with subscriptions := h.subscriptions }
        · exact { h with
            subscriptions := forall_mem_append_one h.subscriptions ⟨hn, hu, ht⟩ }
  case deleteSubscription userId subscriptionId =>
    rw [DELETE_users_userId_subscriptions_subscriptionId_eq]
    repeat' split
    all_goals first
      | exact h
      | exact { h with subscriptions := forall_mem_filter _ h.subscriptions }

theorem reachable_inRange {s : Store} (h : Reachable s) : s.InRange := by
  induction h with
  | empty => exact Store.empty_store_inRange
  | step faults r _ ih => exact Store.inRange_step ih faults r

/-- In a store reachable through the API the lookups by an id of the request
throw for an id outside the type before they look at a row. -/
theorem reachable_lookups_rangeFirst {s : Store} (h : Reachable s) (fail : Bool) (id : Int) :
    s.users.findByPk User.id fail id
        = (if fail = true then Except.error DbError.failure
          else if inInt4 id = false then Except.error DbError.range
          else Except.ok (s.users.rows.find? (fun r => r.id == id)))
    ∧ s.merchants.findByPk Merchant.id fail id
        = (if fail = true then Except.error DbError.failure
          else if inInt4 id = false then Except.error DbError.range
          else Except.ok (s.merchants.rows.find? (fun r => r.id == id)))
    ∧ s.products.findByPk Product.id fail id
        = (if fail = true then Except.error DbError.failure
          else if inInt4 id = false then Except.error DbError.range
          else Except.ok (s.products.rows.find? (fun r => r.id == id)))
    ∧ s.wishListItems.findByPk WishListItem.id fail id
        = (if fail = true then Except.error DbError.failure
          else if inInt4 id = false then Except.error DbError.range
          else Except.ok (s.wishListItems.rows.find? (fun r => r.id == id)))
    ∧ s.subscriptions.findByPk Subscription.id fail id
        = (if fail = true then Except.error DbError.failure
          else if inInt4 id = false then Except.error DbError.range
          else Except.ok (s.subscriptions.rows.find? (fun r => r.id == id)))
    ∧ s.wishLists.findOne fail (inInt4 id) (fun w => w.userId == some id)
        = (if fail = true then Except.error DbError.failure
          else if inInt4 id = false then Except.error DbError.range
          else Except.ok (s.wishLists.rows.find? (fun w => w.userId == some id)))
    ∧ s.subscriptions.findAll fail (inInt4 id) (fun x => x.userId == some id)
        = (if fail = true then Except.error DbError.failure
          else if inInt4 id = false then Except.error DbError.range
          else Except.ok (s.subscriptions.rows.filter (fun x => x.userId == some id)))
    ∧ s.subscriptions.findAll fail (inInt4 id) (fun x => x.subscribedToUserId == some id)
        = (if fail = true then Except.error DbError.failure
          else if inInt4 id = false then Except.error DbError.range
          else Except.ok
            (s.subscriptions.rows.filter (fun x => x.subscribedToUserId == some id))) := by
  have hr := reachable_inRange h
  refine ⟨?_, ?_, ?_, ?_, ?_, ?_, ?_, ?_⟩
  · refine Table.findOne_rangeFirst _ _ _ _ (fun r hmem hp => ?_)
    rw [← eq_of_beq hp]
    exact hr.users r hmem
  · refine Table.findOne_rangeFirst _ _ _ _ (fun r hmem hp => ?_)
    rw [← eq_of_beq hp]
    exact hr.merchants r hmem
  · refine Table.findOne_rangeFirst _ _ _ _ (fun r hmem hp => ?_)
    rw [← eq_of_beq hp]
    exact (hr.products r hmem).1
  · refine Table.findOne_rangeFirst _ _ _ _ (fun r hmem hp => ?_)
    rw [← eq_of_beq hp]
    exact (hr.wishListItems r hmem).1
  · refine Table.findOne_rangeFirst _ _ _ _ (fun r hmem hp => ?_)
    rw [← eq_of_beq hp]
    exact (hr.subscriptions r hmem).1
  · refine Table.findOne_rangeFirst _ _ _ _ (fun r hmem hp => ?_)
    have := (hr.wishLists r hmem).2
    rw [eq_of_beq hp] at this
    exact this
  · refine Table.findAll_rangeFirst _ _ _ _ (fun r hmem hp => ?_)
    have := (hr.subscriptions r hmem).2.1
    rw [eq_of_beq hp] at this
    exact this
  · refine Table.findAll_rangeFirst _ _ _ _ (fun r hmem hp => ?_)
    have := (hr.subscriptions r hmem).2.2
    rw [eq_of_beq hp] at this
    exact this

/-! # The claims -/

/-! ## C1 -/

/-- C1. When the wishlist `W` resolved for the path user exists and `itemId`
names an existing item whose `wishListId` is not `W.id`, each of GET, PATCH
and DELETE on `/users/{userId}/wishlist/items/{itemId}` answers 404 with
`Item not found` and leaves the store as it is; whatever the persistence layer
does, the store is unchanged and the body carries nothing but a message. -/
theorem item_of_another_wishlist_is_not_found (s : Store) (userId itemId : Int)
    (W : WishList) (item : WishListItem) (body : WishListItemBody)
    (hW : s.wishLists.rows.find? (fun w => w.userId == some userId) = some W)
    (hitem : s.wishListItems.rows.find? (fun i => i.id == itemId) = some item)
    (hne : item.wishListId ≠ some W.id) :
    GET_users_userId_wishlist_items_itemId noFaults s userId itemId
        = (Response.statusJson 404 (message "Item not found"), s)
    ∧ PATCH_users_userId_wishlist_items_itemId noFaults s userId itemId body
        = (Response.statusJson 404 (message "Item not found"), s)
    ∧ DELETE_users_userId_wishlist_items_itemId noFaults s userId itemId
        = (Response.statusJson 404 (message "Item not found"), s)
    ∧ ∀ faults : Faults,
        (GET_users_userId_wishlist_items_itemId faults s userId itemId).2 = s
        ∧ (PATCH_users_userId_wishlist_items_itemId faults s userId itemId body).2 = s
        ∧ (DELETE_users_userId_wishlist_items_itemId faults s userId itemId).2 = s
        ∧ (GET_users_userId_wishlist_items_itemId faults s userId itemId).1.body.keys
            = ["message"]
        ∧ (PATCH_users_userId_wishlist_items_itemId faults s userId itemId body).1.body.keys
            = ["message"]
        ∧ (DELETE_users_userId_wishlist_items_itemId faults s userId itemId).1.body.keys
            = ["message"] := by
  refine ⟨?_, ?_, ?_, ?_⟩
  · simp [GET_users_userId_wishlist_items_itemId_eq, hW, hitem, hne]
  · simp [PATCH_users_userId_wishlist_items_itemId_eq, hW, hitem, hne]
  · simp [DELETE_users_userId_wishlist_items_itemId_eq, hW, hitem, hne]
  · intro faults
    simp only [GET_users_userId_wishlist_items_itemId_eq,
      PATCH_users_userId_wishlist_items_itemId_eq, DELETE_users_userId_wishlist_items_itemId_eq,
      hW, hitem]
    cases faults 0 <;> cases faults 1 <;>
      simp [internalServerError, message, Response.statusJson, Json.keys, hne]

/-- C1 at the store `twoUsers`: item 1 lies in the wishlist of user 1 and is
asked for under user 2. -/
theorem item_of_another_wishlist_is_not_found_witness :
    twoUsers.wishLists.rows.find? (fun w => w.userId == some 2) = some ⟨2, some 2⟩
    ∧ twoUsers.wishListItems.rows.find? (fun i => i.id == 1) = some ⟨1, some 1, some 1⟩
    ∧ (GET_users_userId_wishlist_items_itemId noFaults twoUsers 2 1).1.status = 404
    ∧ (DELETE_users_userId_wishlist_items_itemId noFaults twoUsers 2 1).2.wishListItems.rows
        = [⟨1, some 1, some 1⟩] :=
  have h := item_of_another_wishlist_is_not_found twoUsers 2 1 ⟨2, some 2⟩ ⟨1, some 1, some 1⟩
    {} (by decide) (by decide) (by decide)
  ⟨by decide, by decide, by rw [h.1]; rfl, by rw [h.2.2.1]; decide⟩

/-! ## C2 -/

theorem User.keys_toJSON_exclude (u : User) :
    ((User.toJSON u).exclude ["password"]).keys
      = ["id", "name", "email", "date_of_birth", "img"] := by
  simp [User.toJSON, Json.exclude, Json.keys]

/-- C2, counterexample. In the store `twoUsers` no user has the id 2147483648,
and `GET /users/2147483648` answers 500, not 404: the id is outside the range
of the `INTEGER` column and the lookup throws. -/
theorem missing_user_beyond_the_id_range :
    (∀ u ∈ twoUsers.users.rows, u.id ≠ 2147483648)
    ∧ (GET_users_userId noFaults twoUsers 2147483648).1 = internalServerError
    ∧ (GET_users_userId noFaults twoUsers 2147483648).1.status ≠ 404 :=
  ⟨by decide, rfl, by decide⟩

/-- C2, amended. `GET /users` answers with one record per user row and no
record has a `password` key; a 200 body of `GET /users/{userId}` has no
`password` key; and (when no call throws for an outside reason)
`GET /users/{userId}` answers 404 exactly when no user row has that id and the
id is in the range of the `INTEGER` column; for an id outside the range that
no user has, it answers 500. -/
theorem users_are_read_without_password (s : Store) (userId : Int) :
    (GET_users noFaults s).1
        = Response.json
            (Json.arr (s.users.rows.map (fun u => (User.toJSON u).exclude ["password"])))
    ∧ (∀ (faults : Faults) (records : List Json),
        (GET_users faults s).1.body = Json.arr records →
          records.length = s.users.rows.length ∧ ∀ r ∈ records, "password" ∉ r.keys)
    ∧ (∀ faults : Faults, (GET_users_userId faults s userId).1.status = 200 →
        "password" ∉ (GET_users_userId faults s userId).1.body.keys)
    ∧ ((GET_users_userId noFaults s userId).1.status = 404
        ↔ (∀ u ∈ s.users.rows, u.id ≠ userId) ∧ inInt4 userId = true)
    ∧ ((∀ u ∈ s.users.rows, u.id ≠ userId) → inInt4 userId = false →
        GET_users_userId noFaults s userId = (internalServerError, s)) := by
  have hnone : s.users.rows.find? (fun r => r.id == userId) = none
      ↔ ∀ u ∈ s.users.rows, u.id ≠ userId := by
    simp [List.find?_eq_none]
  refine ⟨?_, ?_, ?_, ?_, ?_⟩
  · simp [GET_users_eq]
  · intro faults records h
    rw [GET_users_eq] at h
    cases hf : faults 0
    · simp only [hf, Response.json] at h
      simp at h
      subst h
      refine ⟨by simp, ?_⟩
      intro r hr
      obtain ⟨u, -, rfl⟩ := List.mem_map.1 hr
      rw [User.keys_toJSON_exclude]
      decide
    · simp [hf, internalServerError, Response.statusJson, message] at h
  · intro faults
    rw [GET_users_userId_eq]
    repeat' split
    all_goals first
      | (intro h; simp [internalServerError, Response.statusJson] at h; done)
      | (intro _
         simp only [Response.json]
         rw [User.keys_toJSON_exclude]
         decide)
  · rw [← hnone, GET_users_userId_eq]
    cases s.users.rows.find? (fun r => r.id == userId) <;> cases inInt4 userId <;>
      simp [Response.statusJson, Response.json, internalServerError]
  · intro hno hrange
    simp [GET_users_userId_eq, hnone.2 hno, hrange]

/-- C2, amended, at the store `twoUsers`: user 2 is read without its password,
user 3 is not found. -/
theorem users_are_read_without_password_witness :
    (GET_users_userId noFaults twoUsers 2).1.status = 200
    ∧ "password" ∉ (GET_users_userId noFaults twoUsers 2).1.body.keys
    ∧ (GET_users_userId noFaults twoUsers 3).1.status = 404 :=
  ⟨by decide,
    (users_are_read_without_password twoUsers 2).2.2.1 noFaults (by decide),
    (users_are_read_without_password twoUsers 3).2.2.2.1.2 ⟨by decide, by decide⟩⟩

/-! ## C3 -/

/-- C3. Whenever `POST /users` answers 201, the body is the created row with
all its columns: it has the key `password`, holding the password of the request. -/
theorem created_user_response_has_password (faults : Faults) (s : Store) (body : UserBody)
    (h : (POST_users faults s body).1.status = 201) :
    ∃ p, body.password = Field.val p
      ∧ (POST_users faults s body).1.body.get? "password" = some (Json.str p)
      ∧ "password" ∈ (POST_users faults s body).1.body.keys := by
  rw [POST_users_eq] at h ⊢
  split_ifs at h ⊢ with h0 h1 h2
  · simp [internalServerError, Response.statusJson] at h
  · simp [internalServerError, Response.statusJson] at h
  · simp [internalServerError, Response.statusJson] at h
  · have hv : (body.toRow s.users.nextId).notNull = true := by
      cases hv : (body.toRow s.users.nextId).notNull
      · exact absurd (Or.inr (Or.inl hv)) h0
      · rfl
    simp only [User.notNull, UserBody.toRow, Bool.and_eq_true] at hv
    obtain ⟨⟨-, -⟩, hp⟩ := hv
    cases hb : body.password with
    | undefined => simp [hb, Field.toColumn] at hp
    | null => simp [hb, Field.toColumn] at hp
    | val p =>
      refine ⟨p, rfl, ?_, ?_⟩
      · simp [Response.statusJson, User.toJSON, UserBody.toRow, Json.get?, hb, Field.toColumn,
          Json.ofString?]
      · simp [Response.statusJson, User.toJSON, Json.keys]

/-- C3 at the request `POST /users` with `{ name: "A", email: "a@x.com", password: "p" }`
on the empty store: the 201 body holds `password: "p"`. -/
theorem created_user_response_has_password_witness :
    (POST_users noFaults Store.empty bodyA).1.status = 201
    ∧ ∃ p, bodyA.password = Field.val p
      ∧ (POST_users noFaults Store.empty bodyA).1.body.get? "password" = some (Json.str p)
      ∧ "password" ∈ (POST_users noFaults Store.empty bodyA).1.body.keys :=
  ⟨by decide, created_user_response_has_password noFaults Store.empty bodyA (by decide)⟩

/-! ## C4 -/

/-- C4. `POST /users/{userId}/subscriptions` with `subscribedToUserId` equal to
the path `userId` answers 400 with `Cannot subscribe to oneself` and leaves the
store as it is, whatever the persistence layer does. -/
theorem self_subscription_is_rejected (faults : Faults) (s : Store) (userId : Int) :
    POST_users_userId_subscriptions faults s userId ⟨Field.val userId⟩
      = (Response.statusJson 400 (message "Cannot subscribe to oneself"), s) := by
  simp [POST_users_userId_subscriptions, Number, strictEqNumber]

/-! ## C5 -/

/-- Requests other than the two that write subscriptions and the deletion of a
user leave that table alone. -/
theorem handle_subscriptions_frame (faults : Faults) (s : Store) (r : Request)
    (h : ∀ u b, r ≠ Request.postSubscriptions u b)
    (h' : ∀ u i, r ≠ Request.deleteSubscription u i)
    (h'' : ∀ u, r ≠ Request.deleteUser u) :
    (handle faults s r).2.subscriptions = s.subscriptions := by
  cases r <;> (try (rw [handle_get]; rfl)) <;>
    first
    | (exfalso; exact h _ _ rfl)
    | (exfalso; exact h' _ _ rfl)
    | (exfalso; exact h'' _ rfl)
    | (simp only [handle]
       first
        | rw [POST_users_eq]
        | rw [PATCH_users_userId_eq]
        | rw [POST_users_userId_wishlist_eq]
        | rw [PATCH_users_userId_wishlist_eq]
        | rw [DELETE_users_userId_wishlist_eq]
        | rw [POST_users_userId_wishlist_items_eq]
        | rw [PATCH_users_userId_wishlist_items_itemId_eq]
        | rw [DELETE_users_userId_wishlist_items_itemId_eq]
        | rw [POST_merchants_eq]
        | rw [PATCH_merchants_merchantId_eq]
        | rw [DELETE_merchants_merchantId_eq]
        | rw [POST_products_eq]
        | rw [PATCH_products_productId_eq]
        | rw [DELETE_products_productId_eq]
       repeat' split
       all_goals rfl)

/-- When the guard `Number(userId) === Number(subscribedToUserId)` is false,
the two stored columns differ. -/
theorem guard_false_ne (userId : Int) (f : Field Int)
    (h : ¬ strictEqNumber (Number (Field.val userId)) (Number f) = true) :
    some userId ≠ f.toColumn := by
  cases f with
  | undefined => simp [Field.toColumn]
  | null => simp [Field.toColumn]
  | val n =>
    simp only [Number, strictEqNumber, beq_iff_eq] at h
    simpa [Field.toColumn] using h

theorem DELETE_subscription_rows (faults : Faults) (s : Store) (userId subscriptionId : Int) :
    ∀ x ∈ (DELETE_users_userId_subscriptions_subscriptionId faults s userId
      subscriptionId).2.subscriptions.rows, x ∈ s.subscriptions.rows := by
  rw [DELETE_users_userId_subscriptions_subscriptionId_eq]
  intro x hx
  repeat' split at hx
  all_goals first | exact hx | exact (List.mem_filter.1 hx).1

/-- The rows of the subscriptions after `DELETE /users/{userId}`: the rows
before, or each of them with the references to the deleted user set to `null`. -/
theorem DELETE_user_subscription_rows (faults : Faults) (s : Store) (userId : Int) :
    ∀ x ∈ (DELETE_users_userId faults s userId).2.subscriptions.rows,
      x ∈ s.subscriptions.rows
        ∨ ∃ id, ∃ y ∈ s.subscriptions.rows, x = Subscription.onDeleteUser id y := by
  rw [DELETE_users_userId_eq]
  intro x hx
  repeat' split at hx
  all_goals first
    | exact Or.inl hx
    | (obtain ⟨y, hy, rfl⟩ := List.mem_map.1 hx
       exact Or.inr ⟨_, y, hy, rfl⟩)

/-- Setting references to `null` makes no row a self-subscription. -/
theorem Subscription.onDeleteUser_ne (id : Int) (y : Subscription)
    (h : ∀ u, y.userId = some u → y.subscribedToUserId ≠ some u) :
    ∀ u, (Subscription.onDeleteUser id y).userId = some u →
      (Subscription.onDeleteUser id y).subscribedToUserId ≠ some u := by
  intro u hu hs
  simp only [Subscription.onDeleteUser] at hu hs
  split at hu
  · cases hu
  · split at hs
    · cases hs
    · exact h u hu hs

theorem step_no_self_subscription (faults : Faults) (s : Store) (r : Request)
    (h : ∀ x ∈ s.subscriptions.rows, ∀ u, x.userId = some u → x.subscribedToUserId ≠ some u) :
    ∀ x ∈ (handle faults s r).2.subscriptions.rows,
      ∀ u, x.userId = some u → x.subscribedToUserId ≠ some u := by
  by_cases h1 : ∃ u b, r = Request.postSubscriptions u b
  · obtain ⟨u, b, rfl⟩ := h1
    simp only [handle, POST_users_userId_subscriptions_eq]
    split_ifs with hg hf hacc
    · exact h
    · exact h
    · exact h
    · intro x hx
      simp only [List.mem_append, List.mem_singleton] at hx
      rcases hx with hx | rfl
      · exact h x hx
      · intro v hv hs
        simp only [Option.some.injEq] at hv
        subst hv
        exact guard_false_ne u _ hg hs.symm
  · by_cases h2 : ∃ u i, r = Request.deleteSubscription u i
    · obtain ⟨u, i, rfl⟩ := h2
      intro x hx
      exact h x (DELETE_subscription_rows faults s u i x hx)
    · by_cases h3 : ∃ u, r = Request.deleteUser u
      · obtain ⟨u, rfl⟩ := h3
        intro x hx
        rcases DELETE_user_subscription_rows faults s u x hx with hx | ⟨id, y, hy, rfl⟩
        · exact h x hx
        · exact Subscription.onDeleteUser_ne id y (h y hy)
      · rw [handle_subscriptions_frame faults s r (fun u b e => h1 ⟨u, b, e⟩)
          (fun u i e => h2 ⟨u, i, e⟩) (fun u e => h3 ⟨u, e⟩)]
        exact h

/-- C5, counterexample. After user 1 was created, subscribed with a body
without `subscribedToUserId`, and was deleted, the store (reachable through the
API) holds the subscription row `(1, null, null)`, whose `userId` equals its
`subscribedToUserId`. -/
theorem subscription_of_a_deleted_user :
    Reachable subscriberDeleted
    ∧ subscriberDeleted.subscriptions.rows = [⟨1, none, none⟩]
    ∧ ∃ x ∈ subscriberDeleted.subscriptions.rows, x.userId = x.subscribedToUserId :=
  ⟨reachable_run Reachable.empty _, by decide, by decide⟩

/-- C5, amended. In every store reachable from the empty store by API requests
no subscription row has a `userId` that is set (not `null`) and equal to its
`subscribedToUserId`; and whenever `POST /users/{userId}/subscriptions` answers
201 it has appended one row, whose `userId` is the path id, whose
`subscribedToUserId` is the value of the body, and the two differ. -/
theorem no_self_subscription :
    (∀ s : Store, Reachable s → ∀ x ∈ s.subscriptions.rows,
        ∀ u, x.userId = some u → x.subscribedToUserId ≠ some u)
    ∧ ∀ (faults : Faults) (s : Store) (userId : Int) (body : SubscriptionBody),
        (POST_users_userId_subscriptions faults s userId body).1.status = 201 →
        ∃ x : Subscription,
          (POST_users_userId_subscriptions faults s userId body).2.subscriptions.rows
              = s.subscriptions.rows ++ [x]
          ∧ x.userId = some userId
          ∧ x.subscribedToUserId = body.subscribedToUserId.toColumn
          ∧ x.userId ≠ x.subscribedToUserId := by
  constructor
  · intro s hs
    induction hs with
    | empty => simp [Store.empty, Table.empty]
    | step faults r _ ih => exact step_no_self_subscription faults _ r ih
  · intro faults s userId body h
    rw [POST_users_userId_subscriptions_eq] at h ⊢
    split_ifs at h ⊢ with hg hf hacc
    · simp [Response.statusJson] at h
    · simp [internalServerError, Response.statusJson] at h
    · simp [internalServerError, Response.statusJson] at h
    · exact ⟨_, rfl, rfl, rfl, guard_false_ne userId _ hg⟩

/-- C5, amended, at a run of the API: in the store `twoUsers` user 1 subscribes
to user 2, then tries itself. -/
theorem no_self_subscription_witness :
    (run twoUsers [(noFaults, Request.postSubscriptions 1 ⟨Field.val 2⟩),
        (noFaults, Request.postSubscriptions 1 ⟨Field.val 1⟩)]).subscriptions.rows
      = [⟨1, some 1, some 2⟩]
    ∧ ∀ x ∈ (run twoUsers [(noFaults, Request.postSubscriptions 1 ⟨Field.val 2⟩),
        (noFaults, Request.postSubscriptions 1 ⟨Field.val 1⟩)]).subscriptions.rows,
        ∀ u, x.userId = some u → x.subscribedToUserId ≠ some u :=
  ⟨by decide,
    no_self_subscription.1 _ (reachable_run (reachable_run Reachable.empty _) _)⟩

/-! ## C6 -/

theorem find?_eq_none_of_filter_length {α : Type} (p : α → Bool) (l : List α)
    (h : (l.filter p).length = 0) : l.find? p = none := by
  rw [List.find?_eq_none]
  intro x hx hpx
  have : x ∈ l.filter p := List.mem_filter.2 ⟨hx, hpx⟩
  rw [List.length_eq_zero] at h
  simp [h] at this

theorem find?_isSome_of_filter_length {α : Type} (p : α → Bool) (l : List α)
    (h : (l.filter p).length = 1) : ∃ x, l.find? p = some x := by
  cases hf : l.find? p with
  | some x => exact ⟨x, rfl⟩
  | none =>
    rw [List.find?_eq_none] at hf
    have : l.filter p = [] := List.filter_eq_nil_iff.2 (fun x hx => hf x hx)
    simp [this] at h

/-- C6, counterexample. In the store `twoUsers` no wishlist row has `userId = 7`
and no user has the id 7: `POST /users/7/wishlist` answers 500, not 201, and
afterwards no wishlist row has `userId = 7`. -/
theorem wishlist_for_a_missing_user_is_refused :
    (twoUsers.wishListsOf 7).length = 0
    ∧ (POST_users_userId_wishlist noFaults twoUsers 7).1 = internalServerError
    ∧ (POST_users_userId_wishlist noFaults twoUsers 7).1.status ≠ 201
    ∧ ((POST_users_userId_wishlist noFaults twoUsers 7).2.wishListsOf 7).length = 0 :=
  ⟨by decide, rfl, by decide, by decide⟩

/-- C6, amended. When exactly one WishList row has `userId = u`,
`POST /users/{u}/wishlist` answers 409 with `WishList already exists` and leaves
the store as it is (so exactly one such row remains). When no row has
`userId = u`: if a user with the id `u` exists (and the id sequence of the
wishlists is not used up) it answers 201 with the new row and afterwards
exactly one row has `userId = u`; if no user has the id `u` it answers 500 and
no row is added. -/
theorem second_wishlist_is_a_conflict (s : Store) (u : Int) :
    ((s.wishListsOf u).length = 1 →
        POST_users_userId_wishlist noFaults s u
            = (Response.statusJson 409 (message "WishList already exists"), s)
        ∧ ((POST_users_userId_wishlist noFaults s u).2.wishListsOf u).length = 1)
    ∧ ((s.wishListsOf u).length = 0 → (∃ x ∈ s.users.rows, x.id = u) →
        inInt4 u = true → inInt4 s.wishLists.nextId = true →
        (POST_users_userId_wishlist noFaults s u).1
            = Response.statusJson 201 (WishList.toJSON ⟨s.wishLists.nextId, some u⟩)
        ∧ ((POST_users_userId_wishlist noFaults s u).2.wishListsOf u).length = 1)
    ∧ ((s.wishListsOf u).length = 0 → (∀ x ∈ s.users.rows, x.id ≠ u) →
        (POST_users_userId_wishlist noFaults s u).1 = internalServerError
        ∧ (POST_users_userId_wishlist noFaults s u).2.wishLists.rows = s.wishLists.rows
        ∧ ((POST_users_userId_wishlist noFaults s u).2.wishListsOf u).length = 0) := by
  refine ⟨?_, ?_, ?_⟩
  · intro h
    obtain ⟨w, hw⟩ := find?_isSome_of_filter_length _ _ h
    have e : POST_users_userId_wishlist noFaults s u
        = (Response.statusJson 409 (message "WishList already exists"), s) := by
      simp [POST_users_userId_wishlist_eq, hw]
    exact ⟨e, by rw [e]; exact h⟩
  · intro h hu hrange hseq
    have hn := find?_eq_none_of_filter_length _ _ h
    have h0 : s.wishLists.rows.filter (fun w => w.userId == some u) = [] :=
      List.length_eq_zero.1 h
    have href : s.users.refers User.id (some u) = true := (Table.refers_some _ _ _).2 hu
    have e : POST_users_userId_wishlist noFaults s u
        = (Response.statusJson 201 (WishList.toJSON ⟨s.wishLists.nextId, some u⟩),
            { s with wishLists :=
                ⟨s.wishLists.rows ++ [⟨s.wishLists.nextId, some u⟩], s.wishLists.nextId + 1⟩ }) := by
      simp [POST_users_userId_wishlist_eq, hn, hrange, hseq, href]
    rw [e]
    refine ⟨rfl, ?_⟩
    simp [Store.wishListsOf, List.filter_append, h0]
  · intro h hu
    have hn := find?_eq_none_of_filter_length _ _ h
    have href : s.users.refers User.id (some u) = false := by
      cases hr : s.users.refers User.id (some u)
      · rfl
      · obtain ⟨x, hx, hxu⟩ := (Table.refers_some _ _ _).1 hr
        exact absurd hxu (hu x hx)
    rw [POST_users_userId_wishlist_eq]
    simp only [noFaults_apply, Bool.false_eq_true, if_false, hn, href, false_or]
    split_ifs <;> exact ⟨rfl, rfl, h⟩

/-- C6, amended, at the store `twoUsers`: user 1 has its wishlist; once it is
deleted, user 1 gets a new one; user 7 does not exist. -/
theorem second_wishlist_is_a_conflict_witness :
    (twoUsers.wishListsOf 1).length = 1
    ∧ (POST_users_userId_wishlist noFaults twoUsers 1).1.status = 409
    ∧ ((run twoUsers [(noFaults, Request.deleteWishList 1)]).wishListsOf 1).length = 0
    ∧ (POST_users_userId_wishlist noFaults
        (run twoUsers [(noFaults, Request.deleteWishList 1)]) 1).1.status = 201
    ∧ ((POST_users_userId_wishlist noFaults
        (run twoUsers [(noFaults, Request.deleteWishList 1)]) 1).2.wishListsOf 1).length = 1
    ∧ (POST_users_userId_wishlist noFaults twoUsers 7).1.status = 500 :=
  have h1 := (second_wishlist_is_a_conflict twoUsers 1).1 (by decide)
  have h2 := (second_wishlist_is_a_conflict
    (run twoUsers [(noFaults, Request.deleteWishList 1)]) 1).2.1 (by decide)
    ⟨⟨1, some "A", some "a@x.com", none, none, some "p"⟩, by decide, rfl⟩ (by decide)
    (by decide)
  have h7 := (second_wishlist_is_a_conflict twoUsers 7).2.2 (by decide) (by decide)
  ⟨by decide, by rw [h1.1]; rfl, by decide, by rw [h2.1]; rfl, h2.2, by rw [h7.1]; rfl⟩

/-! ## C7 -/

/-- With the primary keys and the foreign keys in place, no row refers to the
id that the sequence gives out next. -/
theorem Table.not_refers_nextId {α : Type} {key : α → Int} {t : Table α} (h : t.WF key) :
    t.refers key (some t.nextId) = false := by
  cases hr : t.refers key (some t.nextId)
  · rfl
  · obtain ⟨r, hr, hk⟩ := (Table.refers_some _ _ _).1 hr
    have := h.2 r hr
    omega

/-- No wishlist is owned by the user id that the sequence gives out next. -/
theorem Store.wishListsOf_nextId {s : Store} (hwf : s.WF) (href : s.Referential) :
    s.wishListsOf s.users.nextId = [] := by
  rw [Store.wishListsOf, List.filter_eq_nil_iff]
  intro w hw hu
  have hu' : w.userId = some s.users.nextId := by simpa using hu
  have := href.wishLists_userId w hw
  rw [hu', Table.not_refers_nextId hwf.users] at this
  cases this

/-- No item lies in the wishlist id that the sequence gives out next. -/
theorem Store.items_of_nextId {s : Store} (hwf : s.WF) (href : s.Referential) :
    s.wishListItems.rows.filter (fun i => i.wishListId == some s.wishLists.nextId) = [] := by
  rw [List.filter_eq_nil_iff]
  intro i hi hk
  have hk' : i.wishListId = some s.wishLists.nextId := by simpa using hk
  have := href.wishListItems_wishListId i hi
  rw [hk', Table.not_refers_nextId hwf.wishLists] at this
  cases this

/-- C7. In a store reachable through the API, when `POST /users` answers 201
its body carries the new user id `N` (the next id of the sequence), afterwards
exactly one WishList row has `userId = N`, and `GET /users/N/wishlist` answers
200 with that wishlist and an empty list of items. -/
theorem created_user_has_one_wishlist (faults : Faults) (s : Store) (body : UserBody)
    (hs : Reachable s) (h201 : (POST_users faults s body).1.status = 201) :
    (POST_users faults s body).1.body.get? "id" = some (Json.num s.users.nextId)
    ∧ (POST_users faults s body).2.wishListsOf s.users.nextId
        = [⟨s.wishLists.nextId, some s.users.nextId⟩]
    ∧ GET_users_userId_wishlist noFaults (POST_users faults s body).2 s.users.nextId
        = (Response.json (Json.obj [("id", Json.num s.wishLists.nextId),
              ("userId", Json.num s.users.nextId), ("wishListItems", Json.arr [])]),
            (POST_users faults s body).2) := by
  have hwf := reachable_wf hs
  have href := reachable_referential hs
  have hitems := Store.items_of_nextId hwf href
  have hfilter : s.wishLists.rows.filter (fun w => w.userId == some s.users.nextId) = [] :=
    Store.wishListsOf_nextId hwf href
  have hfind : s.wishLists.rows.find? (fun w => w.userId == some s.users.nextId) = none := by
    rw [List.find?_eq_none]
    intro w hw hp
    have : w ∈ s.wishLists.rows.filter (fun w => w.userId == some s.users.nextId) :=
      List.mem_filter.2 ⟨hw, hp⟩
    rw [hfilter] at this
    simp at this
  rw [POST_users_eq] at h201 ⊢
  split_ifs at h201 ⊢
  · simp [internalServerError, Response.statusJson] at h201
  · simp [internalServerError, Response.statusJson] at h201
  · simp [internalServerError, Response.statusJson] at h201
  · refine ⟨?_, ?_, ?_⟩
    · simp [Response.statusJson, User.toJSON, UserBody.toRow, Json.get?]
    · simp [Store.wishListsOf, List.filter_append, hfilter]
    · rw [GET_users_userId_wishlist_eq]
      have hnew : (s.wishLists.rows ++ [(⟨s.wishLists.nextId, some s.users.nextId⟩ : WishList)]).find?
          (fun w => w.userId == some s.users.nextId)
          = some ⟨s.wishLists.nextId, some s.users.nextId⟩ := by
        simp [List.find?_append, hfind]
      simp only [noFaults_apply, Bool.false_eq_true, if_false, hnew]
      simp only [WishList.toJSONWithItems, WishList.toJSON, Json.withField, Json.ofInt?, hitems,
        List.map_nil, List.cons_append, List.nil_append]

/-- C7 at `POST /users` in the store `wishListThenUser`, where a wishlist was
asked for user 2 before user 2 exists. -/
theorem created_user_has_one_wishlist_witness :
    Reachable (run wishListThenUser [(noFaults, Request.postWishList 2)])
    ∧ (POST_users noFaults (run wishListThenUser [(noFaults, Request.postWishList 2)])
        bodyB).1.status = 201
    ∧ (POST_users noFaults (run wishListThenUser [(noFaults, Request.postWishList 2)])
        bodyB).2.wishListsOf 2 = [⟨4, some 2⟩]
    ∧ (GET_users_userId_wishlist noFaults
        (POST_users noFaults (run wishListThenUser [(noFaults, Request.postWishList 2)])
          bodyB).2 2).1.status = 200 :=
  have hr : Reachable (run wishListThenUser [(noFaults, Request.postWishList 2)]) :=
    reachable_run (reachable_run Reachable.empty _) _
  have h := created_user_has_one_wishlist noFaults
    (run wishListThenUser [(noFaults, Request.postWishList 2)]) bodyB hr (by decide)
  ⟨hr, by decide, h.2.1, by decide⟩

/-! ## C8 -/

theorem length_filter_map_le {α : Type} (f : α → α) (p : α → Bool) (l : List α)
    (h : ∀ x, p (f x) = true → p x = true) :
    ((l.map f).filter p).length ≤ (l.filter p).length := by
  induction l with
  | nil => simp
  | cons x xs ih =>
    simp only [List.map_cons, List.filter_cons]
    by_cases hfx : p (f x) = true
    · simp only [hfx, h x hfx, if_true, List.length_cons]
      omega
    · by_cases hx : p x = true
      · simp only [hfx, hx, Bool.false_eq_true, if_false, if_true, List.length_cons]
        omega
      · simp only [hfx, hx, Bool.false_eq_true, if_false]
        exact ih

theorem length_filter_filter_le {α : Type} (p q : α → Bool) (l : List α) :
    ((l.filter q).filter p).length ≤ (l.filter p).length := by
  rw [List.filter_filter]
  refine List.Sublist.length_le (List.monotone_filter_right _ ?_)
  intro x hx
  simp only [Bool.and_eq_true] at hx
  exact hx.1

/-- Every request keeps "at most one wishlist per user id". -/
theorem Store.oneWishListPerUser_step {s : Store} (hwf : s.WF) (href : s.Referential)
    (h : s.OneWishListPerUser) (faults : Faults) (r : Request) :
    (handle faults s r).2.OneWishListPerUser := by
  cases r <;> (try (rw [handle_get] <;> first | exact h | rfl)) <;> simp only [handle]
  case postUsers body =>
    rw [POST_users_eq]
    repeat' split
    · exact h
    · exact h
    · exact h
    · intro u
      simp only [Store.wishListsOf, List.filter_append]
      by_cases hu : u = s.users.nextId
      · subst hu
        have h0 : s.wishLists.rows.filter (fun w => w.userId == some s.users.nextId) = [] :=
          Store.wishListsOf_nextId hwf href
        simp [h0]
      · have hu' : s.users.nextId ≠ u := fun e => hu e.symm
        have := h u
        simp only [Store.wishListsOf] at this
        simpa [List.filter_cons, hu'] using this
  case patchUser userId body =>
    rw [PATCH_users_userId_eq]
    repeat' split
    all_goals exact h
  case deleteUser userId =>
    rw [DELETE_users_userId_eq]
    repeat' split
    all_goals first
      | exact h
      | (intro u
         refine le_trans (length_filter_map_le _ _ _ ?_) (h u)
         intro w hw
         rw [WishList.onDeleteUser_userId] at hw
         split at hw
         · simp at hw
         · exact hw)
  case postWishList userId =>
    rw [POST_users_userId_wishlist_eq]
    repeat' split
    · exact h
    · exact h
    · exact h
    · exact h
    · have hnone := ‹List.find? _ s.wishLists.rows = none›
      intro u
      simp only [Store.wishListsOf, List.filter_append]
      by_cases hu : u = userId
      · subst hu
        have h0 : s.wishLists.rows.filter (fun w => w.userId == some u) = [] := by
          rw [List.filter_eq_nil_iff]
          intro w hw
          exact List.find?_eq_none.1 hnone w hw
        simp [h0]
      · have hu' : userId ≠ u := fun e => hu e.symm
        have := h u
        simp only [Store.wishListsOf] at this
        simpa [List.filter_cons, hu'] using this
  case patchWishList userId body =>
    rw [PATCH_users_userId_wishlist_eq]
    repeat' split
    all_goals first
      | exact h
      | (have hfound := ‹List.find? _ s.wishLists.rows = some _›
         intro u
         simp only [Store.wishListsOf]
         rw [Table.save_self hwf.wishLists.1 (List.mem_of_find?_eq_some hfound)]
         exact h u)
  case deleteWishList userId =>
    rw [DELETE_users_userId_wishlist_eq]
    repeat' split
    all_goals first
      | exact h
      | (intro u
         exact le_trans (length_filter_filter_le _ _ _) (h u))
  case postItems userId body =>
    rw [POST_users_userId_wishlist_items_eq]
    repeat' split
    all_goals exact h
  case patchItem userId itemId body =>
    rw [PATCH_users_userId_wishlist_items_itemId_eq]
    repeat' split
    all_goals exact h
  case deleteItem userId itemId =>
    rw [DELETE_users_userId_wishlist_items_itemId_eq]
    repeat' split
    all_goals exact h
  case postMerchants body =>
    rw [POST_merchants_eq]
    repeat' split
    all_goals exact h
  case patchMerchant merchantId body =>
    rw [PATCH_merchants_merchantId_eq]
    repeat' split
    all_goals exact h
  case deleteMerchant merchantId =>
    rw [DELETE_merchants_merchantId_eq]
    repeat' split
    all_goals exact h
  case postProducts body =>
    rw [POST_products_eq]
    repeat' split
    all_goals exact h
  case patchProduct productId body =>
    rw [PATCH_products_productId_eq]
    repeat' split
    all_goals exact h
  case deleteProduct productId =>
    rw [DELETE_products_productId_eq]
    repeat' split
    all_goals exact h
  case postSubscriptions userId body =>
    rw [POST_users_userId_subscriptions_eq]
    repeat' split
    all_goals exact h
  case deleteSubscription userId subscriptionId =>
    rw [DELETE_users_userId_subscriptions_subscriptionId_eq]
    repeat' split
    all_goals exact h

theorem reachable_oneWishListPerUser {s : Store} (h : Reachable s) : s.OneWishListPerUser := by
  induction h with
  | empty => intro u; simp [Store.wishListsOf, Store.empty, Table.empty]
  | step faults r hs ih =>
    exact Store.oneWishListPerUser_step (reachable_wf hs) (reachable_referential hs) ih faults r

/-- C8. In every store reachable from the empty store by API requests, at most
one WishList row has `userId = u`, for every user id `u`. In particular, after
`POST /users/1/wishlist` is sent before any user exists (it is refused) and
user 1 is then created, user 1 has the one wishlist that came with it. -/
theorem at_most_one_wishlist_per_user (s : Store) (h : Reachable s) (u : Int) :
    (s.wishListsOf u).length ≤ 1
    ∧ Reachable wishListThenUser
    ∧ wishListThenUser.wishLists.rows = [⟨2, some 1⟩] :=
  ⟨reachable_oneWishListPerUser h u, reachable_run Reachable.empty _, by decide⟩

/-- C8 at the store `wishListRecreated`, where user 1 deleted its wishlist and
created it again. -/
theorem at_most_one_wishlist_per_user_witness :
    Reachable wishListRecreated ∧ (wishListRecreated.wishListsOf 1).length ≤ 1 :=
  have h : Reachable wishListRecreated := reachable_run Reachable.empty _
  ⟨h, (at_most_one_wishlist_per_user wishListRecreated h 1).1⟩

/-! ## C9 -/

theorem patched_assign {α : Type} (field : Field α) (old : Option α) :
    Patched field old (field.assign old) := by
  cases field <;> simp [Patched, Field.present?, Field.assign]

/-- C9. After a 200 answer of `PATCH /products/{id}`, `PATCH /users/{id}` or
`PATCH /merchants/{id}` on an existing row, the row of that id is the row
`new` in which every listed field that is present in the body has the value of
the body and every listed field that is absent has its prior value; the rows of
another id and the other tables are as before; the body of the answer is `new`. -/
theorem patch_changes_only_the_fields_of_the_body (faults : Faults) (s : Store) (id : Int) :
    (∀ (body : ProductBody) (old : Product),
      s.products.rows.find? (fun r => r.id == id) = some old →
      (PATCH_products_productId faults s id body).1.status = 200 →
      ∃ new : Product,
        PATCH_products_productId faults s id body
          = (Response.json (Product.toJSON new),
              { s with products :=
                  ⟨s.products.rows.map (fun x => if x.id == id then new else x),
                    s.products.nextId⟩ })
        ∧ new.id = id ∧ new.merchantId = old.merchantId
        ∧ Patched body.name old.name new.name
        ∧ Patched body.description old.description new.description
        ∧ Patched body.img old.img new.img
        ∧ Patched body.price old.price new.price)
    ∧ (∀ (body : UserBody) (old : User),
      s.users.rows.find? (fun r => r.id == id) = some old →
      (PATCH_users_userId faults s id body).1.status = 200 →
      ∃ new : User,
        PATCH_users_userId faults s id body
          = (Response.json (User.toJSON new),
              { s with users :=
                  ⟨s.users.rows.map (fun x => if x.id == id then new else x), s.users.nextId⟩ })
        ∧ new.id = id ∧ new.password = old.password
        ∧ Patched body.name old.name new.name
        ∧ Patched body.email old.email new.email
        ∧ Patched body.date_of_birth old.date_of_birth new.date_of_birth
        ∧ Patched body.img old.img new.img)
    ∧ (∀ (body : MerchantBody) (old : Merchant),
      s.merchants.rows.find? (fun r => r.id == id) = some old →
      (PATCH_merchants_merchantId faults s id body).1.status = 200 →
      ∃ new : Merchant,
        PATCH_merchants_merchantId faults s id body
          = (Response.json (Merchant.toJSON new),
              { s with merchants :=
                  ⟨s.merchants.rows.map (fun x => if x.id == id then new else x),
                    s.merchants.nextId⟩ })
        ∧ new.id = id ∧ new.login = old.login ∧ new.password = old.password
        ∧ Patched body.name old.name new.name
        ∧ Patched body.img old.img new.img
        ∧ Patched body.description old.description new.description
        ∧ Patched body.address old.address new.address
        ∧ Patched body.address_link old.address_link new.address_link) := by
  refine ⟨?_, ?_, ?_⟩
  · intro body old hold h
    have hid : old.id = id := by simpa using List.find?_some hold
    rw [PATCH_products_productId_eq] at h ⊢
    simp only [hold] at h ⊢
    split_ifs at h ⊢
    · simp [internalServerError, Response.statusJson] at h
    · simp [internalServerError, Response.statusJson] at h
    · exact ⟨body.assignTo old, by simp [hid], hid, rfl, patched_assign _ _, patched_assign _ _,
        patched_assign _ _, patched_assign _ _⟩
  · intro body old hold h
    have hid : old.id = id := by simpa using List.find?_some hold
    rw [PATCH_users_userId_eq] at h ⊢
    simp only [hold] at h ⊢
    split_ifs at h ⊢
    · simp [internalServerError, Response.statusJson] at h
    · simp [internalServerError, Response.statusJson] at h
    · exact ⟨body.assignTo old, by simp [hid], hid, rfl, patched_assign _ _, patched_assign _ _,
        patched_assign _ _, patched_assign _ _⟩
  · intro body old hold h
    have hid : old.id = id := by simpa using List.find?_some hold
    rw [PATCH_merchants_merchantId_eq] at h ⊢
    simp only [hold] at h ⊢
    split_ifs at h ⊢
    · simp [internalServerError, Response.statusJson] at h
    · simp [internalServerError, Response.statusJson] at h
    · exact ⟨body.assignTo old, by simp [hid], hid, rfl, rfl, patched_assign _ _,
        patched_assign _ _, patched_assign _ _, patched_assign _ _, patched_assign _ _⟩

/-- C9 at `PATCH /products/7` with `{ "price": 999 }`: the price becomes 999,
name, description and img stay. -/
theorem patch_changes_only_the_fields_of_the_body_witness :
    product7.products.rows.find? (fun r => r.id == 7)
        = some ⟨7, some "Lamp", some "Desk lamp", some "lamp.png", some 500, some 1⟩
    ∧ (PATCH_products_productId noFaults product7 7 { price := Field.val 999 }).1.status = 200
    ∧ (PATCH_products_productId noFaults product7 7 { price := Field.val 999 }).2.products.rows
        = [⟨7, some "Lamp", some "Desk lamp", some "lamp.png", some 999, some 1⟩] := by
  refine ⟨by decide, by decide, ?_⟩
  obtain ⟨new, he, hid, hm, hn, hd, hi, hp⟩ :=
    (patch_changes_only_the_fields_of_the_body noFaults product7 7).1
      { price := Field.val 999 }
      ⟨7, some "Lamp", some "Desk lamp", some "lamp.png", some 500, some 1⟩
      (by decide) (by decide)
  have hn' : new.name = some "Lamp" := hn
  have hd' : new.description = some "Desk lamp" := hd
  have hi' : new.img = some "lamp.png" := hi
  have hp' : new.price = some 999 := hp
  have hm' : new.merchantId = some 1 := hm
  have hnew : new = ⟨7, some "Lamp", some "Desk lamp", some "lamp.png", some 999, some 1⟩ := by
    cases new
    simp_all
  rw [he, hnew]
  decide

/-! ## C10 -/

/-- With a primary key, a row of the table is the one found under its id. -/
theorem Table.find?_pk_of_mem {α : Type} {key : α → Int} {rows : List α}
    (hnd : (rows.map key).Nodup) {r : α} (hr : r ∈ rows) :
    rows.find? (fun x => key x == key r) = some r := by
  induction rows with
  | nil => simp at hr
  | cons x xs ih =>
    simp only [List.map_cons, List.nodup_cons] at hnd
    rcases List.mem_cons.1 hr with rfl | hr'
    · simp
    · have : key x ≠ key r := fun e => hnd.1 (e ▸ List.mem_map_of_mem key hr')
      simp [List.find?_cons, this, ih hnd.2 hr']

/-- C10, counterexample. In the store `twoUsers` no user has the id 2147483648,
and `DELETE /users/2147483648` answers 500, not 404. -/
theorem delete_beyond_the_id_range_is_500 :
    (∀ r ∈ twoUsers.users.rows, r.id ≠ 2147483648)
    ∧ (DELETE_users_userId noFaults twoUsers 2147483648).1 = internalServerError
    ∧ (DELETE_users_userId noFaults twoUsers 2147483648).1.status = 500
    ∧ (DELETE_users_userId noFaults twoUsers 2147483648).1.status ≠ 404 :=
  ⟨by decide, rfl, rfl, by decide⟩

/-- C10, amended. For each resource, `DELETE` on an id that names no row leaves
the store as it is and answers 404 when the id is in the range of the `INTEGER`
column, 500 when it is not; on an id that names a row (of the path user where
the route has one) it answers 200, removes that row and no other (the ids
being a primary key), and sets to `null` the foreign keys that referred to it. -/
theorem delete_of_a_missing_row_is_not_found (s : Store) (id u : Int) :
    -- /users/{id}
    ((∀ r ∈ s.users.rows, r.id ≠ id) →
      DELETE_users_userId noFaults s id
        = (if inInt4 id = true then Response.statusJson 404 (message "User not found")
            else internalServerError, s))
    ∧ (∀ row, s.WF → s.users.rows.find? (fun r => r.id == id) = some row →
      DELETE_users_userId noFaults s id
        = (Response.json (message "User deleted"),
            { s with
              users := ⟨s.users.rows.erase row, s.users.nextId⟩
              wishLists := s.wishLists.onDelete (WishList.onDeleteUser id)
              subscriptions := s.subscriptions.onDelete (Subscription.onDeleteUser id) }))
    -- /merchants/{id}
    ∧ ((∀ r ∈ s.merchants.rows, r.id ≠ id) →
      DELETE_merchants_merchantId noFaults s id
        = (if inInt4 id = true then Response.statusJson 404 (message "Merchant not found")
            else internalServerError, s))
    ∧ (∀ row, s.WF → s.merchants.rows.find? (fun r => r.id == id) = some row →
      DELETE_merchants_merchantId noFaults s id
        = (Response.json (message "Merchant deleted"),
            { s with
              merchants := ⟨s.merchants.rows.erase row, s.merchants.nextId⟩
              products := s.products.onDelete (Product.onDeleteMerchant id) }))
    -- /products/{id}
    ∧ ((∀ r ∈ s.products.rows, r.id ≠ id) →
      DELETE_products_productId noFaults s id
        = (if inInt4 id = true then Response.statusJson 404 (message "Product not found")
            else internalServerError, s))
    ∧ (∀ row, s.WF → s.products.rows.find? (fun r => r.id == id) = some row →
      DELETE_products_productId noFaults s id
        = (Response.json (message "Product deleted"),
            { s with
              products := ⟨s.products.rows.erase row, s.products.nextId⟩
              wishListItems := s.wishListItems.onDelete (WishListItem.onDeleteProduct id) }))
    -- /users/{id}/wishlist
    ∧ ((∀ r ∈ s.wishLists.rows, r.userId ≠ some id) →
      DELETE_users_userId_wishlist noFaults s id
        = (if inInt4 id = true then Response.statusJson 404 (message "WishList not found")
            else internalServerError, s))
    ∧ (∀ row, s.WF → s.wishLists.rows.find? (fun r => r.userId == some id) = some row →
      DELETE_users_userId_wishlist noFaults s id
        = (Response.json (message "WishList deleted"),
            { s with
              wishLists := ⟨s.wishLists.rows.erase row, s.wishLists.nextId⟩
              wishListItems :=
                s.wishListItems.onDelete (WishListItem.onDeleteWishList row.id) }))
    -- /users/{u}/wishlist/items/{id}
    ∧ ((∀ r ∈ s.wishListItems.rows, r.id ≠ id) →
      (DELETE_users_userId_wishlist_items_itemId noFaults s u id).2 = s
      ∧ (inInt4 u = true → inInt4 id = true →
          (DELETE_users_userId_wishlist_items_itemId noFaults s u id).1.status = 404)
      ∧ (∀ W, s.wishLists.rows.find? (fun r => r.userId == some u) = some W →
          DELETE_users_userId_wishlist_items_itemId noFaults s u id
            = (if inInt4 id = true then Response.statusJson 404 (message "Item not found")
                else internalServerError, s)))
    ∧ (∀ W row, s.WF → s.wishLists.rows.find? (fun r => r.userId == some u) = some W →
      s.wishListItems.rows.find? (fun r => r.id == id) = some row →
      row.wishListId = some W.id →
      DELETE_users_userId_wishlist_items_itemId noFaults s u id
        = (Response.json (message "Item removed from wishlist"),
            { s with wishListItems :=
                ⟨s.wishListItems.rows.erase row, s.wishListItems.nextId⟩ }))
    -- /users/{u}/subscriptions/{id}
    ∧ ((∀ r ∈ s.subscriptions.rows, r.id ≠ id) →
      DELETE_users_userId_subscriptions_subscriptionId noFaults s u id
        = (if inInt4 id = true then
              Response.statusJson 404
                (message "Subscription not found or not belongs to this user")
            else internalServerError, s))
    ∧ (∀ row, s.WF → s.subscriptions.rows.find? (fun r => r.id == id) = some row →
      row.userId = some u →
      DELETE_users_userId_subscriptions_subscriptionId noFaults s u id
        = (Response.json (message "Unsubscribed"),
            { s with subscriptions :=
                ⟨s.subscriptions.rows.erase row, s.subscriptions.nextId⟩ })) := by
  refine ⟨?_, ?_, ?_, ?_, ?_, ?_, ?_, ?_, ?_, ?_, ?_, ?_⟩
  · intro h
    have : s.users.rows.find? (fun r => r.id == id) = none := by
      simpa [List.find?_eq_none] using h
    rw [DELETE_users_userId_eq]
    simp only [this, noFaults_apply, Bool.false_eq_true, if_false]
    split <;> rfl
  · intro row hwf hrow
    have hid : row.id = id := by simpa using List.find?_some hrow
    simp [DELETE_users_userId_eq, hrow, ← Table.destroy_eq_erase hwf.users.1 hrow, hid]
  · intro h
    have : s.merchants.rows.find? (fun r => r.id == id) = none := by
      simpa [List.find?_eq_none] using h
    rw [DELETE_merchants_merchantId_eq]
    simp only [this, noFaults_apply, Bool.false_eq_true, if_false]
    split <;> rfl
  · intro row hwf hrow
    have hid : row.id = id := by simpa using List.find?_some hrow
    simp [DELETE_merchants_merchantId_eq, hrow, ← Table.destroy_eq_erase hwf.merchants.1 hrow,
      hid]
  · intro h
    have : s.products.rows.find? (fun r => r.id == id) = none := by
      simpa [List.find?_eq_none] using h
    rw [DELETE_products_productId_eq]
    simp only [this, noFaults_apply, Bool.false_eq_true, if_false]
    split <;> rfl
  · intro row hwf hrow
    have hid : row.id = id := by simpa using List.find?_some hrow
    simp [DELETE_products_productId_eq, hrow, ← Table.destroy_eq_erase hwf.products.1 hrow, hid]
  · intro h
    have : s.wishLists.rows.find? (fun r => r.userId == some id) = none := by
      simpa [List.find?_eq_none] using h
    rw [DELETE_users_userId_wishlist_eq]
    simp only [this, noFaults_apply, Bool.false_eq_true, if_false]
    split <;> rfl
  · intro row hwf hrow
    have hpk : s.wishLists.rows.find? (fun r => r.id == row.id) = some row :=
      Table.find?_pk_of_mem hwf.wishLists.1 (List.mem_of_find?_eq_some hrow)
    simp [DELETE_users_userId_wishlist_eq, hrow, ← Table.destroy_eq_erase hwf.wishLists.1 hpk]
  · intro h
    have : s.wishListItems.rows.find? (fun r => r.id == id) = none := by
      simpa [List.find?_eq_none] using h
    rw [DELETE_users_userId_wishlist_items_itemId_eq]
    simp only [this, noFaults_apply, Bool.false_eq_true, if_false]
    refine ⟨?_, ?_, ?_⟩
    · repeat' split
      all_goals rfl
    · intro hu hi
      simp only [hu, hi, if_true]
      split <;> rfl
    · intro W hW
      simp only [hW]
      split <;> rfl
  · intro W row hwf hW hrow hown
    simp [DELETE_users_userId_wishlist_items_itemId_eq, hW, hrow, hown,
      ← Table.destroy_eq_erase hwf.wishListItems.1 hrow]
  · intro h
    have : s.subscriptions.rows.find? (fun r => r.id == id) = none := by
      simpa [List.find?_eq_none] using h
    rw [DELETE_users_userId_subscriptions_subscriptionId_eq]
    simp only [this, noFaults_apply, Bool.false_eq_true, if_false]
    split <;> rfl
  · intro row hwf hrow hown
    simp [DELETE_users_userId_subscriptions_subscriptionId_eq, hrow, hown,
      ← Table.destroy_eq_erase hwf.subscriptions.1 hrow]

/-- C10, amended, at the store `twoUsers`: no user has id 9; user 1 exists, and
its deletion leaves its wishlist without owner. -/
theorem delete_of_a_missing_row_is_not_found_witness :
    (∀ r ∈ twoUsers.users.rows, r.id ≠ 9)
    ∧ (DELETE_users_userId noFaults twoUsers 9).1.status = 404
    ∧ (DELETE_users_userId noFaults twoUsers 9).2.users.rows = twoUsers.users.rows
    ∧ twoUsers.WF
    ∧ (DELETE_users_userId noFaults twoUsers 1).1.status = 200
    ∧ (DELETE_users_userId noFaults twoUsers 1).2.users.rows
        = [⟨2, some "B", some "b@x.com", none, none, some "q"⟩]
    ∧ (DELETE_users_userId noFaults twoUsers 1).2.wishLists.rows
        = [⟨1, none⟩, ⟨2, some 2⟩] :=
  have hwf : twoUsers.WF := reachable_wf (reachable_run Reachable.empty _)
  have h9 := (delete_of_a_missing_row_is_not_found twoUsers 9 0).1 (by decide)
  have h1 := (delete_of_a_missing_row_is_not_found twoUsers 1 0).2.1
    ⟨1, some "A", some "a@x.com", none, none, some "p"⟩ hwf (by decide)
  ⟨by decide, by rw [h9]; rfl, by rw [h9], hwf, by rw [h1]; rfl, by rw [h1]; decide,
    by rw [h1]; decide⟩

/-! ## C11 -/

/-- C11, counterexample. In the store `oneSubscription` no subscription has the
id 2147483648, and `DELETE /users/1/subscriptions/2147483648` answers 500, not
404. -/
theorem unsubscribe_beyond_the_id_range_is_500 :
    (∀ x ∈ oneSubscription.subscriptions.rows, x.id ≠ 2147483648)
    ∧ (DELETE_users_userId_subscriptions_subscriptionId noFaults oneSubscription 1
        2147483648).1 = internalServerError
    ∧ (DELETE_users_userId_subscriptions_subscriptionId noFaults oneSubscription 1
        2147483648).1.status ≠ 404 :=
  ⟨by decide, rfl, by decide⟩

/-- C11, amended. `DELETE /users/{userId}/subscriptions/{subscriptionId}`
answers 200 exactly when a subscription of that id exists and its `userId` is
the path `userId`; it then deletes the rows of that id (the one row, ids being a
primary key); in every other case it leaves the store as it is and answers 404,
or 500 when no subscription has that id and the id is outside the range of the
`INTEGER` column. -/
theorem unsubscribe_needs_the_owner (s : Store) (userId subscriptionId : Int) :
    ((DELETE_users_userId_subscriptions_subscriptionId noFaults s userId subscriptionId).1.status
        = 200
      ↔ ∃ sub, s.subscriptions.rows.find? (fun r => r.id == subscriptionId) = some sub
          ∧ sub.userId = some userId)
    ∧ (∀ sub, s.subscriptions.rows.find? (fun r => r.id == subscriptionId) = some sub →
        sub.userId = some userId →
        DELETE_users_userId_subscriptions_subscriptionId noFaults s userId subscriptionId
          = (Response.json (message "Unsubscribed"),
              { s with subscriptions :=
                  ⟨s.subscriptions.rows.filter (fun x => x.id != subscriptionId),
                    s.subscriptions.nextId⟩ })
        ∧ (s.WF → s.subscriptions.rows.filter (fun x => x.id != subscriptionId)
              = s.subscriptions.rows.erase sub))
    ∧ ((¬ ∃ sub, s.subscriptions.rows.find? (fun r => r.id == subscriptionId) = some sub
          ∧ sub.userId = some userId) →
        DELETE_users_userId_subscriptions_subscriptionId noFaults s userId subscriptionId
          = (if (∀ x ∈ s.subscriptions.rows, x.id ≠ subscriptionId)
                ∧ inInt4 subscriptionId = false then internalServerError
              else Response.statusJson 404
                (message "Subscription not found or not belongs to this user"), s)) := by
  have hnone : s.subscriptions.rows.find? (fun r => r.id == subscriptionId) = none
      ↔ ∀ x ∈ s.subscriptions.rows, x.id ≠ subscriptionId := by
    simp [List.find?_eq_none]
  rw [DELETE_users_userId_subscriptions_subscriptionId_eq]
  cases hf : s.subscriptions.rows.find? (fun r => r.id == subscriptionId) with
  | none =>
    have hall := hnone.1 hf
    refine ⟨?_, ?_, fun _ => ?_⟩
    · cases inInt4 subscriptionId <;> simp [Response.statusJson, internalServerError]
    · intro sub h
      cases h
    · simp only [noFaults_apply, Bool.false_eq_true, if_false]
      by_cases hr : inInt4 subscriptionId = true
      · rw [if_pos hr, if_neg]
        intro h
        rw [hr] at h
        exact Bool.noConfusion h.2
      · rw [if_neg hr, if_pos ⟨hall, by simpa using hr⟩]
  | some sub =>
    have hid : sub.id = subscriptionId := by simpa using List.find?_some hf
    have hex : ¬ ∀ x ∈ s.subscriptions.rows, x.id ≠ subscriptionId :=
      fun hall => hall sub (List.mem_of_find?_eq_some hf) hid
    by_cases hown : sub.userId = some userId
    · refine ⟨by simp [hown, Response.json], ?_, ?_⟩
      · intro sub' hsub' _
        simp only [Option.some.injEq] at hsub'
        subst hsub'
        refine ⟨by simp [hown, hid], fun hwf => ?_⟩
        rw [← Table.destroy_eq_erase hwf.subscriptions.1 hf, hid]
      · intro hno
        exact absurd ⟨sub, rfl, hown⟩ hno
    · refine ⟨by simp [hown, Response.statusJson], ?_, ?_⟩
      · intro sub' hsub' hown'
        simp only [Option.some.injEq] at hsub'
        subst hsub'
        exact absurd hown' hown
      · intro _
        simp only [noFaults_apply, Bool.false_eq_true, if_false, ne_eq, hown, not_false_eq_true,
          if_true]
        rw [if_neg (fun h => hex h.1)]

/-- C11, amended, at the store `oneSubscription`: subscription 1 belongs to
user 1; user 2 cannot delete it, user 1 can. -/
theorem unsubscribe_needs_the_owner_witness :
    oneSubscription.subscriptions.rows = [⟨1, some 1, some 2⟩]
    ∧ (DELETE_users_userId_subscriptions_subscriptionId noFaults oneSubscription 2 1).1.status
        = 404
    ∧ (DELETE_users_userId_subscriptions_subscriptionId noFaults oneSubscription 2
        1).2.subscriptions.rows = [⟨1, some 1, some 2⟩]
    ∧ (DELETE_users_userId_subscriptions_subscriptionId noFaults oneSubscription 1 1).1.status
        = 200
    ∧ (DELETE_users_userId_subscriptions_subscriptionId noFaults oneSubscription 1
        1).2.subscriptions.rows = [] :=
  have h1 := ((unsubscribe_needs_the_owner oneSubscription 1 1).2.1 ⟨1, some 1, some 2⟩
    (by decide) (by decide)).1
  ⟨by decide, by decide, by decide, by rw [h1]; rfl, by rw [h1]; decide⟩

/-! ## C12 -/

/-- With a primary key, two rows of the table with the same id are the same row. -/
theorem Table.eq_of_key_eq {α : Type} {key : α → Int} {rows : List α}
    (hnd : (rows.map key).Nodup) {a b : α} (ha : a ∈ rows) (hb : b ∈ rows)
    (h : key a = key b) : a = b :=
  List.inj_on_of_nodup_map hnd ha hb h

/-- The answer of `GET /users/{userId}/wishlist/items` is read off the rows of
the wishlists and the products and off the items of the wishlist of the user. -/
theorem GET_items_of_rows (s s' : Store) (userId : Int)
    (hw : s'.wishLists = s.wishLists) (hp : s'.products = s.products)
    (hi : ∀ W, s.wishLists.rows.find? (fun w => w.userId == some userId) = some W →
      s'.wishListItems.rows.filter (fun i => i.wishListId == some W.id)
        = s.wishListItems.rows.filter (fun i => i.wishListId == some W.id)) :
    (GET_users_userId_wishlist_items noFaults s' userId).1
      = (GET_users_userId_wishlist_items noFaults s userId).1 := by
  simp only [GET_users_userId_wishlist_items_eq, noFaults_apply, Bool.false_eq_true, if_false, hw]
  cases hW : s.wishLists.rows.find? (fun w => w.userId == some userId) with
  | none => cases inInt4 userId <;> rfl
  | some W =>
    simp only [hi W hW]
    have : WishListItem.toJSONWithProduct s' = WishListItem.toJSONWithProduct s := by
      funext i
      simp only [WishListItem.toJSONWithProduct, hp]
    rw [this]

/-- C12, counterexample. In the store `twoUsers` user 2 has its wishlist and no
product has the id 99: `POST /users/2/wishlist/items` with `{ productId: 99 }`
answers 500, not 201, and adds no item. -/
theorem item_for_a_missing_product_is_refused :
    twoUsers.wishLists.rows.find? (fun w => w.userId == some 2) = some ⟨2, some 2⟩
    ∧ (∀ p ∈ twoUsers.products.rows, p.id ≠ 99)
    ∧ (POST_users_userId_wishlist_items noFaults twoUsers 2 { productId := Field.val 99 }).1
        = internalServerError
    ∧ (POST_users_userId_wishlist_items noFaults twoUsers 2
        { productId := Field.val 99 }).1.status ≠ 201
    ∧ (POST_users_userId_wishlist_items noFaults twoUsers 2
        { productId := Field.val 99 }).2.wishListItems.rows = twoUsers.wishListItems.rows :=
  ⟨by decide, by decide, rfl, by decide, by decide⟩

/-- C12, amended. Without a wishlist of the path user, GET and POST on
`/users/{userId}/wishlist/items` leave the store as it is and answer 404 (500
when the `userId` is outside the range of the `INTEGER` column). With the
wishlist `W`: GET answers with the items whose `wishListId` is `W.id`; POST
answers 201 and appends one item whose `wishListId` is `W.id` and whose
`productId` is the one of the body when that is absent, `null`, or the id of an
existing product (and the id sequence of the items is not used up); when no
product has the `productId` of the body it answers 500 and adds no item. The
list that GET gives for another user is the same before and after the POST. -/
theorem wishlist_items_follow_the_wishlist (s : Store) (userId : Int) (body : WishListItemBody) :
    (s.wishLists.rows.find? (fun w => w.userId == some userId) = none →
      GET_users_userId_wishlist_items noFaults s userId
        = (if inInt4 userId = true then Response.statusJson 404 (message "WishList not found")
            else internalServerError, s)
      ∧ POST_users_userId_wishlist_items noFaults s userId body
        = (if inInt4 userId = true then Response.statusJson 404 (message "WishList not found")
            else internalServerError, s))
    ∧ (∀ W, s.wishLists.rows.find? (fun w => w.userId == some userId) = some W →
      GET_users_userId_wishlist_items noFaults s userId
        = (Response.json (Json.arr
            ((s.wishListItems.rows.filter (fun i => i.wishListId == some W.id)).map
              (WishListItem.toJSONWithProduct s))), s)
      ∧ (s.products.refers Product.id body.productId.toColumn = true →
          inInt4? body.productId.toColumn = true → inInt4 s.wishListItems.nextId = true →
          POST_users_userId_wishlist_items noFaults s userId body
            = (Response.statusJson 201 (WishListItem.toJSON
                  ⟨s.wishListItems.nextId, some W.id, body.productId.toColumn⟩),
                { s with wishListItems :=
                    ⟨s.wishListItems.rows
                        ++ [⟨s.wishListItems.nextId, some W.id, body.productId.toColumn⟩],
                      s.wishListItems.nextId + 1⟩ }))
      ∧ (s.products.refers Product.id body.productId.toColumn = false →
          (POST_users_userId_wishlist_items noFaults s userId body).1 = internalServerError
          ∧ (POST_users_userId_wishlist_items noFaults s userId body).2.wishListItems.rows
              = s.wishListItems.rows))
    ∧ (s.products.refers Product.id body.productId.toColumn = true
        ↔ body.productId.toColumn = none
          ∨ ∃ p ∈ s.products.rows, some p.id = body.productId.toColumn)
    ∧ (∀ (faults : Faults) (other : Int), s.WF → other ≠ userId →
      (GET_users_userId_wishlist_items noFaults
          (POST_users_userId_wishlist_items faults s userId body).2 other).1
        = (GET_users_userId_wishlist_items noFaults s other).1) := by
  refine ⟨?_, ?_, ?_, ?_⟩
  · intro h
    simp only [GET_users_userId_wishlist_items_eq, POST_users_userId_wishlist_items_eq, h,
      noFaults_apply, Bool.false_eq_true, if_false]
    constructor <;> split <;> rfl
  · intro W h
    refine ⟨by simp [GET_users_userId_wishlist_items_eq, h], ?_, ?_⟩
    · intro href hrange hseq
      simp [POST_users_userId_wishlist_items_eq, h, href, hrange, hseq]
    · intro href
      rw [POST_users_userId_wishlist_items_eq]
      simp only [noFaults_apply, Bool.false_eq_true, if_false, h, href, false_or, if_true]
      split <;> exact ⟨rfl, rfl⟩
  · cases hp : body.productId.toColumn with
    | none => simp [Table.refers]
    | some k =>
      rw [Table.refers_some]
      simp
  · intro faults other hwf hne
    refine GET_items_of_rows s _ other ?_ ?_ ?_
    · rw [POST_users_userId_wishlist_items_eq]
      repeat' split
      all_goals rfl
    · rw [POST_users_userId_wishlist_items_eq]
      repeat' split
      all_goals rfl
    · intro W' hO
      rw [POST_users_userId_wishlist_items_eq]
      repeat' split
      all_goals first
        | rfl
        | (have hW := ‹List.find? _ s.wishLists.rows = some _›
           have hWu := List.find?_some hW
           have hOu := List.find?_some hO
           simp only [beq_iff_eq] at hWu hOu
           rename_i W _ _ _
           have hid : W.id ≠ W'.id := by
             intro e
             have := Table.eq_of_key_eq hwf.wishLists.1 (List.mem_of_find?_eq_some hW)
               (List.mem_of_find?_eq_some hO) e
             rw [this, hOu] at hWu
             exact hne (Option.some.inj hWu)
           simp [List.filter_append, List.filter_cons, hid])

/-- C12, amended, at the store `twoUsers`: user 7 has no wishlist; an item
posted under user 2 for the product 1 lands in wishlist 2 and the list of user 1
stays as it was. -/
theorem wishlist_items_follow_the_wishlist_witness :
    twoUsers.wishLists.rows.find? (fun w => w.userId == some 7) = none
    ∧ (GET_users_userId_wishlist_items noFaults twoUsers 7).1.status = 404
    ∧ twoUsers.wishLists.rows.find? (fun w => w.userId == some 2) = some ⟨2, some 2⟩
    ∧ (POST_users_userId_wishlist_items noFaults twoUsers 2
        { productId := Field.val 1 }).2.wishListItems.rows
        = [⟨1, some 1, some 1⟩, ⟨2, some 2, some 1⟩]
    ∧ twoUsers.WF
    ∧ (GET_users_userId_wishlist_items noFaults
          (POST_users_userId_wishlist_items noFaults twoUsers 2 { productId := Field.val 1 }).2
          1).1
        = (GET_users_userId_wishlist_items noFaults twoUsers 1).1 :=
  have hwf : twoUsers.WF := reachable_wf (reachable_run Reachable.empty _)
  have h := wishlist_items_follow_the_wishlist twoUsers 7 {}
  have h2 := wishlist_items_follow_the_wishlist twoUsers 2 { productId := Field.val 1 }
  ⟨by decide, by rw [(h.1 (by decide)).1]; rfl, by decide,
    by rw [(h2.2.1 ⟨2, some 2⟩ (by decide)).2.1 (by decide) (by decide) (by decide)]; decide,
    hwf, h2.2.2.2 noFaults 1 hwf (by decide)⟩

/-! ## C13 -/

/-- C13, counterexample. In the store `merchantWithLamp` no merchant has the id
2147483648, and `GET /merchants/2147483648/products` answers 500, not 404. -/
theorem merchant_products_beyond_the_id_range :
    (∀ m ∈ merchantWithLamp.merchants.rows, m.id ≠ 2147483648)
    ∧ (GET_merchants_merchantId_products noFaults merchantWithLamp 2147483648).1
        = internalServerError
    ∧ (GET_merchants_merchantId_products noFaults merchantWithLamp 2147483648).1.status ≠ 404 :=
  ⟨by decide, rfl, by decide⟩

/-- C13, amended. `GET /merchants/{merchantId}/products` answers 404 exactly
when no merchant row has that id and the id is in the range of the `INTEGER`
column (500 when it is outside the range), and otherwise answers with the
products whose `merchantId` is that id, each once, in table order. -/
theorem merchant_products_are_those_of_the_merchant (s : Store) (merchantId : Int) :
    ((GET_merchants_merchantId_products noFaults s merchantId).1.status = 404
      ↔ (∀ m ∈ s.merchants.rows, m.id ≠ merchantId) ∧ inInt4 merchantId = true)
    ∧ ((∀ m ∈ s.merchants.rows, m.id ≠ merchantId) → inInt4 merchantId = false →
      GET_merchants_merchantId_products noFaults s merchantId = (internalServerError, s))
    ∧ ((∃ m ∈ s.merchants.rows, m.id = merchantId) →
      GET_merchants_merchantId_products noFaults s merchantId
        = (Response.json (Json.arr
            ((s.products.rows.filter (fun p => p.merchantId == some merchantId)).map
              Product.toJSON)), s)) := by
  have hnone : s.merchants.rows.find? (fun r => r.id == merchantId) = none
      ↔ ∀ m ∈ s.merchants.rows, m.id ≠ merchantId := by
    simp [List.find?_eq_none]
  rw [GET_merchants_merchantId_products_eq]
  cases hf : s.merchants.rows.find? (fun r => r.id == merchantId) with
  | none =>
    have hall := hnone.1 hf
    refine ⟨?_, ?_, ?_⟩
    · cases hr : inInt4 merchantId
      · simp [Response.statusJson, internalServerError]
      · simpa [Response.statusJson] using hall
    · intro _ hr
      simp [hr]
    · rintro ⟨m, hm, hid⟩
      exact absurd hid (hall m hm)
  | some m =>
    have hid : m.id = merchantId := by simpa using List.find?_some hf
    have hmem := List.mem_of_find?_eq_some hf
    refine ⟨?_, ?_, ?_⟩
    · simp only [noFaults_apply, Bool.false_eq_true, if_false, Response.json]
      constructor
      · intro h; simp at h
      · intro h; exact absurd hid (h.1 m hmem)
    · intro h
      exact absurd hid (h m hmem)
    · intro _
      simp [hid]

/-- C13, amended, at the store `merchantWithLamp`: after `POST /merchants` gave
id 1 and one `POST /products` with `merchantId` 1, the list is exactly that
product. -/
theorem merchant_products_are_those_of_the_merchant_witness :
    (∃ m ∈ merchantWithLamp.merchants.rows, m.id = 1)
    ∧ (GET_merchants_merchantId_products noFaults merchantWithLamp 1).1
        = Response.json (Json.arr [Product.toJSON
            ⟨1, some "Lamp", some "Desk lamp", some "lamp.png", some 500, some 1⟩])
    ∧ (GET_merchants_merchantId_products noFaults merchantWithLamp 2).1.status = 404 :=
  have h := (merchant_products_are_those_of_the_merchant merchantWithLamp 1).2.2 (by decide)
  ⟨by decide, by rw [h]; rfl,
    (merchant_products_are_those_of_the_merchant merchantWithLamp 2).1.2
      ⟨by decide, by decide⟩⟩

/-! ## C14 -/

theorem like_nil (text : List Char) : like [] text = text.isEmpty := by
  simp [like, likeFrom]

theorem like_percent (pattern text : List Char) :
    like ('%' :: pattern) text = text.tails.any (fun rest => like pattern rest) := by
  simp [like, likeFrom]

theorem like_literal (c : Char) (hc : likeSpecial c = false) (pattern text : List Char) :
    like (c :: pattern) text
      = match text with
        | [] => false
        | x :: rest => x == c && like pattern rest := by
  simp only [likeSpecial, Bool.or_eq_false_iff, beq_eq_false_iff_ne] at hc
  obtain ⟨⟨h1, h2⟩, h3⟩ := hc
  cases text with
  | nil => simp [like, likeFrom, h1, h2, h3]
  | cons x rest => simp [like, likeFrom, h1, h2, h3]

theorem like_literals_append (s pattern : List Char) (hs : ∀ c ∈ s, likeSpecial c = false)
    (text : List Char) :
    like (s ++ pattern) text = true ↔ ∃ rest, text = s ++ rest ∧ like pattern rest = true := by
  induction s generalizing text with
  | nil => simp
  | cons c s ih =>
    have hc := hs c (List.mem_cons_self _ _)
    have hs' : ∀ d ∈ s, likeSpecial d = false := fun d hd => hs d (List.mem_cons_of_mem _ hd)
    rw [List.cons_append, like_literal c hc]
    cases text with
    | nil => simp
    | cons x rest =>
      simp only [Bool.and_eq_true, beq_iff_eq, ih hs', List.cons_append, List.cons.injEq]
      constructor
      · rintro ⟨hx, u, hr, hu⟩
        exact ⟨u, ⟨hx, hr⟩, hu⟩
      · rintro ⟨u, ⟨hx, hr⟩, hu⟩
        exact ⟨hx, u, hr, hu⟩

theorem like_percent_only (text : List Char) : like ['%'] text = true := by
  rw [like_percent, List.any_eq_true]
  exact ⟨[], by simp, by simp [like_nil]⟩

/-- For a search string of literal characters, `name LIKE '%search%'` says that
the name contains the search string. -/
theorem like_substring (s text : List Char) (hs : ∀ c ∈ s, likeSpecial c = false) :
    like (['%'] ++ s ++ ['%']) text = true ↔ s <:+: text := by
  rw [List.append_assoc, List.singleton_append, like_percent, List.any_eq_true]
  constructor
  · rintro ⟨v, hv, hlike⟩
    obtain ⟨u, rfl, -⟩ := (like_literals_append s ['%'] hs v).1 hlike
    exact List.infix_iff_prefix_suffix.2 ⟨s ++ u, List.prefix_append _ _, (List.mem_tails _ _).1 hv⟩
  · intro h
    obtain ⟨v, ⟨u, rfl⟩, hsuf⟩ := List.infix_iff_prefix_suffix.1 h
    exact ⟨s ++ u, (List.mem_tails _ _).2 hsuf,
      (like_literals_append s ['%'] hs _).2 ⟨u, rfl, like_percent_only u⟩⟩

/-- C14, counterexample. `GET /merchants?search=_` on the store `merchantWithLamp`
answers with the merchant named "M", whose name does not contain "_"; likewise
`GET /products?search=%` answers with the product "Lamp". -/
theorem search_wildcards_match_other_names :
    (GET_merchants noFaults merchantWithLamp (some "_")).1
        = Response.json (Json.arr [Merchant.toJSON
            ⟨1, some "M", some "m", some "x", none, some "shop", none, none⟩])
    ∧ ¬ containsSubstring "M" "_"
    ∧ (GET_products noFaults merchantWithLamp (some "%")).1
        = Response.json (Json.arr [Product.toJSON
            ⟨1, some "Lamp", some "Desk lamp", some "lamp.png", some 500, some 1⟩])
    ∧ ¬ containsSubstring "Lamp" "%" :=
  ⟨rfl, by unfold containsSubstring; decide, rfl, by unfold containsSubstring; decide⟩

/-- C14, amended. `GET /merchants?search=s` and `GET /products?search=s` answer
with all rows when `search` is absent or empty, and otherwise with the rows
whose name is `LIKE '%s%'`; when `s` has none of the characters `%`, `_` and
backslash, these are the rows whose name contains `s` as a substring. -/
theorem search_is_a_like_pattern (s : Store) (search : Option String) :
    GET_merchants noFaults s search
        = (Response.json (Json.arr
            ((s.merchants.rows.filter (fun m => searchWhere search m.name)).map
              Merchant.toJSON)), s)
    ∧ GET_products noFaults s search
        = (Response.json (Json.arr
            ((s.products.rows.filter (fun p => searchWhere search p.name)).map
              Product.toJSON)), s)
    ∧ (∀ name, searchWhere none name = true ∧ searchWhere (some "") name = true)
    ∧ (∀ q name : String, q ≠ "" → (∀ c ∈ q.toList, likeSpecial c = false) →
        (searchWhere (some q) (some name) = true ↔ containsSubstring name q))
    ∧ (∀ q : String, q ≠ "" → searchWhere (some q) none = false) := by
  refine ⟨?_, ?_, ?_, ?_, ?_⟩
  · simp [GET_merchants_eq]
  · simp [GET_products_eq]
  · intro name
    simp [searchWhere]
  · intro q name hq hplain
    simp only [searchWhere, hq, if_false, containsSubstring]
    exact like_substring q.toList name.toList hplain
  · intro q hq
    simp [searchWhere, hq]

/-- C14, amended, at the store `merchantWithLamp`: the search "am" finds the
product "Lamp", the search "x" finds nothing. -/
theorem search_is_a_like_pattern_witness :
    (∀ c ∈ "am".toList, likeSpecial c = false)
    ∧ searchWhere (some "am") (some "Lamp") = true
    ∧ containsSubstring "Lamp" "am"
    ∧ (GET_products noFaults merchantWithLamp (some "x")).1 = Response.json (Json.arr []) :=
  have h := (search_is_a_like_pattern merchantWithLamp (some "x")).2.1
  ⟨by decide, by decide,
    ((search_is_a_like_pattern merchantWithLamp none).2.2.2.1 "am" "Lamp" (by decide)
      (by decide)).1 (by decide),
    by rw [h]; rfl⟩

/-! ## C15 -/

theorem User.only_public (u : User) :
    (User.toJSON u).only ["id", "name", "email"]
      = Json.obj [("id", Json.num u.id), ("name", Json.ofString? u.name),
          ("email", Json.ofString? u.email)] := by
  simp [User.toJSON, Json.only]

/-- The user nested in a subscription is `null` or has the keys `id`, `name`, `email`. -/
theorem Subscription.nested_user (s : Store) (as : String) (userId : Option Int)
    (x : Subscription) (has : as = "subscribedTo" ∨ as = "subscriber") :
    (Subscription.toJSONWithUser s as userId x).keys = ["id", "userId", "subscribedToUserId", as]
    ∧ ∃ nested, (Subscription.toJSONWithUser s as userId x).get? as = some nested
        ∧ (nested.keys = [] ∨ nested.keys = ["id", "name", "email"])
        ∧ "password" ∉ nested.keys := by
  refine ⟨by simp [Subscription.toJSONWithUser, Subscription.toJSON, Json.withField, Json.keys],
    ?_⟩
  have hget : ∀ v, (Json.withField (Subscription.toJSON x) as v).get? as = some v := by
    intro v
    rcases has with rfl | rfl <;>
      simp [Subscription.toJSON, Json.withField, Json.get?, List.find?_cons]
  unfold Subscription.toJSONWithUser
  rw [hget]
  refine ⟨_, rfl, ?_⟩
  cases s.users.rows.find? (fun u => some u.id == userId) with
  | none => simp [Json.ofOption, Json.keys]
  | some u => simp [Json.ofOption, User.only_public, Json.keys]

/-- C15, counterexample. In the store `oneSubscription` no subscription row has
`userId` or `subscribedToUserId` 2147483648, and `GET
/users/2147483648/subscriptions` and `GET /users/2147483648/subscribers` answer
500, not the empty list. -/
theorem subscription_lists_beyond_the_id_range :
    oneSubscription.subscriptions.rows.filter (fun x => x.userId == some 2147483648) = []
    ∧ (GET_users_userId_subscriptions noFaults oneSubscription 2147483648).1
        = internalServerError
    ∧ (GET_users_userId_subscriptions noFaults oneSubscription 2147483648).1.status ≠ 200
    ∧ oneSubscription.subscriptions.rows.filter
        (fun x => x.subscribedToUserId == some 2147483648) = []
    ∧ (GET_users_userId_subscribers noFaults oneSubscription 2147483648).1
        = internalServerError
    ∧ (GET_users_userId_subscribers noFaults oneSubscription 2147483648).1.status ≠ 200 :=
  ⟨by decide, rfl, by decide, by decide, rfl, by decide⟩

/-- C15, amended. For a `userId` in the range of the `INTEGER` column,
`GET /users/{userId}/subscriptions` answers with the subscription rows whose
`userId` is the path id, each with its `subscribedTo` user, and `GET
/users/{userId}/subscribers` with the rows whose `subscribedToUserId` is the
path id, each with its `subscriber` user; every 200 answer is that list; for a
`userId` outside the range, which no row has, the two answer 500. The nested
user is `null` or has exactly the keys `id`, `name`, `email`, so never the
password. -/
theorem subscription_lists_show_public_fields (s : Store) (userId : Int) :
    (inInt4 userId = true →
      GET_users_userId_subscriptions noFaults s userId
        = (Response.json (Json.arr
            ((s.subscriptions.rows.filter (fun x => x.userId == some userId)).map
              (fun x => Subscription.toJSONWithUser s "subscribedTo" x.subscribedToUserId x))), s)
      ∧ GET_users_userId_subscribers noFaults s userId
        = (Response.json (Json.arr
            ((s.subscriptions.rows.filter (fun x => x.subscribedToUserId == some userId)).map
              (fun x => Subscription.toJSONWithUser s "subscriber" x.userId x))), s))
    ∧ (∀ faults : Faults, (GET_users_userId_subscriptions faults s userId).1.status = 200 →
      GET_users_userId_subscriptions faults s userId
        = (Response.json (Json.arr
            ((s.subscriptions.rows.filter (fun x => x.userId == some userId)).map
              (fun x => Subscription.toJSONWithUser s "subscribedTo" x.subscribedToUserId x))), s))
    ∧ (∀ faults : Faults, (GET_users_userId_subscribers faults s userId).1.status = 200 →
      GET_users_userId_subscribers faults s userId
        = (Response.json (Json.arr
            ((s.subscriptions.rows.filter (fun x => x.subscribedToUserId == some userId)).map
              (fun x => Subscription.toJSONWithUser s "subscriber" x.userId x))), s))
    ∧ (inInt4 userId = false →
      ((∀ x ∈ s.subscriptions.rows, x.userId ≠ some userId) →
        GET_users_userId_subscriptions noFaults s userId = (internalServerError, s))
      ∧ ((∀ x ∈ s.subscriptions.rows, x.subscribedToUserId ≠ some userId) →
        GET_users_userId_subscribers noFaults s userId = (internalServerError, s)))
    ∧ (∀ x : Subscription,
        (Subscription.toJSONWithUser s "subscribedTo" x.subscribedToUserId x).keys
          = ["id", "userId", "subscribedToUserId", "subscribedTo"]
        ∧ ∃ nested,
            (Subscription.toJSONWithUser s "subscribedTo" x.subscribedToUserId x).get?
              "subscribedTo" = some nested
            ∧ (nested.keys = [] ∨ nested.keys = ["id", "name", "email"])
            ∧ "password" ∉ nested.keys)
    ∧ (∀ x : Subscription,
        (Subscription.toJSONWithUser s "subscriber" x.userId x).keys
          = ["id", "userId", "subscribedToUserId", "subscriber"]
        ∧ ∃ nested,
            (Subscription.toJSONWithUser s "subscriber" x.userId x).get? "subscriber"
              = some nested
            ∧ (nested.keys = [] ∨ nested.keys = ["id", "name", "email"])
            ∧ "password" ∉ nested.keys) := by
  refine ⟨?_, ?_, ?_, ?_, ?_, ?_⟩
  · intro hr
    simp [GET_users_userId_subscriptions_eq, GET_users_userId_subscribers_eq, hr]
  · intro faults h
    rw [GET_users_userId_subscriptions_eq] at h ⊢
    split_ifs at h ⊢
    · simp [internalServerError, Response.statusJson] at h
    · simp [internalServerError, Response.statusJson] at h
    · rfl
  · intro faults h
    rw [GET_users_userId_subscribers_eq] at h ⊢
    split_ifs at h ⊢
    · simp [internalServerError, Response.statusJson] at h
    · simp [internalServerError, Response.statusJson] at h
    · rfl
  · intro hr
    constructor
    · intro hno
      have : s.subscriptions.rows.filter (fun x => x.userId == some userId) = [] := by
        rw [List.filter_eq_nil_iff]
        intro x hx
        simpa using hno x hx
      simp [GET_users_userId_subscriptions_eq, this, hr]
    · intro hno
      have : s.subscriptions.rows.filter (fun x => x.subscribedToUserId == some userId) = [] := by
        rw [List.filter_eq_nil_iff]
        intro x hx
        simpa using hno x hx
      simp [GET_users_userId_subscribers_eq, this, hr]
  · exact fun x => Subscription.nested_user s _ _ x (Or.inl rfl)
  · exact fun x => Subscription.nested_user s _ _ x (Or.inr rfl)

/-- C15, amended, at the store `oneSubscription`, in which user 1 follows user 2. -/
theorem subscription_lists_show_public_fields_witness :
    (GET_users_userId_subscriptions noFaults oneSubscription 1).1
      = Response.json (Json.arr [Json.obj [("id", Json.num 1), ("userId", Json.num 1),
          ("subscribedToUserId", Json.num 2),
          ("subscribedTo", Json.obj [("id", Json.num 2), ("name", Json.str "B"),
            ("email", Json.str "b@x.com")])]])
    ∧ (GET_users_userId_subscribers noFaults oneSubscription 1).1 = Response.json (Json.arr []) :=
  ⟨by rw [((subscription_lists_show_public_fields oneSubscription 1).1 (by decide)).1]; rfl,
    by rw [((subscription_lists_show_public_fields oneSubscription 1).1 (by decide)).2]; rfl⟩

/-! ## C16 -/

/-- A success response is no error response. -/
theorem shape_of_success (resp : Response) (P400 P409 : Prop)
    (h : resp.status = 200 ∨ resp.status = 201) :
    (resp.status = 200 ∨ resp.status = 201
      ∨ ((resp.status = 400 ∨ resp.status = 404 ∨ resp.status = 409 ∨ resp.status = 500)
        ∧ ∃ m : String, resp.body = message m))
    ∧ (resp.status = 400 → P400) ∧ (resp.status = 409 → P409) := by
  rcases h with h | h
  · exact ⟨Or.inl h, fun h' => absurd h' (by omega), fun h' => absurd h' (by omega)⟩
  · exact ⟨Or.inr (Or.inl h), fun h' => absurd h' (by omega), fun h' => absurd h' (by omega)⟩

/-- A 404 or 500 response with a message has the shape of an error response. -/
theorem shape_of_error (resp : Response) (P400 P409 : Prop)
    (h : resp.status = 404 ∨ resp.status = 500) (m : String) (hb : resp.body = message m) :
    (resp.status = 200 ∨ resp.status = 201
      ∨ ((resp.status = 400 ∨ resp.status = 404 ∨ resp.status = 409 ∨ resp.status = 500)
        ∧ ∃ m : String, resp.body = message m))
    ∧ (resp.status = 400 → P400) ∧ (resp.status = 409 → P409) := by
  rcases h with h | h
  · exact ⟨Or.inr (Or.inr ⟨Or.inr (Or.inl h), m, hb⟩), fun h' => absurd h' (by omega),
      fun h' => absurd h' (by omega)⟩
  · exact ⟨Or.inr (Or.inr ⟨Or.inr (Or.inr (Or.inr h)), m, hb⟩),
      fun h' => absurd h' (by omega), fun h' => absurd h' (by omega)⟩

/-- C16. Every response of every handler has status 200 or 201, or has one of
the statuses 400, 404, 409, 500 and a body `{ message }`. Status 400 comes only
from the self-subscription check of `POST /users/{userId}/subscriptions`,
status 409 only from `POST /users/{userId}/wishlist` when a wishlist of that
user exists. -/
theorem error_responses_carry_a_message (faults : Faults) (s : Store) (r : Request) :
    ((handle faults s r).1.status = 200 ∨ (handle faults s r).1.status = 201
      ∨ (((handle faults s r).1.status = 400 ∨ (handle faults s r).1.status = 404
          ∨ (handle faults s r).1.status = 409 ∨ (handle faults s r).1.status = 500)
        ∧ ∃ m : String, (handle faults s r).1.body = message m))
    ∧ ((handle faults s r).1.status = 400 →
        ∃ u b, r = Request.postSubscriptions u b
          ∧ strictEqNumber (Number (Field.val u)) (Number b.subscribedToUserId) = true
          ∧ (handle faults s r).1.body = message "Cannot subscribe to oneself")
    ∧ ((handle faults s r).1.status = 409 →
        ∃ u, r = Request.postWishList u
          ∧ (∃ w ∈ s.wishLists.rows, w.userId = some u)
          ∧ (handle faults s r).1.body = message "WishList already exists") := by
  cases r <;> simp only [handle]
  case postWishList userId =>
    rw [POST_users_userId_wishlist_eq]
    split
    · exact shape_of_error _ _ _ (Or.inr rfl) _ rfl
    · split
      · rename_i w hw
        have hu : w.userId = some userId := by simpa using List.find?_some hw
        refine ⟨Or.inr (Or.inr ⟨Or.inr (Or.inr (Or.inl rfl)), _, rfl⟩),
          fun h => absurd h (by simp [Response.statusJson]), fun _ => ?_⟩
        exact ⟨userId, rfl, ⟨w, List.mem_of_find?_eq_some hw, hu⟩, rfl⟩
      · repeat' split
        all_goals first
          | exact shape_of_success _ _ _ (Or.inr rfl)
          | exact shape_of_error _ _ _ (Or.inr rfl) _ rfl
  case postSubscriptions userId body =>
    rw [POST_users_userId_subscriptions_eq]
    split
    · rename_i hg
      exact ⟨Or.inr (Or.inr ⟨Or.inl rfl, _, rfl⟩), fun _ => ⟨userId, body, rfl, hg, rfl⟩,
        fun h => absurd h (by simp [Response.statusJson])⟩
    · repeat' split
      all_goals first
        | exact shape_of_success _ _ _ (Or.inr rfl)
        | exact shape_of_error _ _ _ (Or.inr rfl) _ rfl
  all_goals
    first
    | rw [GET_users_eq]
    | rw [POST_users_eq]
    | rw [GET_users_userId_eq]
    | rw [PATCH_users_userId_eq]
    | rw [DELETE_users_userId_eq]
    | rw [GET_users_userId_wishlist_eq]
    | rw [PATCH_users_userId_wishlist_eq]
    | rw [DELETE_users_userId_wishlist_eq]
    | rw [GET_users_userId_wishlist_items_eq]
    | rw [POST_users_userId_wishlist_items_eq]
    | rw [GET_users_userId_wishlist_items_itemId_eq]
    | rw [PATCH_users_userId_wishlist_items_itemId_eq]
    | rw [DELETE_users_userId_wishlist_items_itemId_eq]
    | rw [GET_merchants_eq]
    | rw [POST_merchants_eq]
    | rw [GET_merchants_merchantId_eq]
    | rw [PATCH_merchants_merchantId_eq]
    | rw [DELETE_merchants_merchantId_eq]
    | rw [GET_merchants_merchantId_products_eq]
    | rw [GET_products_eq]
    | rw [POST_products_eq]
    | rw [GET_products_productId_eq]
    | rw [PATCH_products_productId_eq]
    | rw [DELETE_products_productId_eq]
    | rw [GET_users_userId_subscriptions_eq]
    | rw [GET_users_userId_subscribers_eq]
    | rw [DELETE_users_userId_subscriptions_subscriptionId_eq]
  all_goals
    repeat' split
  all_goals first
    | exact shape_of_success _ _ _ (Or.inl rfl)
    | exact shape_of_success _ _ _ (Or.inr rfl)
    | exact shape_of_error _ _ _ (Or.inl rfl) _ rfl
    | exact shape_of_error _ _ _ (Or.inr rfl) _ rfl

/-- C16 at the store `twoUsers`: a second wishlist for user 1 is the 409. -/
theorem error_responses_carry_a_message_witness :
    (handle noFaults twoUsers (Request.postWishList 1)).1.status = 409
    ∧ ∃ u, Request.postWishList 1 = Request.postWishList u
        ∧ (∃ w ∈ twoUsers.wishLists.rows, w.userId = some u)
        ∧ (handle noFaults twoUsers (Request.postWishList 1)).1.body
            = message "WishList already exists" :=
  ⟨by decide,
    (error_responses_carry_a_message noFaults twoUsers (Request.postWishList 1)).2.2
      (by decide)⟩

/-! ## Success responses -/

/-- The saved row is in the table when a row of its id was. -/
theorem Table.mem_save {α : Type} {key : α → Int} {rows : List α} {old r : α}
    (hold : old ∈ rows) (hkey : key old = key r) :
    r ∈ rows.map (fun x => if key x == key r then r else x) :=
  List.mem_map.2 ⟨old, hold, by simp [hkey]⟩

theorem mem_append_new {α : Type} (rows : List α) (r : α) : r ∈ rows ++ [r] :=
  List.mem_append_right _ (List.mem_singleton_self _)

/-- Every success response has the status and the body of its kind of request. -/
theorem handle_success (faults : Faults) (s : Store) (r : Request)
    (h : (handle faults s r).1.status = 200 ∨ (handle faults s r).1.status = 201) :
    (handle faults s r).1.status = r.successStatus
    ∧ successBody s (handle faults s r).2 r (handle faults s r).1.body := by
  cases r <;> simp only [handle, Request.successStatus, successBody] at h ⊢
  all_goals
    first
    | rw [GET_users_eq] at h ⊢
    | rw [POST_users_eq] at h ⊢
    | rw [GET_users_userId_eq] at h ⊢
    | rw [PATCH_users_userId_eq] at h ⊢
    | rw [DELETE_users_userId_eq] at h ⊢
    | rw [GET_users_userId_wishlist_eq] at h ⊢
    | rw [POST_users_userId_wishlist_eq] at h ⊢
    | rw [PATCH_users_userId_wishlist_eq] at h ⊢
    | rw [DELETE_users_userId_wishlist_eq] at h ⊢
    | rw [GET_users_userId_wishlist_items_eq] at h ⊢
    | rw [POST_users_userId_wishlist_items_eq] at h ⊢
    | rw [GET_users_userId_wishlist_items_itemId_eq] at h ⊢
    | rw [PATCH_users_userId_wishlist_items_itemId_eq] at h ⊢
    | rw [DELETE_users_userId_wishlist_items_itemId_eq] at h ⊢
    | rw [GET_merchants_eq] at h ⊢
    | rw [POST_merchants_eq] at h ⊢
    | rw [GET_merchants_merchantId_eq] at h ⊢
    | rw [PATCH_merchants_merchantId_eq] at h ⊢
    | rw [DELETE_merchants_merchantId_eq] at h ⊢
    | rw [GET_merchants_merchantId_products_eq] at h ⊢
    | rw [GET_products_eq] at h ⊢
    | rw [POST_products_eq] at h ⊢
    | rw [GET_products_productId_eq] at h ⊢
    | rw [PATCH_products_productId_eq] at h ⊢
    | rw [DELETE_products_productId_eq] at h ⊢
    | rw [GET_users_userId_subscriptions_eq] at h ⊢
    | rw [POST_users_userId_subscriptions_eq] at h ⊢
    | rw [GET_users_userId_subscribers_eq] at h ⊢
    | rw [DELETE_users_userId_subscriptions_subscriptionId_eq] at h ⊢
  all_goals
    repeat' split at h
  all_goals
    first
    | (exfalso; simp [internalServerError, Response.statusJson, Response.json] at h; done)
    | skip
  all_goals
    simp only [*, if_false, if_true, not_false_eq_true, not_true_eq_false, Response.json,
      Bool.false_eq_true, Bool.true_eq_false, ne_eq, not_not, true_and, Response.statusJson,
      or_self, or_false, false_or]
  all_goals
    first
    | rfl
    | exact ⟨_, mem_append_new _ _, rfl, rfl⟩
    | (have hf := ‹List.find? _ s.users.rows = some _›
       exact ⟨_, List.mem_of_find?_eq_some hf, by simpa using List.find?_some hf, rfl⟩)
    | (have hf := ‹List.find? _ s.users.rows = some _›
       exact ⟨_, Table.mem_save (List.mem_of_find?_eq_some hf) rfl,
         by simpa using List.find?_some hf, rfl⟩)
    | (have hf := ‹List.find? _ s.wishLists.rows = some _›
       exact ⟨_, List.mem_of_find?_eq_some hf, by simpa using List.find?_some hf, rfl⟩)
    | (have hf := ‹List.find? _ s.wishLists.rows = some _›
       exact ⟨_, Table.mem_save (List.mem_of_find?_eq_some hf) rfl,
         by simpa using List.find?_some hf, rfl⟩)
    | (have hf := ‹List.find? _ s.wishListItems.rows = some _›
       exact ⟨_, List.mem_of_find?_eq_some hf, by simpa using List.find?_some hf, rfl⟩)
    | (have hf := ‹List.find? _ s.wishListItems.rows = some _›
       exact ⟨_, Table.mem_save (List.mem_of_find?_eq_some hf) rfl,
         by simpa using List.find?_some hf, rfl⟩)
    | (have hf := ‹List.find? _ s.merchants.rows = some _›
       exact ⟨_, List.mem_of_find?_eq_some hf, by simpa using List.find?_some hf, rfl⟩)
    | (have hf := ‹List.find? _ s.merchants.rows = some _›
       exact ⟨_, Table.mem_save (List.mem_of_find?_eq_some hf) rfl,
         by simpa using List.find?_some hf, rfl⟩)
    | (have hf := ‹List.find? _ s.products.rows = some _›
       exact ⟨_, List.mem_of_find?_eq_some hf, by simpa using List.find?_some hf, rfl⟩)
    | (have hf := ‹List.find? _ s.products.rows = some _›
       exact ⟨_, Table.mem_save (List.mem_of_find?_eq_some hf) rfl,
         by simpa using List.find?_some hf, rfl⟩)
    | (have hf := ‹List.find? _ s.merchants.rows = some _›
       have hid := List.find?_some hf
       simp only [beq_iff_eq] at hid
       rw [hid])

/-! ## C17 -/

/-- C17, counterexample. `DELETE /users/1` on the store `twoUsers` answers 200
with the body `{ message: "User deleted" }`, which is not the deleted user
(with or without its password). -/
theorem delete_answers_with_a_message :
    twoUsers.users.rows.find? (fun r => r.id == 1)
        = some ⟨1, some "A", some "a@x.com", none, none, some "p"⟩
    ∧ (DELETE_users_userId noFaults twoUsers 1).1 = Response.json (message "User deleted")
    ∧ (DELETE_users_userId noFaults twoUsers 1).1.body
        ≠ User.toJSON ⟨1, some "A", some "a@x.com", none, none, some "p"⟩
    ∧ (DELETE_users_userId noFaults twoUsers 1).1.body
        ≠ (User.toJSON ⟨1, some "A", some "a@x.com", none, none, some "p"⟩).exclude
            ["password"] := by
  have h : (DELETE_users_userId noFaults twoUsers 1).1 = Response.json (message "User deleted") :=
    rfl
  refine ⟨by decide, h, ?_, ?_⟩
  · intro e
    have := congrArg Json.keys e
    rw [h] at this
    revert this
    decide
  · intro e
    have := congrArg Json.keys e
    rw [h] at this
    revert this
    decide

/-- C17, amended. Every 2xx response of every handler has status 201 for a
`POST` and 200 otherwise, and its body is: the created row for a `POST`; the
row, or the list of rows, for a `GET` (users without password, wishlists, items
and subscriptions with their included rows); the row as stored for a `PATCH`;
and a `{ message }` naming the deletion for a `DELETE`. -/
theorem success_bodies (faults : Faults) (s : Store) (r : Request)
    (h : (handle faults s r).1.status = 200 ∨ (handle faults s r).1.status = 201) :
    (handle faults s r).1.status = r.successStatus
    ∧ successBody s (handle faults s r).2 r (handle faults s r).1.body :=
  handle_success faults s r h

/-- C17, amended, at `POST /products` on the store `merchantWithLamp`. -/
theorem success_bodies_witness :
    (handle noFaults merchantWithLamp (Request.postProducts bodyLamp)).1.status = 201
    ∧ ∃ p ∈ (handle noFaults merchantWithLamp (Request.postProducts bodyLamp)).2.products.rows,
        p.id = 2
        ∧ (handle noFaults merchantWithLamp (Request.postProducts bodyLamp)).1.body
            = Product.toJSON p :=
  ⟨by decide,
    (success_bodies noFaults merchantWithLamp (Request.postProducts bodyLamp)
      (Or.inr (by decide))).2⟩

/-! ## Persistence calls that throw -/

theorem lt_one_fault {faults : Faults} {k : Nat} (hk : k < 1) (h : faults k = true) :
    faults 0 = true := by
  have : k = 0 := by omega
  rwa [this] at h

theorem lt_two_fault {faults : Faults} {k : Nat} (hk : k < 2) (h : faults k = true) :
    faults 0 = true ∨ faults 1 = true := by
  have : k = 0 ∨ k = 1 := by omega
  rcases this with rfl | rfl
  · exact Or.inl h
  · exact Or.inr h

theorem lt_three_fault {faults : Faults} {k : Nat} (hk : k < 3) (h : faults k = true) :
    faults 0 = true ∨ faults 1 = true ∨ faults 2 = true := by
  have : k = 0 ∨ k = 1 ∨ k = 2 := by omega
  rcases this with rfl | rfl | rfl
  · exact Or.inl h
  · exact Or.inr (Or.inl h)
  · exact Or.inr (Or.inr h)

/-- A persistence call that the handler makes and that throws gives the 500 response. -/
theorem handle_fault (faults : Faults) (s : Store) (r : Request) (k : Nat)
    (hk : k < persistenceCalls s r) (hf : faults k = true) :
    (handle faults s r).1 = internalServerError := by
  cases r <;> simp only [handle, persistenceCalls] at hk ⊢
  case postUsers body =>
    rw [POST_users_eq]
    split at hk
    · rename_i hv
      simp only [Bool.and_eq_true] at hv
      obtain ⟨⟨h1, h2⟩, h3⟩ := hv
      interval_cases k <;> by_cases h0 : faults 0 = true <;> simp [*]
    · interval_cases k
      simp [hf]
  all_goals
    first
    | rw [GET_users_eq]
    | rw [POST_users_eq]
    | rw [GET_users_userId_eq]
    | rw [PATCH_users_userId_eq]
    | rw [DELETE_users_userId_eq]
    | rw [GET_users_userId_wishlist_eq]
    | rw [POST_users_userId_wishlist_eq]
    | rw [PATCH_users_userId_wishlist_eq]
    | rw [DELETE_users_userId_wishlist_eq]
    | rw [GET_users_userId_wishlist_items_eq]
    | rw [POST_users_userId_wishlist_items_eq]
    | rw [GET_users_userId_wishlist_items_itemId_eq]
    | rw [PATCH_users_userId_wishlist_items_itemId_eq]
    | rw [DELETE_users_userId_wishlist_items_itemId_eq]
    | rw [GET_merchants_eq]
    | rw [POST_merchants_eq]
    | rw [GET_merchants_merchantId_eq]
    | rw [PATCH_merchants_merchantId_eq]
    | rw [DELETE_merchants_merchantId_eq]
    | rw [GET_merchants_merchantId_products_eq]
    | rw [GET_products_eq]
    | rw [POST_products_eq]
    | rw [GET_products_productId_eq]
    | rw [PATCH_products_productId_eq]
    | rw [DELETE_products_productId_eq]
    | rw [GET_users_userId_subscriptions_eq]
    | rw [POST_users_userId_subscriptions_eq]
    | rw [GET_users_userId_subscribers_eq]
    | rw [DELETE_users_userId_subscriptions_subscriptionId_eq]
  all_goals
    repeat' split at hk
  all_goals
    interval_cases k <;> by_cases h0 : faults 0 = true <;>
      first
      | contradiction
      | simp [*]

/-- A 500 response is the one response of the `catch` blocks. -/
theorem handle_500 (faults : Faults) (s : Store) (r : Request)
    (h : (handle faults s r).1.status = 500) : (handle faults s r).1 = internalServerError := by
  cases r <;> simp only [handle] at h ⊢
  all_goals
    first
    | rw [GET_users_eq] at h ⊢
    | rw [POST_users_eq] at h ⊢
    | rw [GET_users_userId_eq] at h ⊢
    | rw [PATCH_users_userId_eq] at h ⊢
    | rw [DELETE_users_userId_eq] at h ⊢
    | rw [GET_users_userId_wishlist_eq] at h ⊢
    | rw [POST_users_userId_wishlist_eq] at h ⊢
    | rw [PATCH_users_userId_wishlist_eq] at h ⊢
    | rw [DELETE_users_userId_wishlist_eq] at h ⊢
    | rw [GET_users_userId_wishlist_items_eq] at h ⊢
    | rw [POST_users_userId_wishlist_items_eq] at h ⊢
    | rw [GET_users_userId_wishlist_items_itemId_eq] at h ⊢
    | rw [PATCH_users_userId_wishlist_items_itemId_eq] at h ⊢
    | rw [DELETE_users_userId_wishlist_items_itemId_eq] at h ⊢
    | rw [GET_merchants_eq] at h ⊢
    | rw [POST_merchants_eq] at h ⊢
    | rw [GET_merchants_merchantId_eq] at h ⊢
    | rw [PATCH_merchants_merchantId_eq] at h ⊢
    | rw [DELETE_merchants_merchantId_eq] at h ⊢
    | rw [GET_merchants_merchantId_products_eq] at h ⊢
    | rw [GET_products_eq] at h ⊢
    | rw [POST_products_eq] at h ⊢
    | rw [GET_products_productId_eq] at h ⊢
    | rw [PATCH_products_productId_eq] at h ⊢
    | rw [DELETE_products_productId_eq] at h ⊢
    | rw [GET_users_userId_subscriptions_eq] at h ⊢
    | rw [POST_users_userId_subscriptions_eq] at h ⊢
    | rw [GET_users_userId_subscribers_eq] at h ⊢
    | rw [DELETE_users_userId_subscriptions_subscriptionId_eq] at h ⊢
  all_goals
    repeat' split at h
  all_goals
    first
    | rfl
    | (exfalso; simp [Response.statusJson, Response.json] at h; done)
    | simp [*]

/-- The handler looks at no persistence call beyond the `persistenceCalls` first ones. -/
theorem handle_congr (faults faults' : Faults) (s : Store) (r : Request)
    (h : ∀ k, k < persistenceCalls s r → faults k = faults' k) :
    handle faults s r = handle faults' s r := by
  cases r <;> simp only [handle, persistenceCalls] at h ⊢
  case postUsers body =>
    rw [POST_users_eq, POST_users_eq]
    split at h
    · have h0 := h 0 (by omega)
      have h1 := h 1 (by omega)
      simp [*]
    · rename_i hv
      have h0 := h 0 (by omega)
      simp only [Bool.and_eq_true, not_and, Bool.not_eq_true] at hv
      rw [h0]
      by_cases hn : (body.toRow s.users.nextId).notNull = true
      · by_cases hi : inInt4 s.users.nextId = true
        · simp [hn, hi, hv ⟨hn, hi⟩]
        · simp [hi]
      · simp [hn]
  all_goals
    first
    | rw [GET_users_eq, GET_users_eq]
    | rw [POST_users_eq, POST_users_eq]
    | rw [GET_users_userId_eq, GET_users_userId_eq]
    | rw [PATCH_users_userId_eq, PATCH_users_userId_eq]
    | rw [DELETE_users_userId_eq, DELETE_users_userId_eq]
    | rw [GET_users_userId_wishlist_eq, GET_users_userId_wishlist_eq]
    | rw [POST_users_userId_wishlist_eq, POST_users_userId_wishlist_eq]
    | rw [PATCH_users_userId_wishlist_eq, PATCH_users_userId_wishlist_eq]
    | rw [DELETE_users_userId_wishlist_eq, DELETE_users_userId_wishlist_eq]
    | rw [GET_users_userId_wishlist_items_eq, GET_users_userId_wishlist_items_eq]
    | rw [POST_users_userId_wishlist_items_eq, POST_users_userId_wishlist_items_eq]
    | rw [GET_users_userId_wishlist_items_itemId_eq, GET_users_userId_wishlist_items_itemId_eq]
    | rw [PATCH_users_userId_wishlist_items_itemId_eq,
        PATCH_users_userId_wishlist_items_itemId_eq]
    | rw [DELETE_users_userId_wishlist_items_itemId_eq,
        DELETE_users_userId_wishlist_items_itemId_eq]
    | rw [GET_merchants_eq, GET_merchants_eq]
    | rw [POST_merchants_eq, POST_merchants_eq]
    | rw [GET_merchants_merchantId_eq, GET_merchants_merchantId_eq]
    | rw [PATCH_merchants_merchantId_eq, PATCH_merchants_merchantId_eq]
    | rw [DELETE_merchants_merchantId_eq, DELETE_merchants_merchantId_eq]
    | rw [GET_merchants_merchantId_products_eq, GET_merchants_merchantId_products_eq]
    | rw [GET_products_eq, GET_products_eq]
    | rw [POST_products_eq, POST_products_eq]
    | rw [GET_products_productId_eq, GET_products_productId_eq]
    | rw [PATCH_products_productId_eq, PATCH_products_productId_eq]
    | rw [DELETE_products_productId_eq, DELETE_products_productId_eq]
    | rw [GET_users_userId_subscriptions_eq, GET_users_userId_subscriptions_eq]
    | rw [POST_users_userId_subscriptions_eq, POST_users_userId_subscriptions_eq]
    | rw [GET_users_userId_subscribers_eq, GET_users_userId_subscribers_eq]
    | rw [DELETE_users_userId_subscriptions_subscriptionId_eq,
        DELETE_users_userId_subscriptions_subscriptionId_eq]
  all_goals
    repeat' split at h
  all_goals
    first
    | (have h0 := h 0 (by omega)
       have h1 := h 1 (by omega)
       have h2 := h 2 (by omega)
       simp [*])
    | (have h0 := h 0 (by omega)
       have h1 := h 1 (by omega)
       simp [*])
    | (have h0 := h 0 (by omega)
       simp [*])
    | simp [*]

/-! ## C18 -/

/-- C18. For every request: when one of the persistence calls that its handler
makes throws, the response is `500 { message: "Internal server error" }`; every
500 response is that same response; the handler looks at no other call; and a
write refused for a declared constraint (`allowNull: false`, `unique`, the range
of an `INTEGER` column, a foreign key) gives the same response and writes no
row (when it is refused for `allowNull: false`, the store is as before). -/
theorem persistence_failure_gives_the_generic_500 (faults : Faults) (s : Store)
    (r : Request) :
    internalServerError = ⟨500, Json.obj [("message", Json.str "Internal server error")]⟩
    ∧ (∀ k, k < persistenceCalls s r → faults k = true →
        (handle faults s r).1 = internalServerError)
    ∧ ((handle faults s r).1.status = 500 → (handle faults s r).1 = internalServerError)
    ∧ (∀ faults' : Faults, (∀ k, k < persistenceCalls s r → faults k = faults' k) →
        handle faults s r = handle faults' s r)
    ∧ (∀ body : UserBody, User.valid s.users.rows (body.toRow s.users.nextId) = false →
        (POST_users faults s body).1 = internalServerError
        ∧ (POST_users faults s body).2.users.rows = s.users.rows
        ∧ { (POST_users faults s body).2 with users := s.users } = s
        ∧ ((body.toRow s.users.nextId).notNull = false →
            POST_users faults s body = (internalServerError, s)))
    ∧ (∀ body : MerchantBody,
        Merchant.valid s.merchants.rows (body.toRow s.merchants.nextId) = false →
        (POST_merchants faults s body).1 = internalServerError
        ∧ (POST_merchants faults s body).2.merchants.rows = s.merchants.rows
        ∧ { (POST_merchants faults s body).2 with merchants := s.merchants } = s
        ∧ ((body.toRow s.merchants.nextId).notNull = false →
            POST_merchants faults s body = (internalServerError, s)))
    ∧ (∀ body : ProductBody, (body.toRow s.products.nextId).notNull = false →
        POST_products faults s body = (internalServerError, s))
    ∧ (∀ body : ProductBody,
        (body.toRow s.products.nextId).inRange = false
          ∨ s.merchants.refers Merchant.id body.merchantId.toColumn = false →
        (POST_products faults s body).1 = internalServerError
        ∧ (POST_products faults s body).2.products.rows = s.products.rows
        ∧ { (POST_products faults s body).2 with products := s.products } = s) := by
  refine ⟨rfl, fun k hk hf => handle_fault faults s r k hk hf, handle_500 faults s r,
    fun faults' h => handle_congr faults faults' s r h, ?_, ?_, ?_, ?_⟩
  · intro body hv
    have hv' : (body.toRow s.users.nextId).notNull = false
        ∨ User.emailUnique s.users.rows (body.toRow s.users.nextId) = false := by
      unfold User.valid at hv
      cases hn : (body.toRow s.users.nextId).notNull
      · exact Or.inl rfl
      · rw [hn] at hv
        exact Or.inr (by simpa using hv)
    refine ⟨?_, ?_, ?_, fun hn => by simp [POST_users_eq, hn]⟩
    all_goals
      rw [POST_users_eq]
      rcases hv' with hn | hu
      · simp [hn]
      · simp only [hu, if_true]
        split <;> rfl
  · intro body hv
    have hv' : (body.toRow s.merchants.nextId).notNull = false
        ∨ Merchant.loginUnique s.merchants.rows (body.toRow s.merchants.nextId) = false := by
      unfold Merchant.valid at hv
      cases hn : (body.toRow s.merchants.nextId).notNull
      · exact Or.inl rfl
      · rw [hn] at hv
        exact Or.inr (by simpa using hv)
    refine ⟨?_, ?_, ?_, fun hn => by simp [POST_merchants_eq, hn]⟩
    all_goals
      rw [POST_merchants_eq]
      rcases hv' with hn | hu
      · simp [hn]
      · simp only [hu, if_true]
        split <;> rfl
  · intro body hv
    simp [POST_products_eq, hv]
  · intro body hv
    refine ⟨?_, ?_, ?_⟩
    all_goals
      rw [POST_products_eq]
      rcases hv with hr | hm
      · simp [hr]
      · simp only [hm, if_true]
        split <;> rfl

/-- C18 at the store `twoUsers`: the lookup of the item (the second call of
`GET /users/1/wishlist/items/1`) throws. -/
theorem persistence_failure_gives_the_generic_500_witness :
    1 < persistenceCalls twoUsers (Request.getItem 1 1)
    ∧ secondCallFails 1 = true
    ∧ (handle secondCallFails twoUsers (Request.getItem 1 1)).1
        = ⟨500, Json.obj [("message", Json.str "Internal server error")]⟩
    ∧ (handle noFaults twoUsers (Request.getItem 1 1)).1.status = 200 :=
  ⟨by decide, rfl,
    (persistence_failure_gives_the_generic_500 secondCallFails twoUsers
      (Request.getItem 1 1)).2.1 1 (by decide) rfl,
    by decide⟩

/-! ## C19 -/

/-- C19. Whenever `PATCH /users/{userId}/wishlist/items/{itemId}` answers 200,
whatever `status` the body holds: the item rows are the same as before (ids
being a primary key), the body of the answer is the stored row with the keys
`id`, `wishListId`, `productId` and no `status`, and the following GET of the
item has no `status` either. -/
theorem patched_status_is_not_stored (faults : Faults) (s : Store) (userId itemId : Int)
    (body : WishListItemBody) (hwf : s.WF)
    (h : (PATCH_users_userId_wishlist_items_itemId faults s userId itemId body).1.status = 200) :
    (PATCH_users_userId_wishlist_items_itemId faults s userId itemId body).2 = s
    ∧ (∃ item ∈ s.wishListItems.rows, item.id = itemId
        ∧ (PATCH_users_userId_wishlist_items_itemId faults s userId itemId body).1.body
            = WishListItem.toJSON item)
    ∧ (PATCH_users_userId_wishlist_items_itemId faults s userId itemId body).1.body.keys
        = ["id", "wishListId", "productId"]
    ∧ (PATCH_users_userId_wishlist_items_itemId faults s userId itemId body).1.body.get? "status"
        = none
    ∧ (GET_users_userId_wishlist_items_itemId noFaults
        (PATCH_users_userId_wishlist_items_itemId faults s userId itemId body).2 userId
        itemId).1.status = 200
    ∧ (GET_users_userId_wishlist_items_itemId noFaults
        (PATCH_users_userId_wishlist_items_itemId faults s userId itemId body).2 userId
        itemId).1.body.get? "status" = none := by
  rw [PATCH_users_userId_wishlist_items_itemId_eq] at h ⊢
  by_cases h0 : faults 0 = true
  · simp [h0, internalServerError, Response.statusJson] at h
  cases hW : s.wishLists.rows.find? (fun w => w.userId == some userId) with
  | none =>
    exfalso
    by_cases hr : inInt4 userId = true <;>
      simp [h0, hW, hr, Response.statusJson, internalServerError] at h
  | some W =>
    by_cases h1 : faults 1 = true
    · simp [h0, hW, h1, internalServerError, Response.statusJson] at h
    cases hitem : s.wishListItems.rows.find? (fun i => i.id == itemId) with
    | none =>
      exfalso
      by_cases hr : inInt4 itemId = true <;>
        simp [h0, hW, h1, hitem, hr, Response.statusJson, internalServerError] at h
    | some item =>
      by_cases hown : item.wishListId = some W.id
      swap
      · simp [h0, hW, h1, hitem, hown, Response.statusJson] at h
      by_cases h2 : faults 2 = true
      · simp [h0, hW, h1, hitem, hown, h2, internalServerError, Response.statusJson] at h
      have hmem := List.mem_of_find?_eq_some hitem
      have hid : item.id = itemId := by simpa using List.find?_some hitem
      have hstore : ({ s with wishListItems :=
          ⟨s.wishListItems.rows.map (fun x => if x.id == item.id then item else x),
            s.wishListItems.nextId⟩ } : Store) = s := by
        rw [Table.save_self hwf.wishListItems.1 hmem]
      simp only [h0, h1, h2, hW, hitem, hown, if_false, ne_eq, not_true_eq_false]
      rw [hstore]
      refine ⟨rfl, ⟨item, hmem, hid, rfl⟩, ?_, ?_, ?_, ?_⟩
      · simp [Response.json, WishListItem.toJSON, Json.keys]
      · simp [Response.json, WishListItem.toJSON, Json.get?, List.find?_cons]
      · simp [GET_users_userId_wishlist_items_itemId_eq, hW, hitem, hown, Response.json]
      · simp [GET_users_userId_wishlist_items_itemId_eq, hW, hitem, hown, Response.json,
          WishListItem.toJSONWithProduct, WishListItem.toJSON, Json.withField, Json.get?,
          List.find?_cons]

/-- C19 at `PATCH /users/1/wishlist/items/1` with `{ status: "received" }` on the
store `twoUsers`. -/
theorem patched_status_is_not_stored_witness :
    twoUsers.WF
    ∧ (PATCH_users_userId_wishlist_items_itemId noFaults twoUsers 1 1
        { status := Field.val "received" }).1.status = 200
    ∧ (PATCH_users_userId_wishlist_items_itemId noFaults twoUsers 1 1
        { status := Field.val "received" }).1.body.get? "status" = none
    ∧ (GET_users_userId_wishlist_items_itemId noFaults
        (PATCH_users_userId_wishlist_items_itemId noFaults twoUsers 1 1
          { status := Field.val "received" }).2 1 1).1.body.get? "status" = none :=
  have hwf : twoUsers.WF := reachable_wf (reachable_run Reachable.empty _)
  have h := patched_status_is_not_stored noFaults twoUsers 1 1
    { status := Field.val "received" } hwf (by decide)
  ⟨hwf, by decide, h.2.2.2.1, h.2.2.2.2.2⟩

/-! ## C20 -/

/-- C20. `POST /users` is not atomic: on the empty store, when the creation of
the user succeeds and the creation of its wishlist throws, the answer is the 500
response, and the store holds the new user 1 and no wishlist. -/
theorem user_creation_is_not_atomic :
    ∃ (faults : Faults) (s : Store) (body : UserBody),
      faults 0 = false ∧ faults 1 = true
      ∧ (POST_users faults s body).1 = internalServerError
      ∧ (POST_users faults s body).1.status = 500
      ∧ (∃ u ∈ (POST_users faults s body).2.users.rows,
          u ∉ s.users.rows ∧ u.id = s.users.nextId
          ∧ (POST_users faults s body).2.wishListsOf u.id = [])
      ∧ (POST_users faults s body).2.wishLists.rows = s.wishLists.rows :=
  ⟨secondCallFails, Store.empty, bodyA, rfl, rfl, rfl, rfl,
    ⟨⟨1, some "A", some "a@x.com", none, none, some "p"⟩, by decide, by decide, rfl,
      by decide⟩, rfl⟩

/-! ## C21 -/

/-- With a primary key, saving over a row of the table keeps every column on
which the saved row agrees with the row it replaces. -/
theorem Table.map_save_column {α β : Type} (key : α → Int) (column : α → β) {rows : List α}
    (hnd : (rows.map key).Nodup) {old new : α} (hold : old ∈ rows) (hkey : key new = key old)
    (hcolumn : column new = column old) :
    (rows.map (fun x => if key x == key new then new else x)).map column
      = rows.map column := by
  rw [List.map_map]
  refine List.map_congr_left ?_
  intro x hx
  by_cases hk : key x = key new
  · have hxo : x = old := Table.eq_of_key_eq hnd hx hold (hk.trans hkey)
    rw [Function.comp_apply]
    simp only [beq_iff_eq, hk, if_true]
    rw [hcolumn, hxo]
  · simp [hk]

/-- C21. In a store whose ids are a primary key, whatever the body holds and
whatever the answer is: `PATCH /users/{id}` leaves the columns `id` and
`password` of the users as they were, `PATCH /merchants/{id}` the columns `id`,
`login` and `password` of the merchants, `PATCH /products/{id}` the columns
`id` and `merchantId` of the products, and each leaves the other tables as they
were. The `password`, `login`, `merchantId` of the body are not read at all. -/
theorem patch_leaves_the_unlisted_fields (faults : Faults) (s : Store) (id : Int)
    (hwf : s.WF) :
    (∀ body : UserBody,
      (PATCH_users_userId faults s id body).2.users.rows.map (fun u => (u.id, u.password))
          = s.users.rows.map (fun u => (u.id, u.password))
      ∧ { (PATCH_users_userId faults s id body).2 with users := s.users } = s
      ∧ ∀ password, PATCH_users_userId faults s id { body with password := password }
          = PATCH_users_userId faults s id body)
    ∧ (∀ body : MerchantBody,
      (PATCH_merchants_merchantId faults s id body).2.merchants.rows.map
            (fun m => (m.id, m.login, m.password))
          = s.merchants.rows.map (fun m => (m.id, m.login, m.password))
      ∧ { (PATCH_merchants_merchantId faults s id body).2 with merchants := s.merchants } = s
      ∧ ∀ login password,
          PATCH_merchants_merchantId faults s id
              { body with login := login, password := password }
            = PATCH_merchants_merchantId faults s id body)
    ∧ (∀ body : ProductBody,
      (PATCH_products_productId faults s id body).2.products.rows.map
            (fun p => (p.id, p.merchantId))
          = s.products.rows.map (fun p => (p.id, p.merchantId))
      ∧ { (PATCH_products_productId faults s id body).2 with products := s.products } = s
      ∧ ∀ merchantId,
          PATCH_products_productId faults s id { body with merchantId := merchantId }
            = PATCH_products_productId faults s id body) := by
  refine ⟨?_, ?_, ?_⟩
  · intro body
    refine ⟨?_, ?_, fun _ => by simp only [PATCH_users_userId_eq]; rfl⟩
    · rw [PATCH_users_userId_eq]
      split
      · rfl
      · split
        · split <;> rfl
        · rename_i old hold
          split
          · rfl
          · exact Table.map_save_column User.id _ hwf.users.1 (List.mem_of_find?_eq_some hold) rfl rfl
    · rw [PATCH_users_userId_eq]
      repeat' split
      all_goals rfl
  · intro body
    refine ⟨?_, ?_, fun _ _ => by simp only [PATCH_merchants_merchantId_eq]; rfl⟩
    · rw [PATCH_merchants_merchantId_eq]
      split
      · rfl
      · split
        · split <;> rfl
        · rename_i old hold
          split
          · rfl
          · exact Table.map_save_column Merchant.id _ hwf.merchants.1
              (List.mem_of_find?_eq_some hold) rfl rfl
    · rw [PATCH_merchants_merchantId_eq]
      repeat' split
      all_goals rfl
  · intro body
    refine ⟨?_, ?_, fun _ => by simp only [PATCH_products_productId_eq]; rfl⟩
    · rw [PATCH_products_productId_eq]
      split
      · rfl
      · split
        · split <;> rfl
        · rename_i old hold
          split
          · rfl
          · exact Table.map_save_column Product.id _ hwf.products.1
              (List.mem_of_find?_eq_some hold) rfl rfl
    · rw [PATCH_products_productId_eq]
      repeat' split
      all_goals rfl

/-- C21 at the store `twoUsers`: `PATCH /users/1` with
`{ name: "Z", password: "new" }` answers 200, renames the user and keeps the
password "p". -/
theorem patch_leaves_the_unlisted_fields_witness :
    twoUsers.WF
    ∧ (PATCH_users_userId noFaults twoUsers 1
        { name := Field.val "Z", password := Field.val "new" }).1.status = 200
    ∧ (PATCH_users_userId noFaults twoUsers 1
        { name := Field.val "Z", password := Field.val "new" }).2.users.rows
        = [⟨1, some "Z", some "a@x.com", none, none, some "p"⟩,
            ⟨2, some "B", some "b@x.com", none, none, some "q"⟩]
    ∧ (PATCH_users_userId noFaults twoUsers 1
        { name := Field.val "Z", password := Field.val "new" }).2.users.rows.map
          (fun u => (u.id, u.password))
        = twoUsers.users.rows.map (fun u => (u.id, u.password)) :=
  have hwf : twoUsers.WF := reachable_wf (reachable_run Reachable.empty _)
  ⟨hwf, by decide, by decide,
    ((patch_leaves_the_unlisted_fields noFaults twoUsers 1 hwf).1
      { name := Field.val "Z", password := Field.val "new" }).1⟩

end Sss
